import Mathlib

/-!
# Scene translation of the appleseed plugin for 3ds Max

A shallow embedding of `src/appleseed-plugin-impl/renderer/projectbuilder.cpp`,
the translation of a host scene (nodes, meshes, materials, lights) into the
renderer's project, and of `create_material` of
`src/appleseed-max-impl/disneymtl/appleseeddisneymtl.cpp`, followed by theorems
about them.

Conventions of the embedding.

* Host pointers (`Object*`, `Mtl*`) are natural numbers; the host heap maps a
  material pointer to the material it designates.
* A renderer container is the list of its entities in insertion order;
  `get_by_name` is membership of the name, `insert` appends.
* `float` values are carried as rationals. The translated code copies them or
  uses constants; where it multiplies or divides them, the operation is kept
  as an expression (`timesPi`, `radToDeg`) or is the one of `Machine` (a
  rounding operation).
* Every host value is the value at the evaluation time `time` of the build.
* Indices are natural numbers. The `uint32` casts of the source are exact:
  `reserve_vertex_normals(mesh.getNumFaces() * 3)` is `int` arithmetic, so a
  mesh for which the source is defined has fewer than `2^31` normals.
-/

namespace AppleseedMax

/-! ## Host and renderer values -/

/-- A `float` of the source. -/
abbrev Scalar := ℚ

/-- Host `Point3` (also `UVVert`, which is a `Point3`). -/
structure Point3 where
  x : Scalar
  y : Scalar
  z : Scalar
deriving DecidableEq, Repr

/-- Renderer `asr::GVector3`. -/
structure GVector3 where
  x : Scalar
  y : Scalar
  z : Scalar
deriving DecidableEq, Repr

/-- Renderer `asr::GVector2`. -/
structure GVector2 where
  x : Scalar
  y : Scalar
deriving DecidableEq, Repr

/-- Renderer `asf::Color3f`. -/
structure Color3f where
  r : Scalar
  g : Scalar
  b : Scalar
deriving DecidableEq, Repr

/-- Host `Matrix3`: 4 rows of 3 columns. -/
abbrev Matrix3 := Fin 4 → Fin 3 → Scalar

/-- Renderer `asf::Transformd`, as the expression that builds it:
`Transformd::identity()` or
`Transformd::from_local_to_parent(to_matrix4d(m))`. -/
inductive Transformd where
  | identity : Transformd
  | from_local_to_parent (m : Matrix3) : Transformd

/-- A value stored in an `asr::ParamArray`. `timesPi x` is `x * asf::Pi` and
`radToDeg x` is `asf::rad_to_deg(x)`, kept as expressions; `vec2i` and `vec2f`
are `asf::Vector2i` and `asf::Vector2f`. -/
inductive ParamValue where
  | str (s : String) : ParamValue
  | num (x : Scalar) : ParamValue
  | int (i : Int) : ParamValue
  | timesPi (x : Scalar) : ParamValue
  | bool (b : Bool) : ParamValue
  | color (c : Color3f) : ParamValue
  | vec2i (x : Int) (y : Int) : ParamValue
  | vec2f (x : Scalar) (y : Scalar) : ParamValue
  | radToDeg (x : Scalar) : ParamValue
deriving DecidableEq, Repr

/-- Dictionary insertion (`asf::Dictionary::insert`): the value of an existing
key is replaced, a new key is added at the end. -/
def dict_insert {α : Type} (d : List (String × α)) (key : String) (value : α) :
    List (String × α) :=
  match d with
  | [] => [(key, value)]
  | (k, v) :: rest =>
    if k = key then (k, value) :: rest else (k, v) :: dict_insert rest key value

/-- Dictionary lookup. -/
def dict_get {α : Type} (d : List (String × α)) (key : String) : Option α :=
  match d with
  | [] => none
  | (k, v) :: rest => if k = key then some v else dict_get rest key

/-- Renderer `asr::ParamArray`. -/
abbrev ParamArray := List (String × ParamValue)

/-- Renderer `asf::StringDictionary`. -/
abbrev StringDictionary := List (String × String)

/-! ## Host mesh -/

/-- Host `Face`: three vertex indices, smoothing-group mask, material ID. -/
structure Face where
  v0 : Nat
  v1 : Nat
  v2 : Nat
  smGroup : Nat
  matID : Nat
deriving DecidableEq, Repr

/-- The call `face.getVert(j)`. -/
def Face.getVert (f : Face) (j : Nat) : Nat :=
  match j with
  | 0 => f.v0
  | 1 => f.v1
  | _ => f.v2

/-- Host `TVFace`: three texture-vertex indices. -/
structure TVFace where
  t0 : Nat
  t1 : Nat
  t2 : Nat
deriving DecidableEq, Repr

/-- The call `tvface.getTVert(j)`. -/
def TVFace.getTVert (f : TVFace) (j : Nat) : Nat :=
  match j with
  | 0 => f.t0
  | 1 => f.t1
  | _ => f.t2

/-- Host `RNormal`: a render normal with its smoothing groups and material. -/
structure RNormal where
  normal : Point3
  smGroup : Nat
  mtlIndex : Nat
deriving DecidableEq, Repr

/-- Host `RVertex`: flags (the low byte counts the normals), the single normal
`rn`, and the array `ern` of normals used when there are several. -/
structure RVertex where
  rFlags : Nat
  rn : RNormal
  ern : Nat → RNormal

/-- Host SDK constant `NORCT_MASK`: the bits of `rFlags` that count normals. -/
def NORCT_MASK : Nat := 0xFF

/-- Host `Mesh`, after `checkNormals(TRUE)` has built its normals. The arrays
whose length the source reads are lists; the ones it only indexes
(`tvFace`, render vertices, face normals) are functions of the index. -/
structure Mesh where
  verts : List Point3
  tVerts : List Point3
  faces : List Face
  tvFace : Nat → TVFace
  getRVert : Nat → RVertex
  getFaceNormal : Nat → Point3

/-! ## Renderer mesh object -/

/-- Renderer `asr::Triangle`. A normal index is `none` when the source stores
`normal_indices[j]` without having assigned it (an indeterminate value). -/
structure Triangle where
  m_v0 : Nat
  m_v1 : Nat
  m_v2 : Nat
  m_n0 : Option Nat
  m_n1 : Option Nat
  m_n2 : Option Nat
  m_a0 : Nat
  m_a1 : Nat
  m_a2 : Nat
  m_pa : Nat
deriving DecidableEq, Repr

/-- Renderer `asr::MeshObject`. -/
structure MeshObject where
  name : String
  material_slots : List String
  vertices : List GVector3
  tex_coords : List GVector2
  vertex_normals : List GVector3
  triangles : List Triangle
deriving DecidableEq, Repr

/-- The call `MeshObjectFactory::create(name, ParamArray())`. -/
def MeshObject.create (name : String) : MeshObject :=
  { name := name, material_slots := [], vertices := [], tex_coords := [],
    vertex_normals := [], triangles := [] }

/-- The call `push_material_slot`: returns the index of the new slot. -/
def MeshObject.push_material_slot (o : MeshObject) (s : String) : MeshObject × Nat :=
  ({ o with material_slots := o.material_slots ++ [s] }, o.material_slots.length)

/-- The call `push_vertex`. -/
def MeshObject.push_vertex (o : MeshObject) (v : GVector3) : MeshObject :=
  { o with vertices := o.vertices ++ [v] }

/-- The call `push_tex_coords`. -/
def MeshObject.push_tex_coords (o : MeshObject) (v : GVector2) : MeshObject :=
  { o with tex_coords := o.tex_coords ++ [v] }

/-- The call `push_vertex_normal`: returns the index of the new normal. -/
def MeshObject.push_vertex_normal (o : MeshObject) (n : GVector3) : MeshObject × Nat :=
  ({ o with vertex_normals := o.vertex_normals ++ [n] }, o.vertex_normals.length)

/-- The call `push_triangle`. -/
def MeshObject.push_triangle (o : MeshObject) (t : Triangle) : MeshObject :=
  { o with triangles := o.triangles ++ [t] }

/-- Conversion `asr::GVector3(n.x, n.y, n.z)` of a host point. -/
def to_gvector3 (n : Point3) : GVector3 := ⟨n.x, n.y, n.z⟩

/-- The inner loop `for (k = 0; k < normal_count; ++k)` of `create_mesh_object`,
started at index `k` with `remaining` iterations left: the first render normal
whose smoothing groups meet the face's and whose material is the face's. -/
def find_normal (ern : Nat → RNormal) (face_smgroup face_mat : Nat) :
    (remaining : Nat) → (k : Nat) → Option RNormal
  | 0, _ => none
  | remaining + 1, k =>
    if (face_smgroup &&& (ern k).smGroup) ≠ 0 ∧ face_mat = (ern k).mtlIndex then
      some (ern k)
    else
      find_normal ern face_smgroup face_mat remaining (k + 1)

/-- Body of the loop `for (j = 0; j < 3; ++j)` of `create_mesh_object` for the
corner at vertex `vert`: the object after the push, and the value of
`normal_indices[j]` (`none` when no assignment was executed). -/
def resolve_corner (mesh : Mesh) (face_smgroup face_mat : Nat) (object : MeshObject)
    (vert : Nat) : MeshObject × Option Nat :=
  let rvertex := mesh.getRVert vert
  let normal_count := rvertex.rFlags &&& NORCT_MASK
  if normal_count = 1 then
    let n := rvertex.rn.normal
    let r := object.push_vertex_normal ⟨n.x, n.y, n.z⟩
    (r.1, some r.2)
  else
    match find_normal rvertex.ern face_smgroup face_mat normal_count 0 with
    | some rn =>
      let n := rn.normal
      let r := object.push_vertex_normal ⟨n.x, n.y, n.z⟩
      (r.1, some r.2)
    | none => (object, none)

/-- The `if (face_smgroup == 0) ... else ...` block of the loop over faces of
`create_mesh_object` for face `i`: the object after the pushes of normals, and
the three entries of `normal_indices`. -/
def face_normals (mesh : Mesh) (object : MeshObject) (i : Nat) (face : Face) :
    MeshObject × Option Nat × Option Nat × Option Nat :=
  let face_smgroup := face.smGroup
  let face_mat := face.matID
  if face_smgroup = 0 then
    let n := mesh.getFaceNormal i
    let p := object.push_vertex_normal ⟨n.x, n.y, n.z⟩
    (p.1, some p.2, some p.2, some p.2)
  else
    let c0 := resolve_corner mesh face_smgroup face_mat object (face.getVert 0)
    let c1 := resolve_corner mesh face_smgroup face_mat c0.1 (face.getVert 1)
    let c2 := resolve_corner mesh face_smgroup face_mat c1.1 (face.getVert 2)
    (c2.1, c0.2, c1.2, c2.2)

/-- Body of the loop over faces of `create_mesh_object` for face `i`. -/
def translate_face (mesh : Mesh) (material_slot : Nat) (object : MeshObject)
    (i : Nat) (face : Face) : MeshObject :=
  let tvface := mesh.tvFace i
  let r := face_normals mesh object i face
  r.1.push_triangle
    { m_v0 := face.getVert 0, m_v1 := face.getVert 1, m_v2 := face.getVert 2,
      m_n0 := r.2.1, m_n1 := r.2.2.1, m_n2 := r.2.2.2,
      m_a0 := tvface.getTVert 0, m_a1 := tvface.getTVert 1, m_a2 := tvface.getTVert 2,
      m_pa := material_slot }

/-- The loop over faces of `create_mesh_object`, from face index `i` on. -/
def translate_faces (mesh : Mesh) (material_slot : Nat) :
    MeshObject → Nat → List Face → MeshObject
  | object, _, [] => object
  | object, i, face :: rest =>
    translate_faces mesh material_slot (translate_face mesh material_slot object i face)
      (i + 1) rest

/-- The first part of the block of `create_mesh_object` that fills the new mesh
object: the material slot, then the copy of the vertices and of the texture
vertices. Returns the object and the value of `material_slot`. -/
def copy_vertices (object_name : String) (mesh : Mesh) : MeshObject × Nat :=
  let object := MeshObject.create object_name
  let p := object.push_material_slot "material"
  let material_slot := p.2
  let object := mesh.verts.foldl
    (fun o v => o.push_vertex ⟨v.x, v.y, v.z⟩) p.1
  let object := mesh.tVerts.foldl
    (fun o uv => o.push_tex_coords ⟨uv.x, uv.y⟩) object
  (object, material_slot)

/-- The block of `create_mesh_object` that fills the new mesh object from the
host mesh: material slot, vertices, texture vertices, normals and triangles. -/
def fill_mesh_object (object_name : String) (mesh : Mesh) : MeshObject :=
  let c := copy_vertices object_name mesh
  translate_faces mesh c.2 c.1 0 mesh.faces

/-- The mesh object as it is when the loop over faces reaches face `i`: the
faces before `i` have been translated. -/
def object_before_face (object_name : String) (mesh : Mesh) (i : Nat) : MeshObject :=
  let c := copy_vertices object_name mesh
  translate_faces mesh c.2 c.1 0 (mesh.faces.take i)

/-- The mesh object right after face `i` has been translated, that is when its
triangle has just been pushed. -/
def object_after_face (object_name : String) (mesh : Mesh) (i : Nat) : MeshObject :=
  let c := copy_vertices object_name mesh
  translate_faces mesh c.2 c.1 0 (mesh.faces.take (i + 1))

/-- The normal index stored for corner `j` of a triangle. -/
def Triangle.normal_index (t : Triangle) (j : Nat) : Option Nat :=
  match j with
  | 0 => t.m_n0
  | 1 => t.m_n1
  | _ => t.m_n2

/-- The vertex index stored for corner `j` of a triangle. -/
def Triangle.vertex_index (t : Triangle) (j : Nat) : Nat :=
  match j with
  | 0 => t.m_v0
  | 1 => t.m_v1
  | _ => t.m_v2

/-- The texture-coordinate index stored for corner `j` of a triangle. -/
def Triangle.tex_index (t : Triangle) (j : Nat) : Nat :=
  match j with
  | 0 => t.m_a0
  | 1 => t.m_a1
  | _ => t.m_a2

/-- The normal vector a mesh object holds for corner `j` of its triangle `i`:
the entry of `vertex_normals` at the corner's normal index, when the triangle
exists, the index was assigned and it is in range. -/
def corner_normal (object : MeshObject) (i j : Nat) : Option GVector3 :=
  match object.triangles[i]? with
  | none => none
  | some t =>
    match t.normal_index j with
    | none => none
    | some k => object.vertex_normals[k]?

/-- The host normal chosen for a corner at vertex `vert` of a face with a
non-zero smoothing-group mask: the vertex's single normal when it has exactly
one, else the first listed normal that matches the face; `none` when the
search finds no normal. -/
def host_normal (mesh : Mesh) (face_smgroup face_mat vert : Nat) : Option GVector3 :=
  let rvertex := mesh.getRVert vert
  let normal_count := rvertex.rFlags &&& NORCT_MASK
  if normal_count = 1 then
    some ⟨rvertex.rn.normal.x, rvertex.rn.normal.y, rvertex.rn.normal.z⟩
  else
    (find_normal rvertex.ern face_smgroup face_mat normal_count 0).map
      (fun rn => ⟨rn.normal.x, rn.normal.y, rn.normal.z⟩)

/-! ## Renderer assembly -/

/-- Renderer `asr::ColorEntity`. -/
structure ColorEntity where
  name : String
  params : ParamArray
deriving DecidableEq, Repr

/-- Renderer `asr::Material`: model (`generic_material`, `disney_material`),
parameters, and the layers added with `add_layer` (Disney material only). -/
structure Material where
  name : String
  model : String
  params : ParamArray
  layers : List ParamArray
deriving DecidableEq, Repr

/-- Renderer `asr::Light`. -/
structure Light where
  name : String
  model : String
  params : ParamArray
  transform : Transformd

/-- Renderer `asr::ObjectInstance`. -/
structure ObjectInstance where
  name : String
  params : ParamArray
  object_name : String
  transform : Transformd
  front_material_mappings : StringDictionary
  back_material_mappings : StringDictionary

/-- Renderer texture or texture instance, as far as the translation sees it. -/
structure TextureEntity where
  name : String
  params : ParamArray
deriving DecidableEq, Repr

/-- Renderer `asr::Assembly` (for `insert_color`, any `asr::BaseGroup`). -/
structure Assembly where
  objects : List MeshObject
  object_instances : List ObjectInstance
  materials : List Material
  lights : List Light
  colors : List ColorEntity
  textures : List TextureEntity
  texture_instances : List TextureEntity

/-- The call `AssemblyFactory().create(...)`: an assembly without entities. -/
def Assembly.empty : Assembly :=
  { objects := [], object_instances := [], materials := [], lights := [],
    colors := [], textures := [], texture_instances := [] }

/-! ## Host scene -/

/-- Interface `IAppleseedMtl` of a renderer-aware host material:
`create_material(assembly, name)` returns the material; its effect on the
assembly is the one of the implementation in `appleseeddisneymtl.cpp`, which
inserts textures and texture instances (through `insert_texture_and_instance`)
and nothing else. The result is the material, the inserted textures and the
inserted texture instances. -/
structure IAppleseedMtl where
  create_material :
    Assembly → String → Material × List TextureEntity × List TextureEntity

/-- Host material `Mtl`: its name, and the result of
`GetInterface(IAppleseedMtl::interface_id())` (`none` is `nullptr`). -/
structure Mtl where
  name : String
  appleseed_mtl : Option IAppleseedMtl

/-- Host node `INode` holding geometry: name, `GetObjectRef()` (a pointer),
the mesh of `EvalWorldState(time)` when its object converts to a `TriObject`
(`none`: `CanConvertToType` is false), `GetObjTMAfterWSM(time)`, `GetMtl()`
(`none` is `nullptr`) and `to_color3f(Color(GetWireColor()))`. -/
structure INode where
  name : String
  objectRef : Nat
  tri_object : Option Mesh
  objTM : Matrix3
  mtl : Option Nat
  wire_color : Color3f

/-- Host light classes tested by `add_light` (`ClassID()`). -/
inductive LightClass where
  | OMNI_LIGHT_CLASS_ID
  | SPOT_LIGHT_CLASS_ID
  | FSPOT_LIGHT_CLASS_ID
  | DIR_LIGHT_CLASS_ID
  | TDIR_LIGHT_CLASS_ID
  | other
deriving DecidableEq, Repr

/-- Host node `INode` holding a light: name, transform and the `GenLight`
obtained from `EvalWorldState(time)` (class, colour, intensity, decay radius,
decay type, hotspot and fall size). -/
structure LightNode where
  name : String
  objTM : Matrix3
  classID : LightClass
  color : Color3f
  intensity : Scalar
  decay_radius : Scalar
  decay_type : Int
  hotspot : Scalar
  fallsize : Scalar

/-- Host `LightType` of a default light. -/
inductive LightType where
  | OMNI_LGT
  | SPOT_LGT
  | DIRECT_LGT
  | AMBIENT_LGT
deriving DecidableEq, Repr

/-- Host `LightState`, as far as `add_default_lights` reads it. -/
structure LightState where
  type : LightType
  color : Color3f
  intens : Scalar
  hotsize : Scalar
  fallsize : Scalar

/-- Host `DefaultLight`. -/
structure DefaultLight where
  ls : LightState
  tm : Matrix3

/-- Collected scene `MaxSceneEntities`. -/
structure MaxSceneEntities where
  m_objects : List INode
  m_lights : List LightNode

/-- Render mode `RenderType`. -/
inductive RenderType where
  | Default
  | MaterialPreview
deriving DecidableEq, Repr

/-- What the translation takes from outside `projectbuilder.cpp`: the host heap
(`mtl p` is the material a non-null `Mtl*` of value `p` points to) and the
renderer functions `asr::make_unique_name(prefix, entities)` (given the names
of the entities), `fmt_expr` on a colour, `asf::linear_rgb_to_srgb`, and
`asr::DisneyMaterialLayer::get_default_values()`. -/
structure Env where
  mtl : Nat → Mtl
  asr_make_unique_name : String → List String → String
  fmt_expr : Color3f → String
  linear_rgb_to_srgb : Color3f → Color3f
  layer_default_values : ParamArray

/-! ## Translation (`projectbuilder.cpp`) -/

/-- Source `make_unique_name`, on the names of the container's entities. -/
def make_unique_name (env : Env) (entities : List String) (name : String) : String :=
  if name ∈ entities then env.asr_make_unique_name (name ++ "_") entities else name

/-- Source `insert_color`: the changed group and the name of the colour. -/
def insert_color (env : Env) (base_group : Assembly) (name : String)
    (linear_rgb : Color3f) : Assembly × String :=
  let name := make_unique_name env (base_group.colors.map (·.name)) name
  ({ base_group with
      colors := base_group.colors ++
        [{ name := name,
           params := dict_insert (dict_insert [] "color_space" (.str "linear_rgb"))
             "color" (.color linear_rgb) }] },
   name)

/-- Source `add_empty_material`. -/
def add_empty_material (assembly : Assembly) (name : String) : Assembly :=
  { assembly with
    materials := assembly.materials ++
      [{ name := name, model := "generic_material", params := [], layers := [] }] }

/-- Source `add_default_material`. -/
def add_default_material (env : Env) (assembly : Assembly) (name : String)
    (linear_rgb : Color3f) : Assembly :=
  let layer :=
    dict_insert
      (dict_insert
        (dict_insert env.layer_default_values
          "base_color" (.str (env.fmt_expr (env.linear_rgb_to_srgb linear_rgb))))
        "specular" (.num 1.0))
      "roughness" (.num 0.625)
  { assembly with
    materials := assembly.materials ++
      [{ name := name, model := "disney_material", params := [], layers := [layer] }] }

/-- Source `create_mesh_object`: the changed assembly, the value left in
`object_name`, and the returned flag. -/
def create_mesh_object (env : Env) (assembly : Assembly) (object_node : INode) :
    Assembly × String × Bool :=
  let object_name := make_unique_name env (assembly.objects.map (·.name)) object_node.name
  match object_node.tri_object with
  | none => (assembly, object_name, false)
  | some mesh =>
    ({ assembly with objects := assembly.objects ++ [fill_mesh_object object_name mesh] },
     object_name, true)

/-- Source `MaterialMap`: `std::map<Mtl*, std::string>`. -/
abbrev MaterialMap := List (Nat × String)

/-- Source `ObjectInfo`. -/
structure ObjectInfo where
  m_valid : Bool
  m_name : String
deriving DecidableEq, Repr

/-- Source `ObjectMap`: `std::map<Object*, ObjectInfo>`. -/
abbrev ObjectMap := List (Nat × ObjectInfo)

/-- The call `std::map::find`: `none` is `end()`. -/
def map_find {α : Type} (m : List (Nat × α)) (key : Nat) : Option α :=
  match m with
  | [] => none
  | (k, v) :: rest => if k = key then some v else map_find rest key

/-- The call `std::map::insert`: a present key keeps its value. -/
def map_insert {α : Type} (m : List (Nat × α)) (key : Nat) (value : α) :
    List (Nat × α) :=
  match map_find m key with
  | some _ => m
  | none => (key, value) :: m

/-- State threaded through `add_objects`: the assembly, the two registries,
and a record of the calls made to the collaborators, in call order:
`translated` lists the object pointer of every call of `create_mesh_object`,
`created` the material pointer and name of every call of a material's
`create_material`. -/
structure BuildState where
  assembly : Assembly
  object_map : ObjectMap
  material_map : MaterialMap
  translated : List Nat
  created : List (Nat × String)

/-- Source `create_object_instance`, on the build state (it changes the
assembly and the material registry). -/
def create_object_instance (env : Env) (s : BuildState) (instance_node : INode)
    (object_name : String) (type : RenderType) : BuildState :=
  let assembly := s.assembly
  let instance_name :=
    make_unique_name env (assembly.object_instances.map (·.name)) (object_name ++ "_inst")
  let transform := Transformd.from_local_to_parent instance_node.objTM
  let r : BuildState × String :=
    match instance_node.mtl with
    | some mtl =>
      match (env.mtl mtl).appleseed_mtl with
      | some appleseed_mtl =>
        match map_find s.material_map mtl with
        | none =>
          let material_name :=
            make_unique_name env (assembly.materials.map (·.name)) (env.mtl mtl).name
          let c := appleseed_mtl.create_material assembly material_name
          ({ s with
              assembly :=
                { assembly with
                  textures := assembly.textures ++ c.2.1,
                  texture_instances := assembly.texture_instances ++ c.2.2,
                  materials := assembly.materials ++ [c.1] },
              material_map := map_insert s.material_map mtl material_name,
              created := s.created ++ [(mtl, material_name)] },
           material_name)
        | some name => (s, name)
      | none =>
        let material_name :=
          make_unique_name env (assembly.materials.map (·.name)) (instance_name ++ "_mat")
        ({ s with assembly := add_empty_material assembly material_name }, material_name)
    | none =>
      let material_name :=
        make_unique_name env (assembly.materials.map (·.name)) (instance_name ++ "_mat")
      ({ s with
          assembly := add_default_material env assembly material_name
            instance_node.wire_color },
       material_name)
  let material_mappings : StringDictionary := dict_insert [] "material" r.2
  let params : ParamArray :=
    if type = RenderType.MaterialPreview then
      dict_insert [] "visibility.shadow" (.bool false)
    else []
  { r.1 with
    assembly :=
      { r.1.assembly with
        object_instances := r.1.assembly.object_instances ++
          [{ name := instance_name, params := params, object_name := object_name,
             transform := transform,
             front_material_mappings := material_mappings,
             back_material_mappings := material_mappings }] } }

/-- Source `add_object`. -/
def add_object (env : Env) (type : RenderType) (s : BuildState) (node : INode) :
    BuildState :=
  let object := node.objectRef
  let r : BuildState × ObjectInfo :=
    match map_find s.object_map object with
    | none =>
      let c := create_mesh_object env s.assembly node
      let object_info : ObjectInfo := { m_valid := c.2.2, m_name := c.2.1 }
      ({ s with
          assembly := c.1,
          object_map := map_insert s.object_map object object_info,
          translated := s.translated ++ [object] },
       object_info)
    | some info => (s, info)
  if r.2.m_valid then
    create_object_instance env r.1 node r.2.m_name type
  else r.1

/-- Source `add_objects`, keeping the final registries and call record. -/
def add_objects_state (env : Env) (assembly : Assembly) (entities : MaxSceneEntities)
    (type : RenderType) : BuildState :=
  entities.m_objects.foldl (add_object env type)
    { assembly := assembly, object_map := [], material_map := [],
      translated := [], created := [] }

/-- Source `add_objects`. -/
def add_objects (env : Env) (assembly : Assembly) (entities : MaxSceneEntities)
    (type : RenderType) : Assembly :=
  (add_objects_state env assembly entities type).assembly

/-- Source `add_omni_light`. -/
def add_omni_light (assembly : Assembly) (light_name : String) (transform : Transformd)
    (color_name : String) (intensity decay_start : Scalar) (decay_exponent : Int) :
    Assembly :=
  { assembly with
    lights := assembly.lights ++
      [{ name := light_name, model := "max_omni_light",
         params :=
           dict_insert (dict_insert (dict_insert (dict_insert []
             "intensity" (.str color_name))
             "intensity_multiplier" (.timesPi intensity))
             "decay_start" (.num decay_start))
             "decay_exponent" (.int decay_exponent),
         transform := transform }] }

/-- Source `add_spot_light`. -/
def add_spot_light (assembly : Assembly) (light_name : String) (transform : Transformd)
    (color_name : String) (intensity inner_angle outer_angle decay_start : Scalar)
    (decay_exponent : Int) : Assembly :=
  { assembly with
    lights := assembly.lights ++
      [{ name := light_name, model := "max_spot_light",
         params :=
           dict_insert (dict_insert (dict_insert (dict_insert (dict_insert (dict_insert []
             "intensity" (.str color_name))
             "intensity_multiplier" (.timesPi intensity))
             "inner_angle" (.num inner_angle))
             "outer_angle" (.num outer_angle))
             "decay_start" (.num decay_start))
             "decay_exponent" (.int decay_exponent),
         transform := transform }] }

/-- Source `add_directional_light`. -/
def add_directional_light (assembly : Assembly) (light_name : String)
    (transform : Transformd) (color_name : String) (intensity : Scalar) : Assembly :=
  { assembly with
    lights := assembly.lights ++
      [{ name := light_name, model := "directional_light",
         params :=
           dict_insert (dict_insert []
             "irradiance" (.str color_name))
             "irradiance_multiplier" (.timesPi intensity),
         transform := transform }] }

/-- Source `add_light`. -/
def add_light (env : Env) (assembly : Assembly) (light_node : LightNode) : Assembly :=
  let light_name := make_unique_name env (assembly.lights.map (·.name)) light_node.name
  let transform := Transformd.from_local_to_parent light_node.objTM
  let color := light_node.color
  let intensity := light_node.intensity
  let decay_start := light_node.decay_radius
  let decay_exponent := light_node.decay_type
  let c := insert_color env assembly (light_name ++ "_color") color
  let assembly := c.1
  let color_name := c.2
  match light_node.classID with
  | .OMNI_LIGHT_CLASS_ID =>
    add_omni_light assembly light_name transform color_name intensity decay_start
      decay_exponent
  | .SPOT_LIGHT_CLASS_ID | .FSPOT_LIGHT_CLASS_ID =>
    add_spot_light assembly light_name transform color_name intensity
      light_node.hotspot light_node.fallsize decay_start decay_exponent
  | .DIR_LIGHT_CLASS_ID | .TDIR_LIGHT_CLASS_ID =>
    add_directional_light assembly light_name transform color_name intensity
  | .other => assembly

/-- Source `add_lights`. -/
def add_lights (env : Env) (assembly : Assembly) (entities : MaxSceneEntities) :
    Assembly :=
  entities.m_lights.foldl (add_light env) assembly

/-- Source `is_zero` on a `Matrix3`: the 4 rows and, in each, the 3 columns are
scanned in order; an entry that differs from zero ends the scan with `false`. -/
def is_zero (m : Matrix3) : Bool :=
  (List.finRange 4).all fun row =>
    (List.finRange 3).all fun col =>
      if m row col ≠ 0 then false else true

/-- Body of the loop of `add_default_lights` for one default light. -/
def add_default_light (env : Env) (assembly : Assembly) (light : DefaultLight) :
    Assembly :=
  let transform :=
    if is_zero light.tm then Transformd.identity
    else Transformd.from_local_to_parent light.tm
  let light_name := make_unique_name env (assembly.lights.map (·.name)) "DefaultLight"
  let c := insert_color env assembly (light_name ++ "_color") light.ls.color
  let assembly := c.1
  let color_name := c.2
  match light.ls.type with
  | .OMNI_LGT =>
    add_omni_light assembly light_name transform color_name light.ls.intens 0 0
  | .SPOT_LGT =>
    add_spot_light assembly light_name transform color_name light.ls.intens
      light.ls.hotsize light.ls.fallsize 0 0
  | .DIRECT_LGT =>
    add_directional_light assembly light_name transform color_name light.ls.intens
  | .AMBIENT_LGT => assembly

/-- Source `add_default_lights`. -/
def add_default_lights (env : Env) (assembly : Assembly)
    (default_lights : List DefaultLight) : Assembly :=
  default_lights.foldl (add_default_light env) assembly

/-- Source `populate_assembly`. -/
def populate_assembly (env : Env) (assembly : Assembly) (entities : MaxSceneEntities)
    (default_lights : List DefaultLight) (type : RenderType) : Assembly :=
  let assembly := add_objects env assembly entities type
  if entities.m_lights.isEmpty then add_default_lights env assembly default_lights
  else add_lights env assembly entities

/-! ## Scene, camera, frame and project -/

/-- Renderer entity of a scene with a model and parameters: the environment,
an environment EDF, an environment shader. -/
structure SceneEntity where
  name : String
  model : String
  params : ParamArray
deriving DecidableEq, Repr

/-- Renderer `asr::AssemblyInstance`: the keyframes of its transform sequence
are pairs of a time and a transform. -/
structure AssemblyInstance where
  name : String
  params : ParamArray
  assembly_name : String
  transform_sequence : List (Scalar × Transformd)

/-- Renderer `asr::Camera`. -/
structure Camera where
  name : String
  model : String
  params : ParamArray
  transform_sequence : List (Scalar × Transformd)

/-- Renderer `asr::Frame`. -/
structure Frame where
  name : String
  params : ParamArray
deriving DecidableEq, Repr

/-- Renderer `asr::Scene`: assemblies under their names, assembly instances,
colours (the scene is an `asr::BaseGroup`), environment EDFs and shaders, and
the environment and camera bound to it, if any. -/
structure Scene where
  assemblies : List (String × Assembly)
  assembly_instances : List AssemblyInstance
  colors : List ColorEntity
  environment_edfs : List SceneEntity
  environment_shaders : List SceneEntity
  environment : Option SceneEntity
  camera : Option Camera

/-- The call `asr::SceneFactory::create()`. -/
def Scene.create : Scene :=
  { assemblies := [], assembly_instances := [], colors := [], environment_edfs := [],
    environment_shaders := [], environment := none, camera := none }

/-- Renderer `asr::Project`: its configurations under their names, and the
scene and frame bound to it, if any. -/
structure Project where
  name : String
  configurations : List (String × ParamArray)
  scene : Option Scene
  frame : Option Frame

/-- Host `ViewParams`, as far as `build_camera` reads it. -/
structure ViewParams where
  projType : Nat
  fov : Scalar
  zoom : Scalar
  hither : Scalar
  affineTM : Matrix3

/-- Host SDK constant `PROJ_PERSPECTIVE`. -/
def PROJ_PERSPECTIVE : Nat := 0

/-- Host SDK constant `PROJ_PARALLEL`. -/
def PROJ_PARALLEL : Nat := 1

/-- Host `RendParams`, as far as the translation reads it. -/
structure RendParams where
  inMtlEdit : Bool

/-- Host `FrameRendParams`: `to_color3f(frame_rend_params.background)`. -/
structure FrameRendParams where
  background : Color3f

/-- Host `Bitmap`: the results of `Width()` and `Height()`. -/
structure Bitmap where
  Width : Int
  Height : Int

/-- The plugin's `RendererSettings`: the flag `m_background_emits_light`, and
the parameters its `apply` writes, as a function of the parameters of the
configuration it is applied to. -/
structure RendererSettings where
  m_background_emits_light : Bool
  m_params : ParamArray → ParamArray

/-- Modelled from the spec: `RendererSettings::apply(project, name)`, which is
not part of the translated file. The spec: "apply externally supplied renderer
settings keyed to a named configuration". It rewrites the parameters of the
configuration of that name and nothing else. -/
def RendererSettings.apply (settings : RendererSettings) (project : Project)
    (config_name : String) : Project :=
  { project with
    configurations := project.configurations.map
      (fun c => if c.1 = config_name then (c.1, settings.m_params c.2) else c) }

/-- What the construction of scene, camera and project takes from outside
`projectbuilder.cpp`: the `float` multiplication and division and the
conversion of an `int` to `float` (rounding operations, left uninterpreted),
the host's `Inverse` of a `Matrix3`, and the configurations that the
renderer's `add_default_configurations` gives a new project. -/
structure Machine where
  fmul : Scalar → Scalar → Scalar
  fdiv : Scalar → Scalar → Scalar
  int_to_float : Int → Scalar
  Inverse : Matrix3 → Matrix3
  default_configurations : List (String × ParamArray)

/-- Renderer `asf::clamp_low` on a colour: each component below the bound is
replaced by the bound. -/
def clamp_low (c : Color3f) (low : Scalar) : Color3f :=
  { r := if c.r < low then low else c.r,
    g := if c.g < low then low else c.g,
    b := if c.b < low then low else c.b }

/-- Renderer `asf::is_zero` on a colour: every component equals zero. -/
def color_is_zero (c : Color3f) : Bool :=
  decide (c.r = 0 ∧ c.g = 0 ∧ c.b = 0)

/-- Source `insert_color` applied to the scene, which is an `asr::BaseGroup`
like the assembly: the changed scene and the name of the colour. -/
def scene_insert_color (env : Env) (scene : Scene) (name : String)
    (linear_rgb : Color3f) : Scene × String :=
  let name := make_unique_name env (scene.colors.map (·.name)) name
  ({ scene with
      colors := scene.colors ++
        [{ name := name,
           params := dict_insert (dict_insert [] "color_space" (.str "linear_rgb"))
             "color" (.color linear_rgb) }] },
   name)

/-- Source `setup_environment`. -/
def setup_environment (env : Env) (scene : Scene) (frame_rend_params : FrameRendParams)
    (settings : RendererSettings) : Scene :=
  let background_color := clamp_low frame_rend_params.background 0
  if color_is_zero background_color then
    { scene with
      environment := some { name := "environment", model := "environment", params := [] } }
  else
    let c := scene_insert_color env scene "environment_edf_color" background_color
    let scene : Scene := c.1
    let background_color_name := c.2
    let scene : Scene :=
      { scene with
        environment_edfs := scene.environment_edfs ++
          [{ name := "environment_edf", model := "constant_environment_edf",
             params := dict_insert [] "radiance" (.str background_color_name) }] }
    let scene : Scene :=
      { scene with
        environment_shaders := scene.environment_shaders ++
          [{ name := "environment_shader", model := "edf_environment_shader",
             params := dict_insert [] "environment_edf" (.str "environment_edf") }] }
    if settings.m_background_emits_light then
      { scene with
        environment := some
          { name := "environment", model := "environment",
            params :=
              dict_insert (dict_insert [] "environment_edf" (.str "environment_edf"))
                "environment_shader" (.str "environment_shader") } }
    else
      { scene with
        environment := some
          { name := "environment", model := "environment",
            params := dict_insert [] "environment_shader" (.str "environment_shader") } }

/-- Source `build_camera`. -/
def build_camera (machine : Machine) (view_params : ViewParams) (bitmap : Bitmap) :
    Camera :=
  let params : ParamArray :=
    if view_params.projType = PROJ_PERSPECTIVE then
      dict_insert
        (dict_insert [] "film_dimensions" (.vec2i bitmap.Width bitmap.Height))
        "horizontal_fov" (.radToDeg view_params.fov)
    else
      let ViewDefaultWidth : Scalar := 400
      let aspect :=
        machine.fdiv (machine.int_to_float bitmap.Height)
          (machine.int_to_float bitmap.Width)
      let film_width := machine.fmul ViewDefaultWidth view_params.zoom
      let film_height := machine.fmul film_width aspect
      dict_insert [] "film_dimensions" (.vec2f film_width film_height)
  let params := dict_insert params "near_z" (.num (-view_params.hither))
  { name := "camera",
    model :=
      if view_params.projType = PROJ_PERSPECTIVE then "pinhole_camera"
      else "orthographic_camera",
    params := params,
    transform_sequence :=
      [(0, Transformd.from_local_to_parent (machine.Inverse view_params.affineTM))] }

/-- Source `build_frame`. -/
def build_frame (camera : Camera) (bitmap : Bitmap) (rend_params : RendParams) : Frame :=
  if rend_params.inMtlEdit then
    { name := "beauty",
      params :=
        dict_insert (dict_insert (dict_insert (dict_insert (dict_insert (dict_insert []
          "camera" (.str camera.name))
          "resolution" (.vec2i bitmap.Width bitmap.Height))
          "tile_size" (.vec2i 8 8))
          "color_space" (.str "linear_rgb"))
          "filter" (.str "box"))
          "filter_size" (.num 0.5) }
  else
    { name := "beauty",
      params :=
        dict_insert (dict_insert (dict_insert (dict_insert (dict_insert (dict_insert []
          "camera" (.str camera.name))
          "resolution" (.vec2i bitmap.Width bitmap.Height))
          "tile_size" (.vec2i 64 64))
          "color_space" (.str "linear_rgb"))
          "filter" (.str "blackman-harris"))
          "filter_size" (.num 1.5) }

/-- The value of `type` in `build_project`. -/
def render_type (rend_params : RendParams) : RenderType :=
  if rend_params.inMtlEdit then RenderType.MaterialPreview else RenderType.Default

/-- Source `build_project`. -/
def build_project (env : Env) (machine : Machine) (entities : MaxSceneEntities)
    (default_lights : List DefaultLight) (view_params : ViewParams)
    (rend_params : RendParams) (frame_rend_params : FrameRendParams)
    (settings : RendererSettings) (bitmap : Bitmap) : Project :=
  let project : Project :=
    { name := "project", configurations := [], scene := none, frame := none }
  let project : Project :=
    { project with configurations := machine.default_configurations }
  let scene := Scene.create
  let assembly := Assembly.empty
  let type := render_type rend_params
  let assembly := populate_assembly env assembly entities default_lights type
  let assembly_instance : AssemblyInstance :=
    { name := "assembly_inst", params := [], assembly_name := "assembly",
      transform_sequence := [(0, Transformd.identity)] }
  let scene : Scene :=
    { scene with assembly_instances := scene.assembly_instances ++ [assembly_instance] }
  let scene : Scene :=
    { scene with assemblies := scene.assemblies ++ [("assembly", assembly)] }
  let scene := setup_environment env scene frame_rend_params settings
  let camera := build_camera machine view_params bitmap
  let scene : Scene := { scene with camera := some camera }
  let project : Project :=
    { project with frame := some (build_frame camera bitmap rend_params) }
  let project : Project := { project with scene := some scene }
  settings.apply project "final"

/-! ## Disney material (`appleseeddisneymtl.cpp`) -/

/-- Host `Texmap*` of a texture slot: `none` is `nullptr`. -/
abbrev Texmap := Option Nat

/-- What `AppleseedDisneyMtl::create_material` calls of the plugin's
`utilities.h`, which is not among the translated files; the four functions are
left uninterpreted. They are `is_bitmap_texture(map)`;
`insert_texture_and_instance(base_group, texmap, texture_params,
texture_instance_params)`, given as the textures and the texture instances it
inserts into the group and the name it returns; `fmt_expr(BitmapTex*)`; and
`fmt_expr(float, Texmap*)`. The overload of `fmt_expr` on a colour is the one
of `Env`. -/
structure Utilities where
  is_bitmap_texture : Texmap → Bool
  insert_texture_and_instance :
    Assembly → Texmap → ParamArray → ParamArray →
      List TextureEntity × List TextureEntity × String
  fmt_expr_bitmap : Texmap → String
  fmt_expr_scalar : Scalar → Texmap → String

/-- Members of `AppleseedDisneyMtl` that `create_material` reads, with the
values `Update` copied from the parameter block (`m_base_color` after
`to_color3f`). -/
structure AppleseedDisneyMtl where
  m_base_color : Color3f
  m_base_color_texmap : Texmap
  m_metallic : Scalar
  m_metallic_texmap : Texmap
  m_specular : Scalar
  m_specular_texmap : Texmap
  m_specular_tint : Scalar
  m_specular_tint_texmap : Texmap
  m_roughness : Scalar
  m_roughness_texmap : Texmap
  m_anisotropy : Scalar
  m_anisotropy_texmap : Texmap
  m_clearcoat : Scalar
  m_clearcoat_texmap : Texmap
  m_clearcoat_gloss : Scalar
  m_clearcoat_gloss_texmap : Texmap
  m_alpha : Scalar
  m_alpha_texmap : Texmap

/-- Source constructor `AppleseedDisneyMtl::AppleseedDisneyMtl()`. -/
def AppleseedDisneyMtl.create : AppleseedDisneyMtl :=
  { m_base_color := ⟨0.9, 0.9, 0.9⟩
    m_base_color_texmap := none
    m_metallic := 0
    m_metallic_texmap := none
    m_specular := 90
    m_specular_texmap := none
    m_specular_tint := 0
    m_specular_tint_texmap := none
    m_roughness := 40
    m_roughness_texmap := none
    m_anisotropy := 0
    m_anisotropy_texmap := none
    m_clearcoat := 0
    m_clearcoat_texmap := none
    m_clearcoat_gloss := 0
    m_clearcoat_gloss_texmap := none
    m_alpha := 100
    m_alpha_texmap := none }

/-- A `TYPE_FLOAT` parameter of `g_block_desc`: internal name, `p_default`, the
two bounds of `p_range`, and the member `Update` reads the parameter into. -/
structure FloatParamDesc where
  name : String
  p_default : Scalar
  range_low : Scalar
  range_high : Scalar
  member : AppleseedDisneyMtl → Scalar

/-- Source `g_block_desc`: its `TYPE_FLOAT` parameters, in declaration order. -/
def g_block_desc : List FloatParamDesc :=
  [{ name := "metallic", p_default := 0, range_low := 0, range_high := 100,
     member := (·.m_metallic) },
   { name := "specular", p_default := 90, range_low := 0, range_high := 100,
     member := (·.m_specular) },
   { name := "specular_tint", p_default := 0, range_low := 0, range_high := 100,
     member := (·.m_specular_tint) },
   { name := "roughness", p_default := 40, range_low := 0, range_high := 100,
     member := (·.m_roughness) },
   { name := "anisotropy", p_default := 0, range_low := -1, range_high := 1,
     member := (·.m_anisotropy) },
   { name := "clearcoat", p_default := 0, range_low := 0, range_high := 100,
     member := (·.m_clearcoat) },
   { name := "clearcoat_gloss", p_default := 0, range_low := 0, range_high := 100,
     member := (·.m_clearcoat_gloss) },
   { name := "alpha", p_default := 100, range_low := 0, range_high := 100,
     member := (·.m_alpha) }]

/-- Source `AppleseedDisneyMtl::create_material`: the material, and the
textures and texture instances inserted into the assembly. -/
def AppleseedDisneyMtl.create_material (env : Env) (machine : Machine)
    (util : Utilities) (mtl : AppleseedDisneyMtl) (assembly : Assembly) (name : String) :
    Material × List TextureEntity × List TextureEntity :=
  let r : ParamArray × List TextureEntity × List TextureEntity :=
    if util.is_bitmap_texture mtl.m_alpha_texmap then
      let t := util.insert_texture_and_instance assembly mtl.m_alpha_texmap []
        (dict_insert [] "alpha_mode" (.str "detect"))
      (dict_insert [] "alpha_map" (.str t.2.2), t.1, t.2.1)
    else
      (dict_insert [] "alpha_map" (.num (machine.fdiv mtl.m_alpha 100)), [], [])
  let material_params := r.1
  let layer_values := env.layer_default_values
  let layer_values :=
    if util.is_bitmap_texture mtl.m_base_color_texmap then
      dict_insert layer_values "base_color"
        (.str (util.fmt_expr_bitmap mtl.m_base_color_texmap))
    else
      dict_insert layer_values "base_color"
        (.str (env.fmt_expr (env.linear_rgb_to_srgb mtl.m_base_color)))
  let layer_values := dict_insert layer_values "metallic"
    (.str (util.fmt_expr_scalar (machine.fdiv mtl.m_metallic 100) mtl.m_metallic_texmap))
  let layer_values := dict_insert layer_values "specular"
    (.str (util.fmt_expr_scalar (machine.fdiv mtl.m_specular 100) mtl.m_specular_texmap))
  let layer_values := dict_insert layer_values "specular_tint"
    (.str (util.fmt_expr_scalar (machine.fdiv mtl.m_specular_tint 100)
      mtl.m_specular_tint_texmap))
  let layer_values := dict_insert layer_values "anisotropic"
    (.str (util.fmt_expr_scalar mtl.m_anisotropy mtl.m_anisotropy_texmap))
  let layer_values := dict_insert layer_values "roughness"
    (.str (util.fmt_expr_scalar (machine.fdiv mtl.m_roughness 100) mtl.m_roughness_texmap))
  let layer_values := dict_insert layer_values "clearcoat"
    (.str (util.fmt_expr_scalar (machine.fdiv mtl.m_clearcoat 100) mtl.m_clearcoat_texmap))
  let layer_values := dict_insert layer_values "clearcoat_gloss"
    (.str (util.fmt_expr_scalar (machine.fdiv mtl.m_clearcoat_gloss 100)
      mtl.m_clearcoat_gloss_texmap))
  ({ name := name, model := "disney_material", params := material_params,
     layers := [layer_values] },
   r.2.1, r.2.2)

/-- The interface `IAppleseedMtl` as `AppleseedDisneyMtl` implements it. -/
def AppleseedDisneyMtl.appleseed_mtl (env : Env) (machine : Machine) (util : Utilities)
    (mtl : AppleseedDisneyMtl) : IAppleseedMtl :=
  { create_material := AppleseedDisneyMtl.create_material env machine util mtl }

/-! ## Notions used by the statements -/

/-- Contract assumed of the renderer's `asr::make_unique_name`: the name it
returns is absent from the container. -/
def fresh_names (env : Env) : Prop :=
  ∀ (start : String) (names : List String), env.asr_make_unique_name start names ∉ names

/-- Contract assumed of a renderer-aware material: the material returned by
`create_material` carries the requested name. -/
def named_materials (env : Env) : Prop :=
  ∀ (p : Nat) (m : IAppleseedMtl), (env.mtl p).appleseed_mtl = some m →
    ∀ (a : Assembly) (name : String), (m.create_material a name).1.name = name

/-- The translation of the geometric object `ref` succeeded for the node list:
the first node that references it (the one whose call of `create_mesh_object`
is recorded in the Object Registry) converts to a triangle mesh. -/
def translates (nodes : List INode) (ref : Nat) : Bool :=
  match nodes.find? (fun n => decide (n.objectRef = ref)) with
  | some n => n.tri_object.isSome
  | none => false

/-- The state `add_objects` starts from. -/
def initial_state (assembly : Assembly) : BuildState :=
  { assembly := assembly, object_map := [], material_map := [],
    translated := [], created := [] }

/-- The name `create_object_instance` computes for the instance. -/
def instance_name_of (env : Env) (assembly : Assembly) (object_name : String) : String :=
  make_unique_name env (assembly.object_instances.map (·.name)) (object_name ++ "_inst")

/-- The name `create_object_instance` computes for the material of a node
without renderer-aware material: the instance name and `_mat`, made unique. -/
def fallback_material_name (env : Env) (assembly : Assembly) (object_name : String) :
    String :=
  make_unique_name env (assembly.materials.map (·.name))
    (instance_name_of env assembly object_name ++ "_mat")

/-- The object instance `create_object_instance` inserts, for the assembly at
entry and the resolved material name. -/
def instance_of (env : Env) (assembly : Assembly) (node : INode) (object_name : String)
    (type : RenderType) (material_name : String) : ObjectInstance :=
  { name := instance_name_of env assembly object_name,
    params :=
      if type = RenderType.MaterialPreview then
        dict_insert [] "visibility.shadow" (.bool false)
      else [],
    object_name := object_name,
    transform := Transformd.from_local_to_parent node.objTM,
    front_material_mappings := dict_insert [] "material" material_name,
    back_material_mappings := dict_insert [] "material" material_name }

/-- The material an object instance is bound to: the value of the slot
`material` in its front material mappings. -/
def ObjectInstance.material (inst : ObjectInstance) : Option String :=
  dict_get inst.front_material_mappings "material"

/-- The geometric object `ref` is, or will be, recorded as valid: its entry in
the Object Registry says so, or it has no entry yet and its translation
succeeds for the nodes still to come. -/
def will_translate (object_map : ObjectMap) (rest : List INode) (ref : Nat) : Bool :=
  match map_find object_map ref with
  | some info => info.m_valid
  | none => translates rest ref

/-- Name uniqueness in an assembly: in none of the collections of objects,
object instances, materials, lights and colours do two entities share a name. -/
def unique_names (a : Assembly) : Prop :=
  (a.objects.map (·.name)).Nodup ∧
  (a.object_instances.map (·.name)).Nodup ∧
  (a.materials.map (·.name)).Nodup ∧
  (a.lights.map (·.name)).Nodup ∧
  (a.colors.map (·.name)).Nodup

/-- Consistency of the Material Registry with the assembly and with the record
of calls: every registered name is the name of a material of the assembly, and
the calls of `create_material` recorded for a host material are exactly one
call under the registered name when the material is registered, none
otherwise. -/
def registry_consistent (s : BuildState) : Prop :=
  (∀ p name, map_find s.material_map p = some name →
    name ∈ s.assembly.materials.map (·.name)) ∧
  (∀ p, s.created.filter (fun e => decide (e.1 = p)) =
    match map_find s.material_map p with
    | some name => [(p, name)]
    | none => [])

/-- Contract assumed of the renderer's `asr::make_unique_name(prefix, entities)`:
the name it returns starts with the prefix (it is the prefix followed by a
number). -/
def prefixed_names (env : Env) : Prop :=
  ∀ (start : String) (names : List String),
    ∃ suffix, env.asr_make_unique_name start names = start ++ suffix

/-- Corner `j` of the triangle of face `i` uses the host normal `n` through a
freshly pushed copy: the corner's normal index is the index of a normal pushed
by the translation of face `i` (it is no index of the object before the face
and is one after it), no other corner of the triangle has that index, and the
finished object holds the copy of `n` at that index. -/
def uses_fresh_copy (name : String) (mesh : Mesh) (i j : Nat) (n : Point3) : Prop :=
  ∃ t k, (fill_mesh_object name mesh).triangles[i]? = some t ∧
    t.normal_index j = some k ∧
    (object_before_face name mesh i).vertex_normals.length ≤ k ∧
    k < (object_after_face name mesh i).vertex_normals.length ∧
    (∀ j2, j2 < 3 → j2 ≠ j → t.normal_index j2 ≠ some k) ∧
    (fill_mesh_object name mesh).vertex_normals[k]? = some (to_gvector3 n)

/-- Referential integrity of the object instances of an assembly: every
instance names an object of the assembly, and the value bound to `material`
in its front and back material mappings names a material of the assembly. -/
def instances_resolved (a : Assembly) : Prop :=
  ∀ inst ∈ a.object_instances,
    inst.object_name ∈ a.objects.map (·.name) ∧
    ∃ material_name,
      dict_get inst.front_material_mappings "material" = some material_name ∧
      dict_get inst.back_material_mappings "material" = some material_name ∧
      material_name ∈ a.materials.map (·.name)

/-- Referential integrity of the registries: every valid entry of the Object
Registry names an object of the assembly, and every value of the Material
Registry names a material of the assembly. -/
def registries_resolved (s : BuildState) : Prop :=
  (∀ ref info, map_find s.object_map ref = some info → info.m_valid = true →
    info.m_name ∈ s.assembly.objects.map (·.name)) ∧
  (∀ p name, map_find s.material_map p = some name →
    name ∈ s.assembly.materials.map (·.name))

/-- Contract assumed of the machine's `float` division (IEEE 754): the result
is the exact quotient rounded to a `float` by `rnd`, a monotone map that
leaves 0 and 1, which are `float` values, unchanged. -/
def rounded_division (machine : Machine) (rnd : Scalar → Scalar) : Prop :=
  Monotone rnd ∧ rnd 0 = 0 ∧ rnd 1 = 1 ∧
  ∀ x y : Scalar, y ≠ 0 → machine.fdiv x y = rnd (x / y)

/-- Every `TYPE_FLOAT` member holds a value inside the range that
`g_block_desc` declares for its parameter. -/
def in_declared_range (mtl : AppleseedDisneyMtl) : Prop :=
  ∀ d ∈ g_block_desc, d.range_low ≤ d.member mtl ∧ d.member mtl ≤ d.range_high

/-- Every `TYPE_FLOAT` member holds the default that `g_block_desc` declares
for its parameter. -/
def has_declared_defaults (mtl : AppleseedDisneyMtl) : Prop :=
  ∀ d ∈ g_block_desc, d.member mtl = d.p_default

/-- The scalar `passed` is the member value `stored` normalised: it is the
`float` quotient of `stored` by 100, that is the rounded exact quotient, and
lies between 0 and 1. -/
def normalised (machine : Machine) (rnd : Scalar → Scalar) (stored passed : Scalar) :
    Prop :=
  passed = machine.fdiv stored 100 ∧ passed = rnd (stored / 100) ∧
  0 ≤ passed ∧ passed ≤ 1

/-- The test of the search loop of `create_mesh_object` on a listed normal:
its smoothing groups meet the face's and its material is the face's. -/
abbrev normal_matches (f : Face) (rn : RNormal) : Prop :=
  (f.smGroup &&& rn.smGroup) ≠ 0 ∧ f.matID = rn.mtlIndex

/-- The source assigns a normal to a corner of face `f` at vertex `vert`: the
vertex has exactly one normal, or one of its listed normals passes the test
of the search loop. -/
def corner_matched (mesh : Mesh) (f : Face) (vert : Nat) : Prop :=
  (mesh.getRVert vert).rFlags &&& NORCT_MASK = 1 ∨
  ∃ k, k < (mesh.getRVert vert).rFlags &&& NORCT_MASK ∧
    normal_matches f ((mesh.getRVert vert).ern k)

/-- Some listed normal of vertex `vert` passes the test of the search loop for
both faces, and no earlier listed normal passes it for either of them. -/
def first_common_match (mesh : Mesh) (f1 f2 : Face) (vert : Nat) : Prop :=
  ∃ k, k < (mesh.getRVert vert).rFlags &&& NORCT_MASK ∧
    normal_matches f1 ((mesh.getRVert vert).ern k) ∧
    normal_matches f2 ((mesh.getRVert vert).ern k) ∧
    ∀ k2, k2 < k →
      ¬ normal_matches f1 ((mesh.getRVert vert).ern k2) ∧
      ¬ normal_matches f2 ((mesh.getRVert vert).ern k2)

/-! ## Sample inputs -/

/-- A render normal of the samples. -/
def sample_rnormal (x y z : Scalar) (smGroup mtlIndex : Nat) : RNormal :=
  { normal := ⟨x, y, z⟩, smGroup := smGroup, mtlIndex := mtlIndex }

/-- One triangle without smoothing group. -/
def flat_mesh : Mesh :=
  { verts := [⟨0, 0, 0⟩, ⟨1, 0, 0⟩, ⟨0, 1, 0⟩],
    tVerts := [⟨0, 0, 0⟩, ⟨1, 0, 0⟩, ⟨0, 1, 0⟩],
    faces := [{ v0 := 0, v1 := 1, v2 := 2, smGroup := 0, matID := 0 }],
    tvFace := fun _ => { t0 := 0, t1 := 1, t2 := 2 },
    getRVert := fun _ =>
      { rFlags := 0, rn := sample_rnormal 0 0 1 0 0, ern := fun _ => sample_rnormal 0 0 1 0 0 },
    getFaceNormal := fun _ => ⟨0, 0, 1⟩ }

/-- Two triangles of smoothing group 1 and material 0 sharing the edge from
vertex 0 to vertex 2; every vertex has a single render normal, and every
corner refers to the one texture vertex. -/
def smooth_mesh : Mesh :=
  { verts := [⟨0, 0, 0⟩, ⟨1, 0, 0⟩, ⟨1, 1, 0⟩, ⟨0, 1, 0⟩],
    tVerts := [⟨0, 0, 0⟩],
    faces := [{ v0 := 0, v1 := 1, v2 := 2, smGroup := 1, matID := 0 },
              { v0 := 0, v1 := 2, v2 := 3, smGroup := 1, matID := 0 }],
    tvFace := fun _ => { t0 := 0, t1 := 0, t2 := 0 },
    getRVert := fun _ =>
      { rFlags := 1, rn := sample_rnormal 0 0 1 1 0, ern := fun _ => sample_rnormal 0 0 1 1 0 },
    getFaceNormal := fun _ => ⟨0, 0, 1⟩ }

/-- A fan of four triangles of material 0 around vertex 0, with smoothing-group
masks 8, 3, 9 and 6 in face order. Vertex 0 has two render normals, the ones
obtained by merging the faces in order into the first listed normal whose
groups they meet: the first for groups 1 and 4 (mask 9), the second for groups
1, 2 and 3 (mask 7). The other vertices have a single normal; every corner
refers to the one texture vertex. -/
def split_mesh : Mesh :=
  { verts := [⟨0, 0, 0⟩, ⟨1, 0, 0⟩, ⟨1, 1, 0⟩, ⟨0, 1, 0⟩, ⟨-1, 1, 0⟩, ⟨-1, 0, 0⟩],
    tVerts := [⟨0, 0, 0⟩],
    faces := [{ v0 := 0, v1 := 1, v2 := 2, smGroup := 8, matID := 0 },
              { v0 := 0, v1 := 2, v2 := 3, smGroup := 3, matID := 0 },
              { v0 := 0, v1 := 3, v2 := 4, smGroup := 9, matID := 0 },
              { v0 := 0, v1 := 4, v2 := 5, smGroup := 6, matID := 0 }],
    tvFace := fun _ => { t0 := 0, t1 := 0, t2 := 0 },
    getRVert := fun v =>
      if v = 0 then
        { rFlags := 2, rn := sample_rnormal 0 0 1 0 0,
          ern := fun k => if k = 0 then sample_rnormal 1 0 0 9 0 else sample_rnormal 0 1 0 7 0 }
      else
        { rFlags := 1, rn := sample_rnormal 0 0 1 15 0, ern := fun _ => sample_rnormal 0 0 1 15 0 },
    getFaceNormal := fun _ => ⟨0, 0, 1⟩ }

/-- Size- and index-preserving copy of a host mesh into a mesh object: one
triangle per face, as many vertices and texture coordinates as the host mesh
has vertices and texture vertices, the entry at every index being the host
entry at that index, and triangle `i` holding the vertex and texture-vertex
indices of face `i`. -/
def mesh_copied (mesh : Mesh) (object : MeshObject) : Prop :=
  object.triangles.length = mesh.faces.length ∧
  object.vertices.length = mesh.verts.length ∧
  object.tex_coords.length = mesh.tVerts.length ∧
  (∀ (i : Nat) (v : Point3), mesh.verts[i]? = some v →
    object.vertices[i]? = some (⟨v.x, v.y, v.z⟩ : GVector3)) ∧
  (∀ (i : Nat) (uv : Point3), mesh.tVerts[i]? = some uv →
    object.tex_coords[i]? = some (⟨uv.x, uv.y⟩ : GVector2)) ∧
  (∀ (i : Nat) (f : Face), mesh.faces[i]? = some f → ∃ t, object.triangles[i]? = some t ∧
    (∀ j, t.vertex_index j = f.getVert j) ∧
    (∀ j, t.tex_index j = (mesh.tvFace i).getTVert j))

/-- Flat shading of face `i` of a mesh translated under the name `name`: the
translation of the face pushes exactly one normal, the host's face normal, and
the three normal indices of the face's triangle are the index of that normal. -/
def flat_shaded (name : String) (mesh : Mesh) (i : Nat) : Prop :=
  (object_after_face name mesh i).vertex_normals =
    (object_before_face name mesh i).vertex_normals ++
      [to_gvector3 (mesh.getFaceNormal i)] ∧
  (fill_mesh_object name mesh).vertex_normals[
      (object_before_face name mesh i).vertex_normals.length]? =
    some (to_gvector3 (mesh.getFaceNormal i)) ∧
  ∃ t, (fill_mesh_object name mesh).triangles[i]? = some t ∧
    t.m_n0 = some (object_before_face name mesh i).vertex_normals.length ∧
    t.m_n1 = some (object_before_face name mesh i).vertex_normals.length ∧
    t.m_n2 = some (object_before_face name mesh i).vertex_normals.length

/-- A renderer-aware material of the samples: it inserts one texture and
returns a Disney material under the requested name. -/
def sample_appleseed_mtl : IAppleseedMtl :=
  { create_material := fun _ name =>
      ({ name := name, model := "disney_material", params := [], layers := [[]] },
       [{ name := name ++ "_tex", params := [] }],
       [{ name := name ++ "_tex_inst", params := [] }]) }

/-- A name generator of the samples: the given beginning followed by more
digits than all the given names have characters. -/
def sample_unique_name (start : String) (names : List String) : String :=
  start ++ String.mk (List.replicate ((names.map String.length).sum + 1) '1')

/-- The environment of the samples: material pointer 1 is a renderer-aware
material named `M1`, every other pointer a host material named `Standard`
without the renderer interface. -/
def sample_env : Env :=
  { mtl := fun p =>
      if p = 1 then { name := "M1", appleseed_mtl := some sample_appleseed_mtl }
      else { name := "Standard", appleseed_mtl := none },
    asr_make_unique_name := sample_unique_name,
    fmt_expr := fun c => if c = ⟨1, 0, 0⟩ then "[1, 0, 0]" else "[0, 0, 0]",
    linear_rgb_to_srgb := fun c => c,
    layer_default_values := [("base_color", .str "[0.9, 0.9, 0.9]"), ("metallic", .num 0)] }

/-- A node of the samples. -/
def sample_node (name : String) (objectRef : Nat) (tri_object : Option Mesh)
    (mtl : Option Nat) : INode :=
  { name := name, objectRef := objectRef, tri_object := tri_object,
    objTM := fun _ _ => 0, mtl := mtl, wire_color := ⟨1, 0, 0⟩ }

/-- Three nodes: `BoxA` and `BoxB` instance object 7 and share the
renderer-aware material 1, `Plane` references object 8 and has no material. -/
def sample_scene : MaxSceneEntities :=
  { m_objects :=
      [sample_node "BoxA" 7 (some flat_mesh) (some 1),
       sample_node "BoxB" 7 (some flat_mesh) (some 1),
       sample_node "Plane" 8 (some smooth_mesh) none],
    m_lights := [] }

/-- A node whose object 9 does not convert to a triangle mesh. -/
def failing_node : INode := sample_node "Curve" 9 none (some 1)

/-- A later node that references the same object 9. -/
def failing_node_again : INode := sample_node "CurveCopy" 9 (some flat_mesh) none

/-- A node of another object, translated between the two. -/
def box_node : INode := sample_node "Box" 7 (some flat_mesh) none

/-- A light node of the samples, of the given class. -/
def sample_light (name : String) (classID : LightClass) : LightNode :=
  { name := name, objTM := fun _ _ => 0, classID := classID, color := ⟨1, 1, 1⟩,
    intensity := 2, decay_radius := 40, decay_type := 2, hotspot := 43, fallsize := 45 }

/-- A default light of the samples, of the given kind. -/
def sample_default_light (type : LightType) : DefaultLight :=
  { ls := { type := type, color := ⟨1, 1, 1⟩, intens := 1, hotsize := 43, fallsize := 45 },
    tm := fun _ _ => 0 }

/-- Float operations of the samples (exact arithmetic), the identity in place
of the matrix inverse, and two empty configurations. -/
def sample_machine : Machine :=
  { fmul := fun x y => x * y,
    fdiv := fun x y => x / y,
    int_to_float := fun i => i,
    Inverse := fun m => m,
    default_configurations := [("final", []), ("interactive", [])] }

/-- Renderer settings of the samples. -/
def sample_settings (background_emits_light : Bool) : RendererSettings :=
  { m_background_emits_light := background_emits_light,
    m_params := fun params => dict_insert params "sampling_mode" (.str "rng") }

/-- Utilities of the samples: texture pointer 5 is a bitmap texture, every
other slot holds none; a texture and its instance are inserted under the
names `tex5` and `tex5_inst`. -/
def sample_utilities : Utilities :=
  { is_bitmap_texture := fun t => decide (t = some 5),
    insert_texture_and_instance := fun _ _ texture_params texture_instance_params =>
      ([{ name := "tex5", params := texture_params }],
       [{ name := "tex5_inst", params := texture_instance_params }],
       "tex5_inst"),
    fmt_expr_bitmap := fun _ => "texture(tex5)",
    fmt_expr_scalar := fun x t =>
      if t = some 5 then "scalar * texture(tex5)"
      else if x = 0 then "0" else "scalar" }

/-- A Disney material of the samples: the defaults of the constructor, with
the bitmap texture 5 in the base-colour slot and the texture 6, which is no
bitmap texture, in the alpha slot. -/
def sample_disney_mtl : AppleseedDisneyMtl :=
  { AppleseedDisneyMtl.create with
    m_base_color_texmap := some 5, m_alpha_texmap := some 6 }

/-! ## Mesh translation: lemmas -/

theorem resolve_corner_normals (mesh : Mesh) (sg mat : Nat) (o : MeshObject) (v : Nat) :
    (resolve_corner mesh sg mat o v).1.vertex_normals =
      o.vertex_normals ++ (host_normal mesh sg mat v).toList := by
  unfold resolve_corner host_normal
  by_cases h : (mesh.getRVert v).rFlags &&& NORCT_MASK = 1
  · simp [h, MeshObject.push_vertex_normal]
  · simp only [h, if_false]
    cases find_normal (mesh.getRVert v).ern sg mat ((mesh.getRVert v).rFlags &&& NORCT_MASK) 0
      <;> simp [MeshObject.push_vertex_normal]

theorem resolve_corner_index (mesh : Mesh) (sg mat : Nat) (o : MeshObject) (v : Nat) :
    (resolve_corner mesh sg mat o v).2 =
      (host_normal mesh sg mat v).map (fun _ => o.vertex_normals.length) := by
  unfold resolve_corner host_normal
  by_cases h : (mesh.getRVert v).rFlags &&& NORCT_MASK = 1
  · simp [h, MeshObject.push_vertex_normal]
  · simp only [h, if_false]
    cases find_normal (mesh.getRVert v).ern sg mat ((mesh.getRVert v).rFlags &&& NORCT_MASK) 0
      <;> simp [MeshObject.push_vertex_normal]

theorem resolve_corner_frame (mesh : Mesh) (sg mat : Nat) (o : MeshObject) (v : Nat) :
    (resolve_corner mesh sg mat o v).1.triangles = o.triangles ∧
    (resolve_corner mesh sg mat o v).1.vertices = o.vertices ∧
    (resolve_corner mesh sg mat o v).1.tex_coords = o.tex_coords ∧
    (resolve_corner mesh sg mat o v).1.name = o.name ∧
    (resolve_corner mesh sg mat o v).1.material_slots = o.material_slots := by
  unfold resolve_corner
  by_cases h : (mesh.getRVert v).rFlags &&& NORCT_MASK = 1
  · simp [h, MeshObject.push_vertex_normal]
  · simp only [h, if_false]
    cases find_normal (mesh.getRVert v).ern sg mat ((mesh.getRVert v).rFlags &&& NORCT_MASK) 0
      <;> simp [MeshObject.push_vertex_normal]

theorem face_normals_flat (mesh : Mesh) (o : MeshObject) (i : Nat) (f : Face)
    (h : f.smGroup = 0) :
    (face_normals mesh o i f).1.vertex_normals =
        o.vertex_normals ++ [to_gvector3 (mesh.getFaceNormal i)] ∧
    (face_normals mesh o i f).2.1 = some o.vertex_normals.length ∧
    (face_normals mesh o i f).2.2.1 = some o.vertex_normals.length ∧
    (face_normals mesh o i f).2.2.2 = some o.vertex_normals.length := by
  simp [face_normals, h, MeshObject.push_vertex_normal, to_gvector3]

theorem face_normals_smooth (mesh : Mesh) (o : MeshObject) (i : Nat) (f : Face)
    (h : f.smGroup ≠ 0) :
    (face_normals mesh o i f).1.vertex_normals =
        o.vertex_normals ++ ((host_normal mesh f.smGroup f.matID (f.getVert 0)).toList ++
          ((host_normal mesh f.smGroup f.matID (f.getVert 1)).toList ++
            (host_normal mesh f.smGroup f.matID (f.getVert 2)).toList)) ∧
    (face_normals mesh o i f).2.1 =
      (host_normal mesh f.smGroup f.matID (f.getVert 0)).map
        (fun _ => o.vertex_normals.length) ∧
    (face_normals mesh o i f).2.2.1 =
      (host_normal mesh f.smGroup f.matID (f.getVert 1)).map
        (fun _ => o.vertex_normals.length +
          (host_normal mesh f.smGroup f.matID (f.getVert 0)).toList.length) ∧
    (face_normals mesh o i f).2.2.2 =
      (host_normal mesh f.smGroup f.matID (f.getVert 2)).map
        (fun _ => o.vertex_normals.length +
          ((host_normal mesh f.smGroup f.matID (f.getVert 0)).toList.length +
            (host_normal mesh f.smGroup f.matID (f.getVert 1)).toList.length)) := by
  simp [face_normals, h, resolve_corner_normals, resolve_corner_index, Nat.add_assoc]

theorem face_normals_frame (mesh : Mesh) (o : MeshObject) (i : Nat) (f : Face) :
    (face_normals mesh o i f).1.triangles = o.triangles ∧
    (face_normals mesh o i f).1.vertices = o.vertices ∧
    (face_normals mesh o i f).1.tex_coords = o.tex_coords ∧
    (face_normals mesh o i f).1.name = o.name ∧
    (face_normals mesh o i f).1.material_slots = o.material_slots := by
  unfold face_normals
  by_cases h : f.smGroup = 0
  · simp [h, MeshObject.push_vertex_normal]
  · simp [h, resolve_corner_frame]

theorem face_normals_extends (mesh : Mesh) (o : MeshObject) (i : Nat) (f : Face) :
    ∃ ns, (face_normals mesh o i f).1.vertex_normals = o.vertex_normals ++ ns := by
  by_cases h : f.smGroup = 0
  · exact ⟨_, (face_normals_flat mesh o i f h).1⟩
  · exact ⟨_, (face_normals_smooth mesh o i f h).1⟩

theorem translate_face_triangles (mesh : Mesh) (ms : Nat) (o : MeshObject) (i : Nat)
    (f : Face) :
    (translate_face mesh ms o i f).triangles = o.triangles ++
      [{ m_v0 := f.getVert 0, m_v1 := f.getVert 1, m_v2 := f.getVert 2,
         m_n0 := (face_normals mesh o i f).2.1,
         m_n1 := (face_normals mesh o i f).2.2.1,
         m_n2 := (face_normals mesh o i f).2.2.2,
         m_a0 := (mesh.tvFace i).getTVert 0, m_a1 := (mesh.tvFace i).getTVert 1,
         m_a2 := (mesh.tvFace i).getTVert 2, m_pa := ms }] := by
  simp [translate_face, MeshObject.push_triangle, (face_normals_frame mesh o i f).1]

theorem translate_face_normals (mesh : Mesh) (ms : Nat) (o : MeshObject) (i : Nat)
    (f : Face) :
    (translate_face mesh ms o i f).vertex_normals =
      (face_normals mesh o i f).1.vertex_normals := by
  simp [translate_face, MeshObject.push_triangle]

theorem translate_face_frame (mesh : Mesh) (ms : Nat) (o : MeshObject) (i : Nat)
    (f : Face) :
    (translate_face mesh ms o i f).vertices = o.vertices ∧
    (translate_face mesh ms o i f).tex_coords = o.tex_coords ∧
    (translate_face mesh ms o i f).name = o.name ∧
    (translate_face mesh ms o i f).material_slots = o.material_slots := by
  have h := face_normals_frame mesh o i f
  simp [translate_face, MeshObject.push_triangle, h.2.1, h.2.2.1, h.2.2.2.1, h.2.2.2.2]

theorem translate_faces_append (mesh : Mesh) (ms : Nat) (l1 l2 : List Face) :
    ∀ (o : MeshObject) (i : Nat),
      translate_faces mesh ms o i (l1 ++ l2) =
        translate_faces mesh ms (translate_faces mesh ms o i l1) (i + l1.length) l2 := by
  induction l1 with
  | nil => intro o i; simp [translate_faces]
  | cons f rest ih =>
    intro o i
    show translate_faces mesh ms (translate_face mesh ms o i f) (i + 1) (rest ++ l2) =
      translate_faces mesh ms
        (translate_faces mesh ms (translate_face mesh ms o i f) (i + 1) rest)
        (i + (rest.length + 1)) l2
    rw [ih, Nat.add_assoc, Nat.add_comm 1]

theorem translate_faces_extends (mesh : Mesh) (ms : Nat) (fs : List Face) :
    ∀ (o : MeshObject) (i : Nat),
      ∃ ts ns, (translate_faces mesh ms o i fs).triangles = o.triangles ++ ts ∧
        ts.length = fs.length ∧
        (translate_faces mesh ms o i fs).vertex_normals = o.vertex_normals ++ ns := by
  induction fs with
  | nil => intro o i; exact ⟨[], [], by simp [translate_faces]⟩
  | cons f rest ih =>
    intro o i
    obtain ⟨ts, ns, h1, h2, h3⟩ := ih (translate_face mesh ms o i f) (i + 1)
    obtain ⟨ns0, h0⟩ := face_normals_extends mesh o i f
    obtain ⟨t, ht⟩ : ∃ t, (translate_face mesh ms o i f).triangles = o.triangles ++ [t] :=
      ⟨_, translate_face_triangles mesh ms o i f⟩
    refine ⟨t :: ts, ns0 ++ ns, ?_, ?_, ?_⟩
    · simp only [translate_faces, h1, ht]
      simp
    · simp [h2]
    · simp only [translate_faces, h3, translate_face_normals, h0]
      simp

theorem translate_faces_frame (mesh : Mesh) (ms : Nat) (fs : List Face) :
    ∀ (o : MeshObject) (i : Nat),
      (translate_faces mesh ms o i fs).vertices = o.vertices ∧
      (translate_faces mesh ms o i fs).tex_coords = o.tex_coords ∧
      (translate_faces mesh ms o i fs).name = o.name ∧
      (translate_faces mesh ms o i fs).material_slots = o.material_slots := by
  induction fs with
  | nil => intro o i; simp [translate_faces]
  | cons f rest ih =>
    intro o i
    have h := ih (translate_face mesh ms o i f) (i + 1)
    have g := translate_face_frame mesh ms o i f
    simp only [translate_faces]
    exact ⟨h.1.trans g.1, h.2.1.trans g.2.1, h.2.2.1.trans g.2.2.1,
      h.2.2.2.trans g.2.2.2⟩

theorem foldl_push_vertex (l : List Point3) :
    ∀ o : MeshObject,
      (l.foldl (fun o v => o.push_vertex ⟨v.x, v.y, v.z⟩) o) =
        { o with vertices := o.vertices ++ l.map to_gvector3 } := by
  induction l with
  | nil => intro o; simp
  | cons v rest ih =>
    intro o
    simp only [List.foldl]
    rw [ih]
    simp [MeshObject.push_vertex, to_gvector3]

theorem foldl_push_tex_coords (l : List Point3) :
    ∀ o : MeshObject,
      (l.foldl (fun o uv => o.push_tex_coords ⟨uv.x, uv.y⟩) o) =
        { o with tex_coords := o.tex_coords ++ l.map (fun uv => ⟨uv.x, uv.y⟩) } := by
  induction l with
  | nil => intro o; simp
  | cons v rest ih =>
    intro o
    simp only [List.foldl]
    rw [ih]
    simp [MeshObject.push_tex_coords]

theorem copy_vertices_eq (name : String) (mesh : Mesh) :
    copy_vertices name mesh =
      ({ name := name, material_slots := ["material"],
         vertices := mesh.verts.map to_gvector3,
         tex_coords := mesh.tVerts.map (fun uv => ⟨uv.x, uv.y⟩),
         vertex_normals := [], triangles := [] }, 0) := by
  simp [copy_vertices, foldl_push_vertex, foldl_push_tex_coords, MeshObject.create,
    MeshObject.push_material_slot]

theorem object_after_face_eq (name : String) (mesh : Mesh) (i : Nat) (f : Face)
    (h : mesh.faces[i]? = some f) :
    object_after_face name mesh i =
      translate_face mesh 0 (object_before_face name mesh i) i f := by
  have hi : i < mesh.faces.length := by
    rcases Nat.lt_or_ge i mesh.faces.length with h1 | h1
    · exact h1
    · rw [List.getElem?_eq_none h1] at h; cases h
  unfold object_after_face object_before_face
  simp only [copy_vertices_eq]
  rw [List.take_succ, h, translate_faces_append]
  simp [translate_faces, List.length_take, Nat.min_eq_left (Nat.le_of_lt hi)]

theorem object_before_face_triangles (name : String) (mesh : Mesh) (i : Nat)
    (hi : i ≤ mesh.faces.length) :
    (object_before_face name mesh i).triangles.length = i := by
  unfold object_before_face
  simp only [copy_vertices_eq]
  obtain ⟨ts, ns, h1, h2, _⟩ := translate_faces_extends mesh 0 (mesh.faces.take i)
    { name := name, material_slots := ["material"],
      vertices := mesh.verts.map to_gvector3,
      tex_coords := mesh.tVerts.map (fun uv => ⟨uv.x, uv.y⟩),
      vertex_normals := [], triangles := [] } 0
  rw [h1]
  simp [h2, hi]

theorem fill_extends_after_face (name : String) (mesh : Mesh) (i : Nat) :
    ∃ ts ns,
      (fill_mesh_object name mesh).triangles =
        (object_after_face name mesh i).triangles ++ ts ∧
      (fill_mesh_object name mesh).vertex_normals =
        (object_after_face name mesh i).vertex_normals ++ ns := by
  unfold fill_mesh_object object_after_face
  simp only [copy_vertices_eq]
  conv =>
    enter [1, ts, 1, ns]
    rw [← List.take_append_drop (i + 1) mesh.faces, translate_faces_append]
  obtain ⟨ts, ns, h1, _, h3⟩ := translate_faces_extends mesh 0 (mesh.faces.drop (i + 1))
    (translate_faces mesh 0
      { name := name, material_slots := ["material"],
        vertices := mesh.verts.map to_gvector3,
        tex_coords := mesh.tVerts.map (fun uv => ⟨uv.x, uv.y⟩),
        vertex_normals := [], triangles := [] } 0 (mesh.faces.take (i + 1)))
    (0 + (mesh.faces.take (i + 1)).length)
  refine ⟨ts, ns, ?_, ?_⟩
  · simpa using h1
  · simpa using h3

theorem getElem?_append_mid {α : Type} (l m r : List α) (x : α) :
    (l ++ (m ++ x :: r))[l.length + m.length]? = some x := by
  rw [List.getElem?_append_right (Nat.le_add_right _ _)]
  rw [Nat.add_sub_cancel_left]
  rw [List.getElem?_append_right (Nat.le_refl _)]
  simp

/-- The triangle pushed for face `i` stays at index `i` of the finished object,
and the normals present when it was pushed stay where they are. -/
theorem triangle_of_face (name : String) (mesh : Mesh) (i : Nat) (f : Face)
    (h : mesh.faces[i]? = some f) :
    (fill_mesh_object name mesh).triangles[i]? = some
      { m_v0 := f.getVert 0, m_v1 := f.getVert 1, m_v2 := f.getVert 2,
        m_n0 := (face_normals mesh (object_before_face name mesh i) i f).2.1,
        m_n1 := (face_normals mesh (object_before_face name mesh i) i f).2.2.1,
        m_n2 := (face_normals mesh (object_before_face name mesh i) i f).2.2.2,
        m_a0 := (mesh.tvFace i).getTVert 0, m_a1 := (mesh.tvFace i).getTVert 1,
        m_a2 := (mesh.tvFace i).getTVert 2, m_pa := 0 } ∧
    ∃ ns, (fill_mesh_object name mesh).vertex_normals =
      (face_normals mesh (object_before_face name mesh i) i f).1.vertex_normals ++ ns := by
  have hi : i < mesh.faces.length := by
    rcases Nat.lt_or_ge i mesh.faces.length with h1 | h1
    · exact h1
    · rw [List.getElem?_eq_none h1] at h; cases h
  obtain ⟨ts, ns, h1, h2⟩ := fill_extends_after_face name mesh i
  rw [object_after_face_eq name mesh i f h] at h1 h2
  rw [translate_face_triangles] at h1
  rw [translate_face_normals] at h2
  refine ⟨?_, ns, h2⟩
  rw [h1]
  have hl := object_before_face_triangles name mesh i (Nat.le_of_lt hi)
  have := getElem?_append_mid (object_before_face name mesh i).triangles []
    ts
    { m_v0 := f.getVert 0, m_v1 := f.getVert 1, m_v2 := f.getVert 2,
      m_n0 := (face_normals mesh (object_before_face name mesh i) i f).2.1,
      m_n1 := (face_normals mesh (object_before_face name mesh i) i f).2.2.1,
      m_n2 := (face_normals mesh (object_before_face name mesh i) i f).2.2.2,
      m_a0 := (mesh.tvFace i).getTVert 0, m_a1 := (mesh.tvFace i).getTVert 1,
      m_a2 := (mesh.tvFace i).getTVert 2, m_pa := 0 }
  simpa [hl] using this

theorem fill_mesh_object_frame (name : String) (mesh : Mesh) :
    (fill_mesh_object name mesh).vertices = mesh.verts.map to_gvector3 ∧
    (fill_mesh_object name mesh).tex_coords = mesh.tVerts.map (fun uv => ⟨uv.x, uv.y⟩) ∧
    (fill_mesh_object name mesh).name = name ∧
    (fill_mesh_object name mesh).material_slots = ["material"] ∧
    (fill_mesh_object name mesh).triangles.length = mesh.faces.length := by
  unfold fill_mesh_object
  simp only [copy_vertices_eq]
  have h := translate_faces_frame mesh 0 mesh.faces
    { name := name, material_slots := ["material"],
      vertices := mesh.verts.map to_gvector3,
      tex_coords := mesh.tVerts.map (fun uv => ⟨uv.x, uv.y⟩),
      vertex_normals := [], triangles := [] } 0
  obtain ⟨ts, ns, h1, h2, _⟩ := translate_faces_extends mesh 0 mesh.faces
    { name := name, material_slots := ["material"],
      vertices := mesh.verts.map to_gvector3,
      tex_coords := mesh.tVerts.map (fun uv => ⟨uv.x, uv.y⟩),
      vertex_normals := [], triangles := [] } 0
  refine ⟨h.1, h.2.1, h.2.2.1, h.2.2.2, ?_⟩
  rw [h1]
  simp [h2]

theorem create_mesh_object_some (env : Env) (assembly : Assembly) (node : INode)
    (mesh : Mesh) (h : node.tri_object = some mesh) :
    create_mesh_object env assembly node =
      ({ assembly with
          objects := assembly.objects ++
            [fill_mesh_object
              (make_unique_name env (assembly.objects.map (·.name)) node.name) mesh] },
       make_unique_name env (assembly.objects.map (·.name)) node.name, true) := by
  simp [create_mesh_object, h]

theorem create_mesh_object_none (env : Env) (assembly : Assembly) (node : INode)
    (h : node.tri_object = none) :
    create_mesh_object env assembly node =
      (assembly, make_unique_name env (assembly.objects.map (·.name)) node.name, false) := by
  simp [create_mesh_object, h]

/-- The normal a finished mesh object holds for a corner of a face with a
non-zero smoothing-group mask is the host normal chosen for that corner, and
there is none when the search of the source assigns no index. -/
theorem corner_normal_smooth (name : String) (mesh : Mesh) (i j : Nat) (f : Face)
    (h : mesh.faces[i]? = some f) (hs : f.smGroup ≠ 0) :
    corner_normal (fill_mesh_object name mesh) i j =
      host_normal mesh f.smGroup f.matID (f.getVert j) := by
  obtain ⟨ht, ns, hn⟩ := triangle_of_face name mesh i f h
  obtain ⟨g0, g1, g2, g3⟩ :=
    face_normals_smooth mesh (object_before_face name mesh i) i f hs
  unfold corner_normal
  rw [ht, hn, g0]
  simp only [g1, g2, g3]
  match j with
  | 0 =>
    simp only [Triangle.normal_index, Face.getVert]
    cases host_normal mesh f.smGroup f.matID f.v0 with
    | none => simp
    | some n =>
      have := getElem?_append_mid (object_before_face name mesh i).vertex_normals []
        ((host_normal mesh f.smGroup f.matID f.v1).toList ++
          (host_normal mesh f.smGroup f.matID f.v2).toList ++ ns) n
      simpa using this
  | 1 =>
    simp only [Triangle.normal_index, Face.getVert]
    cases host_normal mesh f.smGroup f.matID f.v1 with
    | none => simp
    | some n =>
      have := getElem?_append_mid (object_before_face name mesh i).vertex_normals
        (host_normal mesh f.smGroup f.matID f.v0).toList
        ((host_normal mesh f.smGroup f.matID f.v2).toList ++ ns) n
      simpa using this
  | k + 2 =>
    simp only [Triangle.normal_index, Face.getVert]
    cases host_normal mesh f.smGroup f.matID f.v2 with
    | none => simp
    | some n =>
      have := getElem?_append_mid (object_before_face name mesh i).vertex_normals
        ((host_normal mesh f.smGroup f.matID f.v0).toList ++
          (host_normal mesh f.smGroup f.matID f.v1).toList) ns n
      simpa [Nat.add_assoc] using this

/-- The search loop over the listed normals stops at the first one that passes
its test, when one does. -/
theorem find_normal_first (ern : Nat → RNormal) (sg mat : Nat) :
    ∀ (remaining start : Nat),
      (∃ k, k < remaining ∧
        ((sg &&& (ern (start + k)).smGroup) ≠ 0 ∧ mat = (ern (start + k)).mtlIndex)) →
      ∃ k0, k0 < remaining ∧
        ((sg &&& (ern (start + k0)).smGroup) ≠ 0 ∧ mat = (ern (start + k0)).mtlIndex) ∧
        (∀ k, k < k0 →
          ¬ ((sg &&& (ern (start + k)).smGroup) ≠ 0 ∧ mat = (ern (start + k)).mtlIndex)) ∧
        find_normal ern sg mat remaining start = some (ern (start + k0)) := by
  intro remaining
  induction remaining with
  | zero =>
    intro start h
    obtain ⟨k, hk, _⟩ := h
    omega
  | succ r ih =>
    intro start h
    by_cases c : (sg &&& (ern start).smGroup) ≠ 0 ∧ mat = (ern start).mtlIndex
    · refine ⟨0, by omega, by simpa using c, ?_, ?_⟩
      · intro k hk
        omega
      · simp only [find_normal, Nat.add_zero]
        rw [if_pos c]
    · obtain ⟨k, hk, hm⟩ := h
      have hk0 : k ≠ 0 := by
        intro h0
        subst h0
        exact c (by simpa using hm)
      obtain ⟨k1, rfl⟩ : ∃ k1, k = k1 + 1 := ⟨k - 1, by omega⟩
      have hm1 : (sg &&& (ern (start + 1 + k1)).smGroup) ≠ 0 ∧
          mat = (ern (start + 1 + k1)).mtlIndex := by
        have e : start + 1 + k1 = start + (k1 + 1) := by omega
        rw [e]
        exact hm
      obtain ⟨k0, h1, h2, h3, h4⟩ := ih (start + 1) ⟨k1, by omega, hm1⟩
      have e0 : start + 1 + k0 = start + (k0 + 1) := by omega
      refine ⟨k0 + 1, by omega, ?_, ?_, ?_⟩
      · rw [← e0]
        exact h2
      · intro k hk2
        rcases Nat.eq_zero_or_pos k with hz | hpos
        · subst hz
          simpa using c
        · obtain ⟨k2, rfl⟩ : ∃ k2, k = k2 + 1 := ⟨k - 1, by omega⟩
          have e2 : start + (k2 + 1) = start + 1 + k2 := by omega
          rw [e2]
          exact h3 k2 (by omega)
      · simp only [find_normal]
        rw [if_neg c, h4, e0]

/-- The search loop finds no normal when no listed normal passes its test. -/
theorem find_normal_none (ern : Nat → RNormal) (sg mat : Nat) :
    ∀ (remaining start : Nat),
      (∀ k, k < remaining →
        ¬ ((sg &&& (ern (start + k)).smGroup) ≠ 0 ∧ mat = (ern (start + k)).mtlIndex)) →
      find_normal ern sg mat remaining start = none := by
  intro remaining
  induction remaining with
  | zero => intro start _; rfl
  | succ r ih =>
    intro start h
    have h0 := h 0 (by omega)
    simp only [Nat.add_zero] at h0
    simp only [find_normal]
    rw [if_neg h0]
    apply ih
    intro k hk
    have e : start + 1 + k = start + (k + 1) := by omega
    rw [e]
    exact h (k + 1) (by omega)

/-- The search loop returns the listed normal at index `k` when it passes the
test and no earlier one does. -/
theorem find_normal_of_first (ern : Nat → RNormal) (sg mat remaining k : Nat)
    (hk : k < remaining)
    (hm : (sg &&& (ern k).smGroup) ≠ 0 ∧ mat = (ern k).mtlIndex)
    (hfirst : ∀ k2, k2 < k →
      ¬ ((sg &&& (ern k2).smGroup) ≠ 0 ∧ mat = (ern k2).mtlIndex)) :
    find_normal ern sg mat remaining 0 = some (ern k) := by
  obtain ⟨k0, h1, h2, h3, h4⟩ :=
    find_normal_first ern sg mat remaining 0 ⟨k, hk, by simpa using hm⟩
  simp only [Nat.zero_add] at h2 h3 h4
  have hle : k0 = k := by
    rcases Nat.lt_trichotomy k0 k with hlt | heq | hgt
    · exact absurd h2 (hfirst k0 hlt)
    · exact heq
    · exact absurd hm (h3 k hgt)
  rw [h4, hle]

theorem host_normal_single (mesh : Mesh) (sg mat vert : Nat)
    (h : (mesh.getRVert vert).rFlags &&& NORCT_MASK = 1) :
    host_normal mesh sg mat vert = some (to_gvector3 (mesh.getRVert vert).rn.normal) := by
  unfold host_normal
  simp only [h, if_true]
  rfl

/-- For a vertex with several normals, or none, the host normal of a corner is
the first listed normal that passes the test for the face, when there is one. -/
theorem host_normal_first_listed (mesh : Mesh) (f : Face) (vert : Nat)
    (hc : (mesh.getRVert vert).rFlags &&& NORCT_MASK ≠ 1)
    (hex : ∃ k, k < (mesh.getRVert vert).rFlags &&& NORCT_MASK ∧
      normal_matches f ((mesh.getRVert vert).ern k)) :
    ∃ k, k < (mesh.getRVert vert).rFlags &&& NORCT_MASK ∧
      normal_matches f ((mesh.getRVert vert).ern k) ∧
      (∀ k2, k2 < k → ¬ normal_matches f ((mesh.getRVert vert).ern k2)) ∧
      host_normal mesh f.smGroup f.matID vert =
        some (to_gvector3 ((mesh.getRVert vert).ern k).normal) := by
  obtain ⟨k, hk, hm⟩ := hex
  obtain ⟨k0, h1, h2, h3, h4⟩ :=
    find_normal_first (mesh.getRVert vert).ern f.smGroup f.matID
      ((mesh.getRVert vert).rFlags &&& NORCT_MASK) 0 ⟨k, hk, by simpa using hm⟩
  simp only [Nat.zero_add] at h2 h3 h4
  refine ⟨k0, h1, h2, h3, ?_⟩
  unfold host_normal
  simp only [hc, if_false, h4]
  rfl

theorem host_normal_listed (mesh : Mesh) (f : Face) (vert k : Nat)
    (hc : (mesh.getRVert vert).rFlags &&& NORCT_MASK ≠ 1)
    (hk : k < (mesh.getRVert vert).rFlags &&& NORCT_MASK)
    (hm : normal_matches f ((mesh.getRVert vert).ern k))
    (hfirst : ∀ k2, k2 < k → ¬ normal_matches f ((mesh.getRVert vert).ern k2)) :
    host_normal mesh f.smGroup f.matID vert =
      some (to_gvector3 ((mesh.getRVert vert).ern k).normal) := by
  unfold host_normal
  simp only [hc, if_false,
    find_normal_of_first (mesh.getRVert vert).ern f.smGroup f.matID _ k hk hm hfirst]
  rfl

theorem host_normal_unmatched (mesh : Mesh) (f : Face) (vert : Nat)
    (h : ¬ corner_matched mesh f vert) :
    host_normal mesh f.smGroup f.matID vert = none := by
  have hc : (mesh.getRVert vert).rFlags &&& NORCT_MASK ≠ 1 := fun e => h (Or.inl e)
  unfold host_normal
  simp only [hc, if_false]
  rw [find_normal_none]
  · rfl
  · intro k hk hm
    exact h (Or.inr ⟨k, hk, by simpa using hm⟩)

/-- C5. Size- and index-preserving copy: when the node's object converts to a
triangle mesh, `create_mesh_object` returns true and appends one mesh object to
the assembly; that object has one triangle per face, in face order, as many
vertices and texture coordinates as the host mesh has vertices and texture
vertices, and at every index the host's vertex and texture vertex. -/
theorem create_mesh_object_copies (env : Env) (assembly : Assembly) (node : INode)
    (mesh : Mesh) (h : node.tri_object = some mesh) :
    (create_mesh_object env assembly node).2.2 = true ∧
    ∃ object,
      (create_mesh_object env assembly node).1.objects = assembly.objects ++ [object] ∧
      mesh_copied mesh object := by
  rw [create_mesh_object_some env assembly node mesh h]
  refine ⟨rfl, _, rfl, ?_⟩
  obtain ⟨hv, ht, _, _, hl⟩ := fill_mesh_object_frame
    (make_unique_name env (assembly.objects.map (·.name)) node.name) mesh
  refine ⟨hl, by simp [hv], by simp [ht], ?_, ?_, ?_⟩
  · intro i v hi
    simp [hv, hi, to_gvector3]
  · intro i uv hi
    simp [ht, hi]
  · intro i f hi
    refine ⟨_, (triangle_of_face _ mesh i f hi).1, ?_, ?_⟩
    · intro j
      match j with
      | 0 => rfl
      | 1 => rfl
      | _ + 2 => rfl
    · intro j
      match j with
      | 0 => rfl
      | 1 => rfl
      | _ + 2 => rfl

theorem create_mesh_object_copies_witness :
    (sample_node "Box" 7 (some flat_mesh) none).tri_object = some flat_mesh ∧
    (create_mesh_object sample_env Assembly.empty
      (sample_node "Box" 7 (some flat_mesh) none)).2.2 = true ∧
    ∃ object,
      (create_mesh_object sample_env Assembly.empty
        (sample_node "Box" 7 (some flat_mesh) none)).1.objects =
          Assembly.empty.objects ++ [object] ∧
      mesh_copied flat_mesh object :=
  ⟨rfl, create_mesh_object_copies sample_env Assembly.empty
    (sample_node "Box" 7 (some flat_mesh) none) flat_mesh rfl⟩

/-- C6. Flat shading: for a face whose smoothing-group mask is 0, the mesh
object `create_mesh_object` inserts was built by pushing exactly one normal for
that face, equal to the host's face normal, and the three normal indices of the
face's triangle are the index of that normal. -/
theorem flat_face_one_normal (env : Env) (assembly : Assembly) (node : INode)
    (mesh : Mesh) (i : Nat) (f : Face) (h : node.tri_object = some mesh)
    (hf : mesh.faces[i]? = some f) (h0 : f.smGroup = 0) :
    (create_mesh_object env assembly node).1.objects =
      assembly.objects ++
        [fill_mesh_object (create_mesh_object env assembly node).2.1 mesh] ∧
    flat_shaded (create_mesh_object env assembly node).2.1 mesh i := by
  rw [create_mesh_object_some env assembly node mesh h]
  refine ⟨rfl, ?_⟩
  generalize make_unique_name env (assembly.objects.map (·.name)) node.name = name
  show flat_shaded name mesh i
  obtain ⟨g0, g1, g2, g3⟩ := face_normals_flat mesh (object_before_face name mesh i) i f h0
  obtain ⟨ht, ns, hn⟩ := triangle_of_face name mesh i f hf
  refine ⟨?_, ?_, _, ht, g1, g2, g3⟩
  · rw [object_after_face_eq name mesh i f hf, translate_face_normals, g0]
  · rw [hn, g0]
    have := getElem?_append_mid (object_before_face name mesh i).vertex_normals [] ns
      (to_gvector3 (mesh.getFaceNormal i))
    simpa using this

theorem flat_face_one_normal_witness :
    (sample_node "Box" 7 (some flat_mesh) none).tri_object = some flat_mesh ∧
    flat_mesh.faces[0]? = some { v0 := 0, v1 := 1, v2 := 2, smGroup := 0, matID := 0 } ∧
    ({ v0 := 0, v1 := 1, v2 := 2, smGroup := 0, matID := 0 } : Face).smGroup = 0 ∧
    flat_shaded (create_mesh_object sample_env Assembly.empty
      (sample_node "Box" 7 (some flat_mesh) none)).2.1 flat_mesh 0 :=
  ⟨rfl, rfl, rfl,
    (flat_face_one_normal sample_env Assembly.empty
      (sample_node "Box" 7 (some flat_mesh) none) flat_mesh 0
      { v0 := 0, v1 := 1, v2 := 2, smGroup := 0, matID := 0 } rfl rfl rfl).2⟩

/-- C7 as stated fails: the faces 1 and 3 of `split_mesh` have smoothing group
2 in common (masks 3 and 6), the same material ID 0 and share vertex 0, yet the
normal resolved for that vertex is the first listed normal (mask 9, which
meets mask 3) in one triangle and the second (mask 7) in the other. -/
theorem shared_group_normals_differ :
    split_mesh.faces[1]? = some { v0 := 0, v1 := 2, v2 := 3, smGroup := 3, matID := 0 } ∧
    split_mesh.faces[3]? = some { v0 := 0, v1 := 4, v2 := 5, smGroup := 6, matID := 0 } ∧
    (3 &&& 6 : Nat) ≠ 0 ∧
    corner_normal (fill_mesh_object "m" split_mesh) 1 0 = some ⟨1, 0, 0⟩ ∧
    corner_normal (fill_mesh_object "m" split_mesh) 3 0 = some ⟨0, 1, 0⟩ ∧
    corner_normal (fill_mesh_object "m" split_mesh) 1 0 ≠
      corner_normal (fill_mesh_object "m" split_mesh) 3 0 := by
  decide

/-- C7, amended. For two faces of one mesh with non-zero smoothing-group
masks that share a vertex (in particular two faces with a smoothing group in
common and the same material ID): when the vertex has exactly one normal, both
triangles hold that normal for the vertex; when it has several, both
triangles hold the same listed normal if some listed normal passes the test
of the search loop for both faces and no earlier listed normal passes it for
either of them; and if not, one of the two corners has no normal or the two
triangles hold two different entries of the vertex's list of normals. -/
theorem shared_vertex_same_normal (name : String) (mesh : Mesh) (i1 i2 j1 j2 : Nat)
    (f1 f2 : Face) (h1 : mesh.faces[i1]? = some f1) (h2 : mesh.faces[i2]? = some f2)
    (hs1 : f1.smGroup ≠ 0) (hs2 : f2.smGroup ≠ 0)
    (hv : f1.getVert j1 = f2.getVert j2) :
    ((mesh.getRVert (f1.getVert j1)).rFlags &&& NORCT_MASK = 1 →
      corner_normal (fill_mesh_object name mesh) i1 j1 =
        some (to_gvector3 (mesh.getRVert (f1.getVert j1)).rn.normal) ∧
      corner_normal (fill_mesh_object name mesh) i2 j2 =
        some (to_gvector3 (mesh.getRVert (f1.getVert j1)).rn.normal)) ∧
    ((mesh.getRVert (f1.getVert j1)).rFlags &&& NORCT_MASK ≠ 1 →
      first_common_match mesh f1 f2 (f1.getVert j1) →
      ∃ k, k < (mesh.getRVert (f1.getVert j1)).rFlags &&& NORCT_MASK ∧
        corner_normal (fill_mesh_object name mesh) i1 j1 =
          some (to_gvector3 ((mesh.getRVert (f1.getVert j1)).ern k).normal) ∧
        corner_normal (fill_mesh_object name mesh) i2 j2 =
          some (to_gvector3 ((mesh.getRVert (f1.getVert j1)).ern k).normal)) ∧
    ((mesh.getRVert (f1.getVert j1)).rFlags &&& NORCT_MASK ≠ 1 →
      ¬ first_common_match mesh f1 f2 (f1.getVert j1) →
      corner_normal (fill_mesh_object name mesh) i1 j1 = none ∨
      corner_normal (fill_mesh_object name mesh) i2 j2 = none ∨
      ∃ k1 k2, k1 ≠ k2 ∧
        k1 < (mesh.getRVert (f1.getVert j1)).rFlags &&& NORCT_MASK ∧
        k2 < (mesh.getRVert (f1.getVert j1)).rFlags &&& NORCT_MASK ∧
        corner_normal (fill_mesh_object name mesh) i1 j1 =
          some (to_gvector3 ((mesh.getRVert (f1.getVert j1)).ern k1).normal) ∧
        corner_normal (fill_mesh_object name mesh) i2 j2 =
          some (to_gvector3 ((mesh.getRVert (f1.getVert j1)).ern k2).normal)) := by
  rw [corner_normal_smooth name mesh i1 j1 f1 h1 hs1,
    corner_normal_smooth name mesh i2 j2 f2 h2 hs2, ← hv]
  generalize f1.getVert j1 = vert
  refine ⟨?_, ?_, ?_⟩
  · intro hc
    exact ⟨host_normal_single mesh _ _ vert hc, host_normal_single mesh _ _ vert hc⟩
  · intro hc hcommon
    obtain ⟨k, hk, hm1, hm2, hfirst⟩ := hcommon
    exact ⟨k, hk,
      host_normal_listed mesh f1 vert k hc hk hm1 (fun k2 hk2 => (hfirst k2 hk2).1),
      host_normal_listed mesh f2 vert k hc hk hm2 (fun k2 hk2 => (hfirst k2 hk2).2)⟩
  · intro hc hcommon
    by_cases hex1 : ∃ k, k < (mesh.getRVert vert).rFlags &&& NORCT_MASK ∧
        normal_matches f1 ((mesh.getRVert vert).ern k)
    · by_cases hex2 : ∃ k, k < (mesh.getRVert vert).rFlags &&& NORCT_MASK ∧
          normal_matches f2 ((mesh.getRVert vert).ern k)
      · obtain ⟨k1, hk1, hm1, hf1, e1⟩ := host_normal_first_listed mesh f1 vert hc hex1
        obtain ⟨k2, hk2, hm2, hf2, e2⟩ := host_normal_first_listed mesh f2 vert hc hex2
        right
        right
        refine ⟨k1, k2, ?_, hk1, hk2, e1, e2⟩
        intro heq
        subst heq
        exact hcommon ⟨k1, hk1, hm1, hm2, fun k hk => ⟨hf1 k hk, hf2 k hk⟩⟩
      · right
        left
        apply host_normal_unmatched
        rintro (hone | hlisted)
        · exact hc hone
        · exact hex2 hlisted
    · left
      apply host_normal_unmatched
      rintro (hone | hlisted)
      · exact hc hone
      · exact hex1 hlisted

theorem shared_vertex_same_normal_witness :
    split_mesh.faces[0]? = some { v0 := 0, v1 := 1, v2 := 2, smGroup := 8, matID := 0 } ∧
    split_mesh.faces[2]? = some { v0 := 0, v1 := 3, v2 := 4, smGroup := 9, matID := 0 } ∧
    (8 &&& 9 : Nat) ≠ 0 ∧
    (split_mesh.getRVert 0).rFlags &&& NORCT_MASK ≠ 1 ∧
    first_common_match split_mesh
      { v0 := 0, v1 := 1, v2 := 2, smGroup := 8, matID := 0 }
      { v0 := 0, v1 := 3, v2 := 4, smGroup := 9, matID := 0 } 0 ∧
    ∃ k, k < (split_mesh.getRVert 0).rFlags &&& NORCT_MASK ∧
      corner_normal (fill_mesh_object "m" split_mesh) 0 0 =
        some (to_gvector3 ((split_mesh.getRVert 0).ern k).normal) ∧
      corner_normal (fill_mesh_object "m" split_mesh) 2 0 =
        some (to_gvector3 ((split_mesh.getRVert 0).ern k).normal) :=
  have hc : (split_mesh.getRVert 0).rFlags &&& NORCT_MASK ≠ 1 := by decide
  have hcommon : first_common_match split_mesh
      { v0 := 0, v1 := 1, v2 := 2, smGroup := 8, matID := 0 }
      { v0 := 0, v1 := 3, v2 := 4, smGroup := 9, matID := 0 } 0 :=
    ⟨0, by decide, by decide, by decide, fun k2 hk2 => absurd hk2 (Nat.not_lt_zero k2)⟩
  ⟨rfl, rfl, by decide, hc, hcommon,
    (shared_vertex_same_normal "m" split_mesh 0 2 0 0
      { v0 := 0, v1 := 1, v2 := 2, smGroup := 8, matID := 0 }
      { v0 := 0, v1 := 3, v2 := 4, smGroup := 9, matID := 0 }
      rfl rfl (by decide) (by decide) rfl).2.1 hc hcommon⟩

/-! ## Objects, instances and materials: lemmas -/

theorem make_unique_name_fresh (env : Env) (hf : fresh_names env) (names : List String)
    (name : String) : make_unique_name env names name ∉ names := by
  unfold make_unique_name
  by_cases h : name ∈ names
  · rw [if_pos h]
    exact hf _ _
  · rw [if_neg h]
    exact h

theorem make_unique_name_absent (env : Env) (names : List String) (name : String)
    (h : name ∉ names) : make_unique_name env names name = name := by
  simp [make_unique_name, h]

theorem map_find_insert_none {α : Type} (m : List (Nat × α)) (key : Nat) (value : α)
    (h : map_find m key = none) : map_insert m key value = (key, value) :: m := by
  simp [map_insert, h]

theorem map_find_cons {α : Type} (m : List (Nat × α)) (key k : Nat) (value : α) :
    map_find ((key, value) :: m) k = if key = k then some value else map_find m k := by
  simp [map_find]

/-- `create_object_instance` for a node without material. -/
theorem create_object_instance_no_mtl (env : Env) (s : BuildState) (node : INode)
    (object_name : String) (type : RenderType) (h : node.mtl = none) :
    create_object_instance env s node object_name type =
      { s with
        assembly :=
          { s.assembly with
            materials := s.assembly.materials ++
              [{ name := fallback_material_name env s.assembly object_name,
                 model := "disney_material", params := [],
                 layers :=
                   [dict_insert
                     (dict_insert
                       (dict_insert env.layer_default_values "base_color"
                         (.str (env.fmt_expr (env.linear_rgb_to_srgb node.wire_color))))
                       "specular" (.num 1.0))
                     "roughness" (.num 0.625)] }],
            object_instances := s.assembly.object_instances ++
              [instance_of env s.assembly node object_name type
                (fallback_material_name env s.assembly object_name)] } } := by
  simp [create_object_instance, h, add_default_material, instance_of,
    fallback_material_name, instance_name_of]

/-- `create_object_instance` for a node whose material lacks the renderer
interface. -/
theorem create_object_instance_other_mtl (env : Env) (s : BuildState) (node : INode)
    (object_name : String) (type : RenderType) (p : Nat) (h : node.mtl = some p)
    (hp : (env.mtl p).appleseed_mtl = none) :
    create_object_instance env s node object_name type =
      { s with
        assembly :=
          { s.assembly with
            materials := s.assembly.materials ++
              [{ name := fallback_material_name env s.assembly object_name,
                 model := "generic_material", params := [], layers := [] }],
            object_instances := s.assembly.object_instances ++
              [instance_of env s.assembly node object_name type
                (fallback_material_name env s.assembly object_name)] } } := by
  simp [create_object_instance, h, hp, add_empty_material, instance_of,
    fallback_material_name, instance_name_of]

/-- `create_object_instance` for a node whose renderer-aware material is not in
the Material Registry yet. -/
theorem create_object_instance_new_mtl (env : Env) (s : BuildState) (node : INode)
    (object_name : String) (type : RenderType) (p : Nat) (m : IAppleseedMtl)
    (h : node.mtl = some p) (hp : (env.mtl p).appleseed_mtl = some m)
    (hm : map_find s.material_map p = none) :
    create_object_instance env s node object_name type =
      { s with
        assembly :=
          { s.assembly with
            textures := s.assembly.textures ++
              (m.create_material s.assembly
                (make_unique_name env (s.assembly.materials.map (·.name))
                  (env.mtl p).name)).2.1,
            texture_instances := s.assembly.texture_instances ++
              (m.create_material s.assembly
                (make_unique_name env (s.assembly.materials.map (·.name))
                  (env.mtl p).name)).2.2,
            materials := s.assembly.materials ++
              [(m.create_material s.assembly
                (make_unique_name env (s.assembly.materials.map (·.name))
                  (env.mtl p).name)).1],
            object_instances := s.assembly.object_instances ++
              [instance_of env s.assembly node object_name type
                (make_unique_name env (s.assembly.materials.map (·.name))
                  (env.mtl p).name)] },
        material_map :=
          (p, make_unique_name env (s.assembly.materials.map (·.name)) (env.mtl p).name) ::
            s.material_map,
        created := s.created ++
          [(p, make_unique_name env (s.assembly.materials.map (·.name))
            (env.mtl p).name)] } := by
  simp [create_object_instance, h, hp, hm, instance_of, instance_name_of, map_insert]

/-- `create_object_instance` for a node whose renderer-aware material is in the
Material Registry. -/
theorem create_object_instance_known_mtl (env : Env) (s : BuildState) (node : INode)
    (object_name : String) (type : RenderType) (p : Nat) (m : IAppleseedMtl)
    (name : String) (h : node.mtl = some p) (hp : (env.mtl p).appleseed_mtl = some m)
    (hm : map_find s.material_map p = some name) :
    create_object_instance env s node object_name type =
      { s with
        assembly :=
          { s.assembly with
            object_instances := s.assembly.object_instances ++
              [instance_of env s.assembly node object_name type name] } } := by
  simp [create_object_instance, h, hp, hm, instance_of, instance_name_of]

/-- What `create_object_instance` leaves alone, and the one instance it adds. -/
theorem create_object_instance_frame (env : Env) (s : BuildState) (node : INode)
    (object_name : String) (type : RenderType) :
    (create_object_instance env s node object_name type).assembly.objects =
      s.assembly.objects ∧
    (create_object_instance env s node object_name type).assembly.lights =
      s.assembly.lights ∧
    (create_object_instance env s node object_name type).assembly.colors =
      s.assembly.colors ∧
    (create_object_instance env s node object_name type).object_map = s.object_map ∧
    (create_object_instance env s node object_name type).translated = s.translated ∧
    ∃ material_name,
      (create_object_instance env s node object_name type).assembly.object_instances =
        s.assembly.object_instances ++
          [instance_of env s.assembly node object_name type material_name] := by
  cases h : node.mtl with
  | none =>
    rw [create_object_instance_no_mtl env s node object_name type h]
    exact ⟨rfl, rfl, rfl, rfl, rfl, _, rfl⟩
  | some p =>
    cases hp : (env.mtl p).appleseed_mtl with
    | none =>
      rw [create_object_instance_other_mtl env s node object_name type p h hp]
      exact ⟨rfl, rfl, rfl, rfl, rfl, _, rfl⟩
    | some m =>
      cases hm : map_find s.material_map p with
      | none =>
        rw [create_object_instance_new_mtl env s node object_name type p m h hp hm]
        exact ⟨rfl, rfl, rfl, rfl, rfl, _, rfl⟩
      | some name =>
        rw [create_object_instance_known_mtl env s node object_name type p m name h hp hm]
        exact ⟨rfl, rfl, rfl, rfl, rfl, _, rfl⟩

/-- `add_object` for a node whose object is not in the Object Registry and
converts to a triangle mesh. -/
theorem add_object_new_mesh (env : Env) (type : RenderType) (s : BuildState)
    (node : INode) (mesh : Mesh) (hm : map_find s.object_map node.objectRef = none)
    (ht : node.tri_object = some mesh) :
    add_object env type s node =
      create_object_instance env
        { s with
          assembly :=
            { s.assembly with
              objects := s.assembly.objects ++
                [fill_mesh_object
                  (make_unique_name env (s.assembly.objects.map (·.name)) node.name)
                  mesh] },
          object_map :=
            (node.objectRef,
              { m_valid := true,
                m_name := make_unique_name env (s.assembly.objects.map (·.name))
                  node.name }) :: s.object_map,
          translated := s.translated ++ [node.objectRef] }
        node (make_unique_name env (s.assembly.objects.map (·.name)) node.name) type := by
  simp [add_object, hm, create_mesh_object, ht, map_insert]

/-- `add_object` for a node whose object is not in the Object Registry and does
not convert to a triangle mesh. -/
theorem add_object_failed (env : Env) (type : RenderType) (s : BuildState)
    (node : INode) (hm : map_find s.object_map node.objectRef = none)
    (ht : node.tri_object = none) :
    add_object env type s node =
      { s with
        object_map :=
          (node.objectRef,
            { m_valid := false,
              m_name := make_unique_name env (s.assembly.objects.map (·.name))
                node.name }) :: s.object_map,
        translated := s.translated ++ [node.objectRef] } := by
  simp [add_object, hm, create_mesh_object, ht, map_insert]

/-- `add_object` for a node whose object is in the Object Registry. -/
theorem add_object_known (env : Env) (type : RenderType) (s : BuildState)
    (node : INode) (info : ObjectInfo)
    (hm : map_find s.object_map node.objectRef = some info) :
    add_object env type s node =
      if info.m_valid then create_object_instance env s node info.m_name type else s := by
  simp [add_object, hm]

theorem translates_append_of_mem (pre l : List INode) (r : Nat)
    (h : ∃ m ∈ pre, m.objectRef = r) : translates (pre ++ l) r = translates pre r := by
  unfold translates
  rw [List.find?_append]
  cases hf : pre.find? (fun n => decide (n.objectRef = r)) with
  | some n => simp
  | none =>
    obtain ⟨m, hm, hr⟩ := h
    have := List.find?_eq_none.mp hf m hm
    simp [hr] at this

theorem translates_append_of_not_mem (pre l : List INode) (r : Nat)
    (h : ∀ m ∈ pre, m.objectRef ≠ r) : translates (pre ++ l) r = translates l r := by
  unfold translates
  rw [List.find?_append]
  have hf : pre.find? (fun n => decide (n.objectRef = r)) = none := by
    rw [List.find?_eq_none]
    intro m hm
    simpa using h m hm
  simp [hf]

theorem translates_singleton (n : INode) (r : Nat) :
    translates [n] r = (decide (n.objectRef = r) && n.tri_object.isSome) := by
  unfold translates
  by_cases h : n.objectRef = r
  · simp [List.find?, h]
  · simp [List.find?, h]

theorem translates_of_not_mem (nodes : List INode) (r : Nat)
    (h : ∀ m ∈ nodes, m.objectRef ≠ r) : translates nodes r = false := by
  unfold translates
  have hf : nodes.find? (fun n => decide (n.objectRef = r)) = none := by
    rw [List.find?_eq_none]
    intro m hm
    simpa using h m hm
  simp [hf]

theorem filter_translates_append (pre : List INode) (n : INode) :
    (pre ++ [n]).filter (fun m => translates (pre ++ [n]) m.objectRef) =
      pre.filter (fun m => translates pre m.objectRef) ++
        (if translates (pre ++ [n]) n.objectRef = true then [n] else []) := by
  rw [List.filter_append]
  congr 1
  · apply List.filter_congr
    intro m hm
    rw [translates_append_of_mem pre [n] m.objectRef ⟨m, hm, rfl⟩]
  · by_cases h : translates (pre ++ [n]) n.objectRef = true
    · simp [List.filter, h]
    · simp [List.filter, h]

theorem card_translates_append (pre : List INode) (n : INode) :
    (((pre ++ [n]).map (·.objectRef)).toFinset.filter
        (fun r => translates (pre ++ [n]) r = true)).card =
      ((pre.map (·.objectRef)).toFinset.filter (fun r => translates pre r = true)).card +
        (if (∀ m ∈ pre, m.objectRef ≠ n.objectRef) ∧
            translates (pre ++ [n]) n.objectRef = true then 1 else 0) := by
  by_cases hmem : ∃ m ∈ pre, m.objectRef = n.objectRef
  · have hc : ¬ ((∀ m ∈ pre, m.objectRef ≠ n.objectRef) ∧
        translates (pre ++ [n]) n.objectRef = true) := by
      rintro ⟨h, _⟩
      obtain ⟨m, hm, hr⟩ := hmem
      exact h m hm hr
    rw [if_neg hc, Nat.add_zero]
    congr 1
    ext r
    simp only [Finset.mem_filter, List.mem_toFinset, List.mem_map, List.mem_append,
      List.mem_singleton]
    constructor
    · rintro ⟨⟨m, hm | hm, hr⟩, ht⟩
      · rw [translates_append_of_mem pre [n] r ⟨m, hm, hr⟩] at ht
        exact ⟨⟨m, hm, hr⟩, ht⟩
      · subst hm
        obtain ⟨m', hm', hr'⟩ := hmem
        rw [translates_append_of_mem pre [m] r ⟨m', hm', hr'.trans hr⟩] at ht
        exact ⟨⟨m', hm', hr'.trans hr⟩, ht⟩
    · rintro ⟨⟨m, hm, hr⟩, ht⟩
      refine ⟨⟨m, Or.inl hm, hr⟩, ?_⟩
      rw [translates_append_of_mem pre [n] r ⟨m, hm, hr⟩]
      exact ht
  · have hnot : ∀ m ∈ pre, m.objectRef ≠ n.objectRef := by
      intro m hm hr
      exact hmem ⟨m, hm, hr⟩
    have hnotin : n.objectRef ∉
        (pre.map (·.objectRef)).toFinset.filter (fun r => translates pre r = true) := by
      simp only [Finset.mem_filter, List.mem_toFinset, List.mem_map]
      rintro ⟨⟨m, hm, hr⟩, _⟩
      exact hnot m hm hr
    by_cases ht : translates (pre ++ [n]) n.objectRef = true
    · rw [if_pos ⟨hnot, ht⟩, ← Finset.card_insert_of_not_mem hnotin]
      congr 1
      ext r
      simp only [Finset.mem_filter, List.mem_toFinset, List.mem_map, List.mem_append,
        List.mem_singleton, Finset.mem_insert]
      constructor
      · rintro ⟨⟨m, hm | hm, hr⟩, ht'⟩
        · rw [translates_append_of_mem pre [n] r ⟨m, hm, hr⟩] at ht'
          exact Or.inr ⟨⟨m, hm, hr⟩, ht'⟩
        · subst hm
          exact Or.inl hr.symm
      · rintro (hr | ⟨⟨m, hm, hr⟩, ht'⟩)
        · subst hr
          exact ⟨⟨n, Or.inr rfl, rfl⟩, ht⟩
        · refine ⟨⟨m, Or.inl hm, hr⟩, ?_⟩
          rw [translates_append_of_mem pre [n] r ⟨m, hm, hr⟩]
          exact ht'
    · have hc : ¬ ((∀ m ∈ pre, m.objectRef ≠ n.objectRef) ∧
          translates (pre ++ [n]) n.objectRef = true) := fun h => ht h.2
      rw [if_neg hc, Nat.add_zero]
      congr 1
      ext r
      simp only [Finset.mem_filter, List.mem_toFinset, List.mem_map, List.mem_append,
        List.mem_singleton]
      constructor
      · rintro ⟨⟨m, hm | hm, hr⟩, ht'⟩
        · rw [translates_append_of_mem pre [n] r ⟨m, hm, hr⟩] at ht'
          exact ⟨⟨m, hm, hr⟩, ht'⟩
        · subst hm
          subst hr
          exact absurd ht' ht
      · rintro ⟨⟨m, hm, hr⟩, ht'⟩
        refine ⟨⟨m, Or.inl hm, hr⟩, ?_⟩
        rw [translates_append_of_mem pre [n] r ⟨m, hm, hr⟩]
        exact ht'

/-- Invariant of the loop of `add_objects` over the nodes processed so far: the
Object Registry holds exactly the objects referenced so far, each with the
outcome of its translation; the objects and the instances are counted by the
translated objects and by the nodes that reference one. -/
theorem add_objects_invariant (env : Env) (type : RenderType) (a : Assembly)
    (nodes : List INode) :
    (∀ r, map_find (nodes.foldl (add_object env type) (initial_state a)).object_map r = none ↔
      ∀ m ∈ nodes, m.objectRef ≠ r) ∧
    (∀ r info,
      map_find (nodes.foldl (add_object env type) (initial_state a)).object_map r = some info →
        info.m_valid = translates nodes r) ∧
    (nodes.foldl (add_object env type) (initial_state a)).assembly.objects.length =
      a.objects.length +
        ((nodes.map (·.objectRef)).toFinset.filter (fun r => translates nodes r = true)).card ∧
    (nodes.foldl (add_object env type) (initial_state a)).assembly.object_instances.length =
      a.object_instances.length +
        (nodes.filter (fun n => translates nodes n.objectRef)).length := by
  induction nodes using List.reverseRecOn with
  | nil => simp [initial_state, map_find]
  | append_singleton pre n ih =>
    obtain ⟨i1, i2, i3, i4⟩ := ih
    rw [List.foldl_append]
    simp only [List.foldl]
    generalize pre.foldl (add_object env type) (initial_state a) = s at i1 i2 i3 i4 ⊢
    rw [filter_translates_append, card_translates_append, List.length_append]
    cases hfind : map_find s.object_map n.objectRef with
    | none =>
      have hnot : ∀ m ∈ pre, m.objectRef ≠ n.objectRef := (i1 n.objectRef).mp hfind
      have ht : translates (pre ++ [n]) n.objectRef = n.tri_object.isSome := by
        rw [translates_append_of_not_mem pre [n] n.objectRef hnot, translates_singleton]
        simp
      have hkey : ∀ r info0,
          (map_find ((n.objectRef, info0) :: s.object_map) r = none ↔
            ∀ m ∈ pre ++ [n], m.objectRef ≠ r) := by
        intro r info0
        rw [map_find_cons]
        by_cases hr : n.objectRef = r
        · simp only [hr, if_true]
          constructor
          · intro h; cases h
          · intro h
            exact absurd hr (h n (by simp))
        · simp only [hr, if_false, i1 r, List.mem_append, List.mem_singleton]
          constructor
          · rintro h m (hm | hm)
            · exact h m hm
            · subst hm; exact hr
          · intro h m hm
            exact h m (Or.inl hm)
      have hval : ∀ r info info0,
          info0.m_valid = n.tri_object.isSome →
          map_find ((n.objectRef, info0) :: s.object_map) r = some info →
            info.m_valid = translates (pre ++ [n]) r := by
        intro r info info0 h0
        rw [map_find_cons]
        by_cases hr : n.objectRef = r
        · subst hr
          simp only [if_true, Option.some.injEq]
          intro h; subst h
          rw [ht, h0]
        · simp only [hr, if_false]
          intro h
          have hex : ∃ m ∈ pre, m.objectRef = r := by
            by_contra hc
            have : map_find s.object_map r = none :=
              (i1 r).mpr (fun m hm hmr => hc ⟨m, hm, hmr⟩)
            rw [this] at h; cases h
          rw [translates_append_of_mem pre [n] r hex]
          exact i2 r info h
      cases htri : n.tri_object with
      | some mesh =>
        rw [htri] at ht
        rw [add_object_new_mesh env type s n mesh hfind htri]
        obtain ⟨f1, _, _, f4, _, mname, f6⟩ := create_object_instance_frame env
          { s with
            assembly :=
              { s.assembly with
                objects := s.assembly.objects ++
                  [fill_mesh_object
                    (make_unique_name env (s.assembly.objects.map (·.name)) n.name) mesh] },
            object_map :=
              (n.objectRef,
                { m_valid := true,
                  m_name := make_unique_name env (s.assembly.objects.map (·.name))
                    n.name }) :: s.object_map,
            translated := s.translated ++ [n.objectRef] }
          n (make_unique_name env (s.assembly.objects.map (·.name)) n.name) type
        rw [f1, f4, f6]
        have hc : (∀ m ∈ pre, m.objectRef ≠ n.objectRef) ∧
            translates (pre ++ [n]) n.objectRef = true := ⟨hnot, by rw [ht]; rfl⟩
        refine ⟨fun r => hkey r _, fun r info => hval r info _ (by simp [htri]), ?_, ?_⟩
        · rw [if_pos hc]
          simp [i3]
          omega
        · rw [if_pos hc.2]
          simp [i4]
          omega
      | none =>
        rw [htri] at ht
        rw [add_object_failed env type s n hfind htri]
        have hc : ¬ translates (pre ++ [n]) n.objectRef = true := by
          rw [ht]; simp
        refine ⟨fun r => hkey r _, fun r info => hval r info _ (by simp [htri]), ?_, ?_⟩
        · rw [if_neg (fun h => hc h.2)]
          simp [i3]
        · rw [if_neg hc]
          simp [i4]
    | some info =>
      have hex : ∃ m ∈ pre, m.objectRef = n.objectRef := by
        by_contra hc
        have : map_find s.object_map n.objectRef = none :=
          (i1 n.objectRef).mpr (fun m hm hmr => hc ⟨m, hm, hmr⟩)
        rw [this] at hfind; cases hfind
      have ht : translates (pre ++ [n]) n.objectRef = info.m_valid := by
        rw [translates_append_of_mem pre [n] n.objectRef hex]
        exact (i2 n.objectRef info hfind).symm
      have hnotall : ¬ ∀ m ∈ pre, m.objectRef ≠ n.objectRef := by
        intro h
        obtain ⟨m, hm, hr⟩ := hex
        exact h m hm hr
      have hkey : ∀ r, (map_find s.object_map r = none ↔
          ∀ m ∈ pre ++ [n], m.objectRef ≠ r) := by
        intro r
        rw [i1 r]
        simp only [List.mem_append, List.mem_singleton]
        constructor
        · rintro h m (hm | hm)
          · exact h m hm
          · subst hm
            intro hr
            obtain ⟨m', hm', hr'⟩ := hex
            exact h m' hm' (hr'.trans hr)
        · intro h m hm
          exact h m (Or.inl hm)
      have hval : ∀ r info', map_find s.object_map r = some info' →
          info'.m_valid = translates (pre ++ [n]) r := by
        intro r info' h
        have hex' : ∃ m ∈ pre, m.objectRef = r := by
          by_contra hc
          have : map_find s.object_map r = none :=
            (i1 r).mpr (fun m hm hmr => hc ⟨m, hm, hmr⟩)
          rw [this] at h; cases h
        rw [translates_append_of_mem pre [n] r hex']
        exact i2 r info' h
      rw [add_object_known env type s n info hfind]
      cases hv : info.m_valid with
      | true =>
        rw [hv] at ht
        simp only [if_true]
        obtain ⟨f1, _, _, f4, _, mname, f6⟩ :=
          create_object_instance_frame env s n info.m_name type
        rw [f1, f4, f6]
        refine ⟨hkey, hval, ?_, ?_⟩
        · rw [if_neg (fun h => hnotall h.1)]
          simp [i3]
        · rw [if_pos ht]
          simp [i4]
          omega
      | false =>
        rw [hv] at ht
        simp only [Bool.false_eq_true, if_false]
        refine ⟨hkey, hval, ?_, ?_⟩
        · rw [if_neg (fun h => hnotall h.1)]
          simp [i3]
        · rw [if_neg (by rw [ht]; simp)]
          simp [i4]

theorem add_objects_eq (env : Env) (a : Assembly) (entities : MaxSceneEntities)
    (type : RenderType) :
    add_objects env a entities type =
      (entities.m_objects.foldl (add_object env type) (initial_state a)).assembly := rfl

theorem add_objects_state_eq (env : Env) (a : Assembly) (entities : MaxSceneEntities)
    (type : RenderType) :
    add_objects_state env a entities type =
      entities.m_objects.foldl (add_object env type) (initial_state a) := rfl

theorem translates_of_all (nodes : List INode)
    (h : ∀ n ∈ nodes, n.tri_object.isSome = true) (m : INode) (hm : m ∈ nodes) :
    translates nodes m.objectRef = true := by
  unfold translates
  cases hf : nodes.find? (fun n => decide (n.objectRef = m.objectRef)) with
  | none =>
    have := List.find?_eq_none.mp hf m hm
    simp at this
  | some n0 => exact h n0 (List.mem_of_find?_eq_some hf)

theorem translates_cons (n : INode) (rest : List INode) (r : Nat) :
    translates (n :: rest) r =
      if n.objectRef = r then n.tri_object.isSome else translates rest r := by
  unfold translates
  by_cases h : n.objectRef = r
  · simp [List.find?, h]
  · simp [List.find?, h]

/-- `create_object_instance` reads only the assembly and the Material Registry
of the state. -/
theorem create_object_instance_congr (env : Env) (s1 s2 : BuildState) (node : INode)
    (object_name : String) (type : RenderType) (ha : s1.assembly = s2.assembly)
    (hm : s1.material_map = s2.material_map) :
    (create_object_instance env s1 node object_name type).assembly =
      (create_object_instance env s2 node object_name type).assembly ∧
    (create_object_instance env s1 node object_name type).material_map =
      (create_object_instance env s2 node object_name type).material_map := by
  obtain ⟨a1, om1, mm1, t1, c1⟩ := s1
  obtain ⟨a2, om2, mm2, t2, c2⟩ := s2
  simp only at ha hm
  subst ha
  subst hm
  cases h : node.mtl with
  | none =>
    rw [create_object_instance_no_mtl env _ node object_name type h,
      create_object_instance_no_mtl env _ node object_name type h]
    exact ⟨rfl, rfl⟩
  | some p =>
    cases hp : (env.mtl p).appleseed_mtl with
    | none =>
      rw [create_object_instance_other_mtl env _ node object_name type p h hp,
        create_object_instance_other_mtl env _ node object_name type p h hp]
      exact ⟨rfl, rfl⟩
    | some m =>
      cases hf : map_find mm1 p with
      | none =>
        rw [create_object_instance_new_mtl env _ node object_name type p m h hp hf,
          create_object_instance_new_mtl env _ node object_name type p m h hp hf]
        exact ⟨rfl, rfl⟩
      | some name =>
        rw [create_object_instance_known_mtl env _ node object_name type p m name h hp hf,
          create_object_instance_known_mtl env _ node object_name type p m name h hp hf]
        exact ⟨rfl, rfl⟩

/-- The nodes whose object fails to translate can be left out: the loop of
`add_objects` over all nodes and over the remaining ones builds the same
assembly, from states that agree on the assembly, on the Material Registry and
on the valid entries of the Object Registry. -/
theorem add_objects_skip_failed (env : Env) (type : RenderType) (rest : List INode) :
    ∀ (s1 s2 : BuildState), s1.assembly = s2.assembly →
      s1.material_map = s2.material_map →
      (∀ r, map_find s2.object_map r =
        (map_find s1.object_map r).bind (fun info => if info.m_valid then some info else none)) →
      (rest.foldl (add_object env type) s1).assembly =
        ((rest.filter (fun n => will_translate s1.object_map rest n.objectRef)).foldl
          (add_object env type) s2).assembly := by
  induction rest with
  | nil => intro s1 s2 ha _ _; simpa using ha
  | cons n rest ih =>
    intro s1 s2 ha hm hrel
    simp only [List.foldl]
    cases hfind : map_find s1.object_map n.objectRef with
    | some info =>
      have hsame : ∀ r, will_translate s1.object_map (n :: rest) r =
          will_translate s1.object_map rest r := by
        intro r
        unfold will_translate
        cases hr : map_find s1.object_map r with
        | some _ => rfl
        | none =>
          have hne : n.objectRef ≠ r := by
            intro h; rw [h, hr] at hfind; cases hfind
          simp [translates_cons, hne]
      have hfilter : rest.filter (fun m => will_translate s1.object_map (n :: rest) m.objectRef) =
          rest.filter (fun m => will_translate s1.object_map rest m.objectRef) :=
        List.filter_congr (fun m _ => hsame m.objectRef)
      have hw : will_translate s1.object_map (n :: rest) n.objectRef = info.m_valid := by
        simp [will_translate, hfind]
      rw [add_object_known env type s1 n info hfind]
      cases hv : info.m_valid with
      | true =>
        have h2 : map_find s2.object_map n.objectRef = some info := by
          rw [hrel, hfind]; simp [hv]
        rw [List.filter_cons_of_pos (by rw [hw, hv]), hfilter]
        simp only [List.foldl, if_true]
        rw [add_object_known env type s2 n info h2]
        simp only [hv, if_true]
        obtain ⟨ca, cm⟩ := create_object_instance_congr env s1 s2 n info.m_name type ha hm
        have f1 := (create_object_instance_frame env s1 n info.m_name type).2.2.2.1
        have f2 := (create_object_instance_frame env s2 n info.m_name type).2.2.2.1
        have := ih (create_object_instance env s1 n info.m_name type)
          (create_object_instance env s2 n info.m_name type) ca cm
          (by intro r; rw [f1, f2]; exact hrel r)
        rw [f1] at this
        exact this
      | false =>
        rw [List.filter_cons_of_neg (by rw [hw, hv]; simp), hfilter]
        simp only [Bool.false_eq_true, if_false]
        exact ih s1 s2 ha hm hrel
    | none =>
      have h2 : map_find s2.object_map n.objectRef = none := by
        rw [hrel, hfind]; rfl
      have hw : will_translate s1.object_map (n :: rest) n.objectRef =
          n.tri_object.isSome := by
        simp [will_translate, hfind, translates_cons]
      have hsame : ∀ (info0 : ObjectInfo), info0.m_valid = n.tri_object.isSome → ∀ r,
          will_translate s1.object_map (n :: rest) r =
            will_translate ((n.objectRef, info0) :: s1.object_map) rest r := by
        intro info0 h0 r
        unfold will_translate
        rw [map_find_cons]
        by_cases hr : n.objectRef = r
        · subst hr
          simp [hfind, translates_cons, h0]
        · simp only [hr, if_false]
          cases map_find s1.object_map r with
          | some _ => rfl
          | none => simp [translates_cons, hr]
      cases htri : n.tri_object with
      | some mesh =>
        rw [List.filter_cons_of_pos (by rw [hw, htri]; rfl)]
        simp only [List.foldl]
        rw [add_object_new_mesh env type s1 n mesh hfind htri,
          add_object_new_mesh env type s2 n mesh h2 htri, ← ha]
        generalize hname :
          make_unique_name env (s1.assembly.objects.map (·.name)) n.name = name
        have hf := List.filter_congr (l := rest)
          (fun m _ => hsame { m_valid := true, m_name := name } (by simp [htri]) m.objectRef)
        rw [hf]
        obtain ⟨ca, cm⟩ := create_object_instance_congr env
          { s1 with
            assembly :=
              { s1.assembly with
                objects := s1.assembly.objects ++ [fill_mesh_object name mesh] },
            object_map := (n.objectRef, { m_valid := true, m_name := name }) :: s1.object_map,
            translated := s1.translated ++ [n.objectRef] }
          { s2 with
            assembly :=
              { s1.assembly with
                objects := s1.assembly.objects ++ [fill_mesh_object name mesh] },
            object_map := (n.objectRef, { m_valid := true, m_name := name }) :: s2.object_map,
            translated := s2.translated ++ [n.objectRef] }
          n name type rfl hm
        have f1 := (create_object_instance_frame env
          { s1 with
            assembly :=
              { s1.assembly with
                objects := s1.assembly.objects ++ [fill_mesh_object name mesh] },
            object_map := (n.objectRef, { m_valid := true, m_name := name }) :: s1.object_map,
            translated := s1.translated ++ [n.objectRef] } n name type).2.2.2.1
        have f2 := (create_object_instance_frame env
          { s2 with
            assembly :=
              { s1.assembly with
                objects := s1.assembly.objects ++ [fill_mesh_object name mesh] },
            object_map := (n.objectRef, { m_valid := true, m_name := name }) :: s2.object_map,
            translated := s2.translated ++ [n.objectRef] } n name type).2.2.2.1
        have := ih _ _ ca cm
          (by
            intro r
            rw [f1, f2, map_find_cons, map_find_cons]
            by_cases hr : n.objectRef = r
            · simp [hr]
            · simp only [hr, if_false]
              exact hrel r)
        rw [f1] at this
        exact this
      | none =>
        rw [List.filter_cons_of_neg (by rw [hw, htri]; simp)]
        rw [add_object_failed env type s1 n hfind htri]
        generalize hname :
          make_unique_name env (s1.assembly.objects.map (·.name)) n.name = name
        have hf := List.filter_congr (l := rest)
          (fun m _ => hsame { m_valid := false, m_name := name } (by simp [htri]) m.objectRef)
        rw [hf]
        exact ih
          { s1 with
            object_map := (n.objectRef, { m_valid := false, m_name := name }) :: s1.object_map,
            translated := s1.translated ++ [n.objectRef] }
          s2 ha hm
          (by
            intro r
            simp only [map_find_cons]
            by_cases hr : n.objectRef = r
            · subst hr
              simp [h2]
            · simp only [hr, if_false]
              exact hrel r)

theorem registry_persists (env : Env) (type : RenderType) (s : BuildState) (n : INode)
    (r : Nat) (info : ObjectInfo) (h : map_find s.object_map r = some info) :
    map_find (add_object env type s n).object_map r = some info := by
  cases hfind : map_find s.object_map n.objectRef with
  | some info0 =>
    rw [add_object_known env type s n info0 hfind]
    by_cases hv : info0.m_valid = true
    · rw [if_pos hv, (create_object_instance_frame env s n info0.m_name type).2.2.2.1]
      exact h
    · rw [if_neg hv]
      exact h
  | none =>
    have hne : n.objectRef ≠ r := by
      intro e; rw [e, h] at hfind; cases hfind
    cases htri : n.tri_object with
    | some mesh =>
      rw [add_object_new_mesh env type s n mesh hfind htri,
        (create_object_instance_frame env _ n _ type).2.2.2.1]
      simp only [map_find_cons, hne, if_false]
      exact h
    | none =>
      rw [add_object_failed env type s n hfind htri]
      simp only [map_find_cons, hne, if_false]
      exact h

theorem registry_persists_foldl (env : Env) (type : RenderType) (nodes : List INode) :
    ∀ (s : BuildState) (r : Nat) (info : ObjectInfo),
      map_find s.object_map r = some info →
      map_find (nodes.foldl (add_object env type) s).object_map r = some info := by
  induction nodes with
  | nil => intro s r info h; exact h
  | cons n rest ih =>
    intro s r info h
    simp only [List.foldl]
    exact ih _ r info (registry_persists env type s n r info h)

theorem dict_get_insert_same {α : Type} (d : List (String × α)) (key : String) (value : α) :
    dict_get (dict_insert d key value) key = some value := by
  induction d with
  | nil => simp [dict_insert, dict_get]
  | cons e rest ih =>
    obtain ⟨k, v⟩ := e
    by_cases h : k = key
    · simp [dict_insert, dict_get, h]
    · simp [dict_insert, dict_get, h, ih]

theorem dict_get_insert_other {α : Type} (d : List (String × α)) (key other : String)
    (value : α) (h : key ≠ other) :
    dict_get (dict_insert d key value) other = dict_get d other := by
  induction d with
  | nil => simp [dict_insert, dict_get, h]
  | cons e rest ih =>
    obtain ⟨k, v⟩ := e
    by_cases hk : k = key
    · subst hk
      simp [dict_insert, dict_get, h]
    · by_cases ho : k = other
      · subst ho
        simp [dict_insert, dict_get, hk]
      · simp [dict_insert, dict_get, hk, ho, ih]

theorem create_object_instance_materials_grow (env : Env) (s : BuildState) (node : INode)
    (object_name : String) (type : RenderType) :
    ∃ ms, (create_object_instance env s node object_name type).assembly.materials =
      s.assembly.materials ++ ms := by
  cases h : node.mtl with
  | none =>
    rw [create_object_instance_no_mtl env s node object_name type h]
    exact ⟨_, rfl⟩
  | some p =>
    cases hp : (env.mtl p).appleseed_mtl with
    | none =>
      rw [create_object_instance_other_mtl env s node object_name type p h hp]
      exact ⟨_, rfl⟩
    | some m =>
      cases hm : map_find s.material_map p with
      | none =>
        rw [create_object_instance_new_mtl env s node object_name type p m h hp hm]
        exact ⟨_, rfl⟩
      | some name =>
        rw [create_object_instance_known_mtl env s node object_name type p m name h hp hm]
        exact ⟨[], by simp⟩

theorem add_object_materials_grow (env : Env) (type : RenderType) (s : BuildState)
    (n : INode) :
    ∃ ms, (add_object env type s n).assembly.materials = s.assembly.materials ++ ms := by
  cases hfind : map_find s.object_map n.objectRef with
  | some info =>
    rw [add_object_known env type s n info hfind]
    by_cases hv : info.m_valid = true
    · rw [if_pos hv]
      exact create_object_instance_materials_grow env s n info.m_name type
    · rw [if_neg hv]
      exact ⟨[], by simp⟩
  | none =>
    cases htri : n.tri_object with
    | some mesh =>
      rw [add_object_new_mesh env type s n mesh hfind htri]
      exact create_object_instance_materials_grow env _ n _ type
    | none =>
      rw [add_object_failed env type s n hfind htri]
      exact ⟨[], by simp⟩

theorem foldl_materials_grow (env : Env) (type : RenderType) (nodes : List INode) :
    ∀ s : BuildState, ∃ ms,
      (nodes.foldl (add_object env type) s).assembly.materials =
        s.assembly.materials ++ ms := by
  induction nodes with
  | nil => intro s; exact ⟨[], by simp⟩
  | cons n rest ih =>
    intro s
    obtain ⟨ms1, h1⟩ := add_object_materials_grow env type s n
    obtain ⟨ms2, h2⟩ := ih (add_object env type s n)
    exact ⟨ms1 ++ ms2, by simp only [List.foldl, h2, h1, List.append_assoc]⟩

theorem instance_of_material (env : Env) (assembly : Assembly) (node : INode)
    (object_name : String) (type : RenderType) (material_name : String) :
    (instance_of env assembly node object_name type material_name).material =
      some material_name := by
  simp [instance_of, ObjectInstance.material, dict_get_insert_same]

theorem fallback_material_name_fresh (env : Env) (hf : fresh_names env)
    (assembly : Assembly) (object_name : String) :
    fallback_material_name env assembly object_name ∉ assembly.materials.map (·.name) :=
  make_unique_name_fresh env hf _ _

/-- A fallback material name computed after a material was inserted, and after
any further nodes, differs from the name of that material. -/
theorem later_fallback_name_ne (env : Env) (type : RenderType) (hf : fresh_names env)
    (s1 : BuildState) (material : Material) (between : List INode) (object_name : String)
    (hmem : material ∈ s1.assembly.materials) :
    fallback_material_name env (between.foldl (add_object env type) s1).assembly
      object_name ≠ material.name := by
  intro heq
  obtain ⟨ms, hms⟩ := foldl_materials_grow env type between s1
  have hfresh := fallback_material_name_fresh env hf
    (between.foldl (add_object env type) s1).assembly object_name
  apply hfresh
  rw [heq, hms]
  simp only [List.map_append, List.mem_append, List.mem_map]
  exact Or.inl ⟨material, hmem, rfl⟩

theorem sample_unique_name_fresh (start : String) (names : List String) :
    sample_unique_name start names ∉ names := by
  intro hmem
  have hle : (sample_unique_name start names).length ≤ (names.map String.length).sum :=
    List.single_le_sum (fun _ _ => Nat.zero_le _) _
      (List.mem_map.mpr ⟨_, hmem, rfl⟩)
  have hlen : (sample_unique_name start names).length =
      start.length + ((names.map String.length).sum + 1) := by
    unfold sample_unique_name
    rw [String.length_append]
    congr 1
    exact List.length_replicate _ _
  omega

theorem sample_env_fresh : fresh_names sample_env :=
  fun start names => sample_unique_name_fresh start names

theorem sample_env_named : named_materials sample_env := by
  intro p m hm a name
  by_cases hp : p = 1
  · subst hp
    simp only [sample_env, if_true, Option.some.injEq] at hm
    subst hm
    rfl
  · simp [sample_env, hp] at hm

theorem nodup_map_concat {α : Type} (f : α → String) (l : List α) (x : α)
    (h : (l.map f).Nodup) (hx : f x ∉ l.map f) : ((l ++ [x]).map f).Nodup := by
  rw [List.map_append, List.nodup_append]
  refine ⟨h, by simp, ?_⟩
  intro a ha hb
  simp only [List.map_cons, List.map_nil, List.mem_singleton] at hb
  subst hb
  exact hx ha

theorem create_object_instance_unique (env : Env) (hf : fresh_names env)
    (hn : named_materials env) (s : BuildState) (node : INode) (object_name : String)
    (type : RenderType) (h : unique_names s.assembly) :
    unique_names (create_object_instance env s node object_name type).assembly := by
  obtain ⟨h1, h2, h3, h4, h5⟩ := h
  have hi : ((s.assembly.object_instances ++
      [instance_of env s.assembly node object_name type
        (fallback_material_name env s.assembly object_name)]).map (·.name)).Nodup :=
    nodup_map_concat _ _ _ h2 (make_unique_name_fresh env hf _ _)
  have hi' : ∀ name, ((s.assembly.object_instances ++
      [instance_of env s.assembly node object_name type name]).map (·.name)).Nodup :=
    fun name => nodup_map_concat _ _ _ h2 (make_unique_name_fresh env hf _ _)
  cases hm : node.mtl with
  | none =>
    rw [create_object_instance_no_mtl env s node object_name type hm]
    exact ⟨h1, hi' _,
      nodup_map_concat _ _ _ h3 (fallback_material_name_fresh env hf _ _), h4, h5⟩
  | some p =>
    cases hp : (env.mtl p).appleseed_mtl with
    | none =>
      rw [create_object_instance_other_mtl env s node object_name type p hm hp]
      exact ⟨h1, hi' _,
        nodup_map_concat _ _ _ h3 (fallback_material_name_fresh env hf _ _), h4, h5⟩
    | some m =>
      cases hfind : map_find s.material_map p with
      | none =>
        rw [create_object_instance_new_mtl env s node object_name type p m hm hp hfind]
        refine ⟨h1, hi' _, nodup_map_concat _ _ _ h3 ?_, h4, h5⟩
        rw [hn p m hp]
        exact make_unique_name_fresh env hf _ _
      | some name =>
        rw [create_object_instance_known_mtl env s node object_name type p m name hm hp hfind]
        exact ⟨h1, hi' _, h3, h4, h5⟩

theorem add_object_unique (env : Env) (hf : fresh_names env) (hn : named_materials env)
    (type : RenderType) (s : BuildState) (n : INode) (h : unique_names s.assembly) :
    unique_names (add_object env type s n).assembly := by
  cases hfind : map_find s.object_map n.objectRef with
  | some info =>
    rw [add_object_known env type s n info hfind]
    by_cases hv : info.m_valid = true
    · rw [if_pos hv]
      exact create_object_instance_unique env hf hn s n info.m_name type h
    · rw [if_neg hv]
      exact h
  | none =>
    cases htri : n.tri_object with
    | some mesh =>
      rw [add_object_new_mesh env type s n mesh hfind htri]
      apply create_object_instance_unique env hf hn
      obtain ⟨h1, h2, h3, h4, h5⟩ := h
      refine ⟨nodup_map_concat _ _ _ h1 ?_, h2, h3, h4, h5⟩
      rw [(fill_mesh_object_frame _ mesh).2.2.1]
      exact make_unique_name_fresh env hf _ _
    | none =>
      rw [add_object_failed env type s n hfind htri]
      exact h

theorem foldl_add_object_unique (env : Env) (hf : fresh_names env)
    (hn : named_materials env) (type : RenderType) (nodes : List INode) :
    ∀ s : BuildState, unique_names s.assembly →
      unique_names (nodes.foldl (add_object env type) s).assembly := by
  induction nodes with
  | nil => intro s h; exact h
  | cons n rest ih =>
    intro s h
    exact ih _ (add_object_unique env hf hn type s n h)

theorem insert_color_unique (env : Env) (hf : fresh_names env) (a : Assembly)
    (name : String) (c : Color3f) (h : unique_names a) :
    unique_names (insert_color env a name c).1 ∧
    (insert_color env a name c).1.lights = a.lights := by
  obtain ⟨h1, h2, h3, h4, h5⟩ := h
  refine ⟨⟨h1, h2, h3, h4, ?_⟩, rfl⟩
  exact nodup_map_concat _ _ _ h5 (make_unique_name_fresh env hf _ _)

theorem add_omni_light_unique (a : Assembly) (light_name : String) (t : Transformd)
    (color_name : String) (x y : Scalar) (z : Int) (h : unique_names a)
    (hl : light_name ∉ a.lights.map (·.name)) :
    unique_names (add_omni_light a light_name t color_name x y z) := by
  obtain ⟨h1, h2, h3, h4, h5⟩ := h
  exact ⟨h1, h2, h3, nodup_map_concat _ _ _ h4 hl, h5⟩

theorem add_spot_light_unique (a : Assembly) (light_name : String) (t : Transformd)
    (color_name : String) (x i o y : Scalar) (z : Int) (h : unique_names a)
    (hl : light_name ∉ a.lights.map (·.name)) :
    unique_names (add_spot_light a light_name t color_name x i o y z) := by
  obtain ⟨h1, h2, h3, h4, h5⟩ := h
  exact ⟨h1, h2, h3, nodup_map_concat _ _ _ h4 hl, h5⟩

theorem add_directional_light_unique (a : Assembly) (light_name : String)
    (t : Transformd) (color_name : String) (x : Scalar) (h : unique_names a)
    (hl : light_name ∉ a.lights.map (·.name)) :
    unique_names (add_directional_light a light_name t color_name x) := by
  obtain ⟨h1, h2, h3, h4, h5⟩ := h
  exact ⟨h1, h2, h3, nodup_map_concat _ _ _ h4 hl, h5⟩

theorem add_light_unique (env : Env) (hf : fresh_names env) (a : Assembly)
    (light_node : LightNode) (h : unique_names a) :
    unique_names (add_light env a light_node) := by
  have hc := insert_color_unique env hf a
    (make_unique_name env (a.lights.map (·.name)) light_node.name ++ "_color")
    light_node.color h
  have hl : make_unique_name env (a.lights.map (·.name)) light_node.name ∉
      (insert_color env a
        (make_unique_name env (a.lights.map (·.name)) light_node.name ++ "_color")
        light_node.color).1.lights.map (·.name) := by
    rw [hc.2]
    exact make_unique_name_fresh env hf _ _
  unfold add_light
  cases light_node.classID with
  | OMNI_LIGHT_CLASS_ID => exact add_omni_light_unique _ _ _ _ _ _ _ hc.1 hl
  | SPOT_LIGHT_CLASS_ID => exact add_spot_light_unique _ _ _ _ _ _ _ _ _ hc.1 hl
  | FSPOT_LIGHT_CLASS_ID => exact add_spot_light_unique _ _ _ _ _ _ _ _ _ hc.1 hl
  | DIR_LIGHT_CLASS_ID => exact add_directional_light_unique _ _ _ _ _ hc.1 hl
  | TDIR_LIGHT_CLASS_ID => exact add_directional_light_unique _ _ _ _ _ hc.1 hl
  | other => exact hc.1

theorem add_default_light_unique (env : Env) (hf : fresh_names env) (a : Assembly)
    (light : DefaultLight) (h : unique_names a) :
    unique_names (add_default_light env a light) := by
  have hc := insert_color_unique env hf a
    (make_unique_name env (a.lights.map (·.name)) "DefaultLight" ++ "_color")
    light.ls.color h
  have hl : make_unique_name env (a.lights.map (·.name)) "DefaultLight" ∉
      (insert_color env a
        (make_unique_name env (a.lights.map (·.name)) "DefaultLight" ++ "_color")
        light.ls.color).1.lights.map (·.name) := by
    rw [hc.2]
    exact make_unique_name_fresh env hf _ _
  unfold add_default_light
  cases light.ls.type with
  | OMNI_LGT => exact add_omni_light_unique _ _ _ _ _ _ _ hc.1 hl
  | SPOT_LGT => exact add_spot_light_unique _ _ _ _ _ _ _ _ _ hc.1 hl
  | DIRECT_LGT => exact add_directional_light_unique _ _ _ _ _ hc.1 hl
  | AMBIENT_LGT => exact hc.1

theorem foldl_add_light_unique (env : Env) (hf : fresh_names env)
    (lights : List LightNode) :
    ∀ a : Assembly, unique_names a → unique_names (lights.foldl (add_light env) a) := by
  induction lights with
  | nil => intro a h; exact h
  | cons l rest ih =>
    intro a h
    exact ih _ (add_light_unique env hf a l h)

theorem foldl_add_default_light_unique (env : Env) (hf : fresh_names env)
    (lights : List DefaultLight) :
    ∀ a : Assembly, unique_names a →
      unique_names (lights.foldl (add_default_light env) a) := by
  induction lights with
  | nil => intro a h; exact h
  | cons l rest ih =>
    intro a h
    exact ih _ (add_default_light_unique env hf a l h)

theorem create_object_instance_consistent (env : Env) (hn : named_materials env)
    (s : BuildState) (node : INode) (object_name : String) (type : RenderType)
    (h : registry_consistent s) :
    registry_consistent (create_object_instance env s node object_name type) := by
  obtain ⟨h1, h2⟩ := h
  cases hm : node.mtl with
  | none =>
    rw [create_object_instance_no_mtl env s node object_name type hm]
    refine ⟨?_, h2⟩
    intro p name hp
    simp only [List.map_append, List.mem_append]
    exact Or.inl (h1 p name hp)
  | some p =>
    cases hp : (env.mtl p).appleseed_mtl with
    | none =>
      rw [create_object_instance_other_mtl env s node object_name type p hm hp]
      refine ⟨?_, h2⟩
      intro q name hq
      simp only [List.map_append, List.mem_append]
      exact Or.inl (h1 q name hq)
    | some m =>
      cases hfind : map_find s.material_map p with
      | none =>
        rw [create_object_instance_new_mtl env s node object_name type p m hm hp hfind]
        constructor
        · intro q name hq
          simp only [map_find_cons] at hq
          simp only [List.map_append, List.mem_append, List.map_cons, List.map_nil,
            List.mem_singleton]
          by_cases hpq : p = q
          · subst hpq
            simp only [if_true, Option.some.injEq] at hq
            right
            rw [hn p m hp]
            exact hq.symm
          · simp only [hpq, if_false] at hq
            exact Or.inl (h1 q name hq)
        · intro q
          simp only [map_find_cons, List.filter_append]
          by_cases hpq : p = q
          · subst hpq
            have := h2 p
            rw [hfind] at this
            simp [this, List.filter]
          · simp only [hpq, if_false]
            rw [h2 q]
            simp [List.filter, hpq]
      | some name =>
        rw [create_object_instance_known_mtl env s node object_name type p m name hm hp hfind]
        exact ⟨h1, h2⟩

theorem add_object_consistent (env : Env) (hn : named_materials env) (type : RenderType)
    (s : BuildState) (n : INode) (h : registry_consistent s) :
    registry_consistent (add_object env type s n) := by
  cases hfind : map_find s.object_map n.objectRef with
  | some info =>
    rw [add_object_known env type s n info hfind]
    by_cases hv : info.m_valid = true
    · rw [if_pos hv]
      exact create_object_instance_consistent env hn s n info.m_name type h
    · rw [if_neg hv]
      exact h
  | none =>
    cases htri : n.tri_object with
    | some mesh =>
      rw [add_object_new_mesh env type s n mesh hfind htri]
      exact create_object_instance_consistent env hn _ n _ type h
    | none =>
      rw [add_object_failed env type s n hfind htri]
      exact h

theorem foldl_add_object_consistent (env : Env) (hn : named_materials env)
    (type : RenderType) (nodes : List INode) :
    ∀ s : BuildState, registry_consistent s →
      registry_consistent (nodes.foldl (add_object env type) s) := by
  induction nodes with
  | nil => intro s h; exact h
  | cons n rest ih =>
    intro s h
    exact ih _ (add_object_consistent env hn type s n h)

theorem create_object_instance_keeps_material (env : Env) (s : BuildState) (node : INode)
    (object_name : String) (type : RenderType) (q : Nat) (name : String)
    (h : map_find s.material_map q = some name) :
    map_find (create_object_instance env s node object_name type).material_map q =
      some name := by
  cases hm : node.mtl with
  | none =>
    rw [create_object_instance_no_mtl env s node object_name type hm]
    exact h
  | some p =>
    cases hp : (env.mtl p).appleseed_mtl with
    | none =>
      rw [create_object_instance_other_mtl env s node object_name type p hm hp]
      exact h
    | some m =>
      cases hfind : map_find s.material_map p with
      | none =>
        rw [create_object_instance_new_mtl env s node object_name type p m hm hp hfind]
        have hne : p ≠ q := by
          intro e; rw [e, h] at hfind; cases hfind
        simp only [map_find_cons, hne, if_false]
        exact h
      | some name' =>
        rw [create_object_instance_known_mtl env s node object_name type p m name' hm hp
          hfind]
        exact h

theorem add_object_keeps_material (env : Env) (type : RenderType) (s : BuildState)
    (n : INode) (q : Nat) (name : String) (h : map_find s.material_map q = some name) :
    map_find (add_object env type s n).material_map q = some name := by
  cases hfind : map_find s.object_map n.objectRef with
  | some info =>
    rw [add_object_known env type s n info hfind]
    by_cases hv : info.m_valid = true
    · rw [if_pos hv]
      exact create_object_instance_keeps_material env s n info.m_name type q name h
    · rw [if_neg hv]
      exact h
  | none =>
    cases htri : n.tri_object with
    | some mesh =>
      rw [add_object_new_mesh env type s n mesh hfind htri]
      exact create_object_instance_keeps_material env _ n _ type q name h
    | none =>
      rw [add_object_failed env type s n hfind htri]
      exact h

theorem foldl_keeps_material (env : Env) (type : RenderType) (nodes : List INode) :
    ∀ (s : BuildState) (q : Nat) (name : String),
      map_find s.material_map q = some name →
      map_find (nodes.foldl (add_object env type) s).material_map q = some name := by
  induction nodes with
  | nil => intro s q name h; exact h
  | cons n rest ih =>
    intro s q name h
    exact ih _ q name (add_object_keeps_material env type s n q name h)

theorem foldl_instances_grow (env : Env) (type : RenderType) (nodes : List INode) :
    ∀ s : BuildState, ∃ is,
      (nodes.foldl (add_object env type) s).assembly.object_instances =
        s.assembly.object_instances ++ is := by
  induction nodes with
  | nil => intro s; exact ⟨[], by simp⟩
  | cons n rest ih =>
    intro s
    obtain ⟨is2, h2⟩ := ih (add_object env type s n)
    have h1 : ∃ is1, (add_object env type s n).assembly.object_instances =
        s.assembly.object_instances ++ is1 := by
      cases hfind : map_find s.object_map n.objectRef with
      | some info =>
        rw [add_object_known env type s n info hfind]
        by_cases hv : info.m_valid = true
        · rw [if_pos hv]
          obtain ⟨_, _, _, _, _, mname, f6⟩ :=
            create_object_instance_frame env s n info.m_name type
          exact ⟨_, f6⟩
        · rw [if_neg hv]
          exact ⟨[], by simp⟩
      | none =>
        cases htri : n.tri_object with
        | some mesh =>
          rw [add_object_new_mesh env type s n mesh hfind htri]
          obtain ⟨_, _, _, _, _, mname, f6⟩ := create_object_instance_frame env
            { s with
              assembly :=
                { s.assembly with
                  objects := s.assembly.objects ++
                    [fill_mesh_object
                      (make_unique_name env (s.assembly.objects.map (·.name)) n.name)
                      mesh] },
              object_map :=
                (n.objectRef,
                  { m_valid := true,
                    m_name := make_unique_name env (s.assembly.objects.map (·.name))
                      n.name }) :: s.object_map,
              translated := s.translated ++ [n.objectRef] }
            n (make_unique_name env (s.assembly.objects.map (·.name)) n.name) type
          exact ⟨_, f6⟩
        | none =>
          rw [add_object_failed env type s n hfind htri]
          exact ⟨[], by simp⟩
    obtain ⟨is1, h1⟩ := h1
    exact ⟨is1 ++ is2, by simp only [List.foldl, h2, h1, List.append_assoc]⟩

/-- The instance `create_object_instance` inserts for a node with a
renderer-aware material is bound to the name then registered for it. -/
theorem create_object_instance_capable (env : Env) (s : BuildState) (node : INode)
    (object_name : String) (type : RenderType) (p : Nat) (m : IAppleseedMtl)
    (hm : node.mtl = some p) (hp : (env.mtl p).appleseed_mtl = some m) :
    ∃ name inst,
      (create_object_instance env s node object_name type).assembly.object_instances =
        s.assembly.object_instances ++ [inst] ∧
      inst.material = some name ∧
      map_find (create_object_instance env s node object_name type).material_map p =
        some name := by
  cases hfind : map_find s.material_map p with
  | none =>
    rw [create_object_instance_new_mtl env s node object_name type p m hm hp hfind]
    exact ⟨_, _, rfl, instance_of_material _ _ _ _ _ _, by simp [map_find_cons]⟩
  | some name =>
    rw [create_object_instance_known_mtl env s node object_name type p m name hm hp hfind]
    exact ⟨name, _, rfl, instance_of_material _ _ _ _ _ _, hfind⟩

/-- When the object of a node with a renderer-aware material is, or becomes,
valid in the Object Registry, `add_object` inserts one instance, bound to the
name then registered for the material. -/
theorem add_object_capable (env : Env) (type : RenderType) (s : BuildState) (n : INode)
    (p : Nat) (m : IAppleseedMtl) (hm : n.mtl = some p)
    (hp : (env.mtl p).appleseed_mtl = some m)
    (hv : will_translate s.object_map [n] n.objectRef = true) :
    ∃ name inst,
      (add_object env type s n).assembly.object_instances =
        s.assembly.object_instances ++ [inst] ∧
      inst.material = some name ∧
      map_find (add_object env type s n).material_map p = some name := by
  cases hfind : map_find s.object_map n.objectRef with
  | some info =>
    have hvalid : info.m_valid = true := by
      simpa [will_translate, hfind] using hv
    rw [add_object_known env type s n info hfind, if_pos hvalid]
    exact create_object_instance_capable env s n info.m_name type p m hm hp
  | none =>
    cases htri : n.tri_object with
    | some mesh =>
      rw [add_object_new_mesh env type s n mesh hfind htri]
      exact create_object_instance_capable env _ n _ type p m hm hp
    | none =>
      simp [will_translate, hfind, translates_singleton, htri] at hv

theorem will_translate_at_step (env : Env) (type : RenderType) (a : Assembly)
    (pre post : List INode) (n : INode) :
    will_translate (pre.foldl (add_object env type) (initial_state a)).object_map [n]
        n.objectRef =
      translates (pre ++ n :: post) n.objectRef := by
  obtain ⟨i1, i2, _, _⟩ := add_objects_invariant env type a pre
  unfold will_translate
  cases hfind : map_find (pre.foldl (add_object env type) (initial_state a)).object_map
      n.objectRef with
  | some info =>
    have hex : ∃ m ∈ pre, m.objectRef = n.objectRef := by
      by_contra hc
      have := (i1 n.objectRef).mpr (fun m hm hmr => hc ⟨m, hm, hmr⟩)
      rw [this] at hfind; cases hfind
    rw [translates_append_of_mem pre (n :: post) n.objectRef hex]
    exact i2 n.objectRef info hfind
  | none =>
    have hnot := (i1 n.objectRef).mp hfind
    rw [translates_append_of_not_mem pre (n :: post) n.objectRef hnot,
      translates_singleton, translates_cons]
    simp

/-- At the step of an instanced node with a renderer-aware material, the
new instance is bound to the name under which the material is registered at
the end of the loop, and it is still in the assembly then. -/
theorem instance_bound_to_registered (env : Env) (type : RenderType)
    (pre post : List INode) (n : INode) (p : Nat) (m : IAppleseedMtl)
    (hm : n.mtl = some p) (hp : (env.mtl p).appleseed_mtl = some m)
    (ht : translates (pre ++ n :: post) n.objectRef = true) :
    ∃ name inst,
      (add_object env type (pre.foldl (add_object env type) (initial_state Assembly.empty))
          n).assembly.object_instances =
        (pre.foldl (add_object env type)
          (initial_state Assembly.empty)).assembly.object_instances ++ [inst] ∧
      inst.material = some name ∧
      inst ∈ ((pre ++ n :: post).foldl (add_object env type)
        (initial_state Assembly.empty)).assembly.object_instances ∧
      map_find ((pre ++ n :: post).foldl (add_object env type)
        (initial_state Assembly.empty)).material_map p = some name := by
  have hv := will_translate_at_step env type Assembly.empty pre post n
  rw [ht] at hv
  obtain ⟨name, inst, h1, h2, h3⟩ := add_object_capable env type
    (pre.foldl (add_object env type) (initial_state Assembly.empty)) n p m hm hp hv
  refine ⟨name, inst, h1, h2, ?_, ?_⟩
  · rw [List.foldl_append]
    simp only [List.foldl]
    obtain ⟨is, his⟩ := foldl_instances_grow env type post
      (add_object env type (pre.foldl (add_object env type) (initial_state Assembly.empty)) n)
    rw [his, h1]
    simp
  · rw [List.foldl_append]
    simp only [List.foldl]
    exact foldl_keeps_material env type post _ p name h3

/-- An entry of the Material Registry after `create_object_instance` was there
before, or is the entry of the node's own material. -/
theorem create_object_instance_registers (env : Env) (s : BuildState) (node : INode)
    (object_name : String) (type : RenderType) (p : Nat) (name : String)
    (h : map_find (create_object_instance env s node object_name type).material_map p =
      some name) :
    map_find s.material_map p = some name ∨ node.mtl = some p := by
  cases hm : node.mtl with
  | none =>
    rw [create_object_instance_no_mtl env s node object_name type hm] at h
    exact Or.inl h
  | some q =>
    cases hq : (env.mtl q).appleseed_mtl with
    | none =>
      rw [create_object_instance_other_mtl env s node object_name type q hm hq] at h
      exact Or.inl h
    | some m =>
      cases hfind : map_find s.material_map q with
      | none =>
        rw [create_object_instance_new_mtl env s node object_name type q m hm hq hfind] at h
        simp only [map_find_cons] at h
        by_cases hqp : q = p
        · right
          rw [hqp]
        · simp only [hqp, if_false] at h
          exact Or.inl h
      | some name0 =>
        rw [create_object_instance_known_mtl env s node object_name type q m name0 hm hq
          hfind] at h
        exact Or.inl h

/-- An entry of the Material Registry after `add_object` was there before, or
is the entry of the material of the node, which is instanced. -/
theorem add_object_registers (env : Env) (type : RenderType) (s : BuildState) (n : INode)
    (p : Nat) (name : String)
    (h : map_find (add_object env type s n).material_map p = some name) :
    map_find s.material_map p = some name ∨
      (n.mtl = some p ∧ will_translate s.object_map [n] n.objectRef = true) := by
  cases hfind : map_find s.object_map n.objectRef with
  | some info =>
    rw [add_object_known env type s n info hfind] at h
    by_cases hv : info.m_valid = true
    · rw [if_pos hv] at h
      rcases create_object_instance_registers env s n info.m_name type p name h with h1 | h1
      · exact Or.inl h1
      · exact Or.inr ⟨h1, by simp [will_translate, hfind, hv]⟩
    · rw [if_neg hv] at h
      exact Or.inl h
  | none =>
    cases htri : n.tri_object with
    | some mesh =>
      rw [add_object_new_mesh env type s n mesh hfind htri] at h
      rcases create_object_instance_registers env _ n _ type p name h with h1 | h1
      · exact Or.inl h1
      · exact Or.inr ⟨h1, by simp [will_translate, hfind, translates_singleton, htri]⟩
    | none =>
      rw [add_object_failed env type s n hfind htri] at h
      exact Or.inl h

/-- A host material in the Material Registry at the end of the loop of
`add_objects` is the material of a node that is instanced. -/
theorem registered_material_instanced (env : Env) (type : RenderType) (nodes : List INode)
    (p : Nat) (name : String)
    (h : map_find (nodes.foldl (add_object env type)
      (initial_state Assembly.empty)).material_map p = some name) :
    ∃ n ∈ nodes, n.mtl = some p ∧ translates nodes n.objectRef = true := by
  induction nodes using List.reverseRecOn with
  | nil => simp [initial_state, map_find] at h
  | append_singleton pre n ih =>
    rw [List.foldl_append] at h
    simp only [List.foldl] at h
    rcases add_object_registers env type _ n p name h with h1 | ⟨h1, h2⟩
    · obtain ⟨n0, hn0, hm0, ht0⟩ := ih h1
      refine ⟨n0, List.mem_append_left _ hn0, hm0, ?_⟩
      rw [translates_append_of_mem pre [n] n0.objectRef ⟨n0, hn0, rfl⟩]
      exact ht0
    · refine ⟨n, by simp, h1, ?_⟩
      rw [← will_translate_at_step env type Assembly.empty pre [] n]
      exact h2

/-! ## Objects, instances and materials: claims -/

/-- C1. Dedup invariant: `add_objects` on an empty assembly leaves as many mesh
objects as there are distinct geometric objects whose translation succeeded,
and as many object instances as there are nodes whose geometric object
translated; when every node converts, these are the number of distinct
geometric objects and the number of nodes. -/
theorem dedup_invariant (env : Env) (type : RenderType) (entities : MaxSceneEntities) :
    (add_objects env Assembly.empty entities type).objects.length =
      ((entities.m_objects.map (·.objectRef)).toFinset.filter
        (fun r => translates entities.m_objects r = true)).card ∧
    (add_objects env Assembly.empty entities type).object_instances.length =
      (entities.m_objects.filter
        (fun n => translates entities.m_objects n.objectRef)).length ∧
    ((∀ n ∈ entities.m_objects, n.tri_object.isSome = true) →
      (add_objects env Assembly.empty entities type).objects.length =
        (entities.m_objects.map (·.objectRef)).toFinset.card ∧
      (add_objects env Assembly.empty entities type).object_instances.length =
        entities.m_objects.length) := by
  obtain ⟨_, _, h3, h4⟩ :=
    add_objects_invariant env type Assembly.empty entities.m_objects
  rw [add_objects_eq]
  have e3 : (entities.m_objects.foldl (add_object env type)
      (initial_state Assembly.empty)).assembly.objects.length =
      ((entities.m_objects.map (·.objectRef)).toFinset.filter
        (fun r => translates entities.m_objects r = true)).card := by
    rw [h3]; simp [Assembly.empty]
  have e4 : (entities.m_objects.foldl (add_object env type)
      (initial_state Assembly.empty)).assembly.object_instances.length =
      (entities.m_objects.filter
        (fun n => translates entities.m_objects n.objectRef)).length := by
    rw [h4]; simp [Assembly.empty]
  refine ⟨e3, e4, ?_⟩
  intro hall
  rw [e3, e4]
  constructor
  · congr 1
    apply Finset.filter_true_of_mem
    intro r hr
    simp only [List.mem_toFinset, List.mem_map] at hr
    obtain ⟨m, hm, rfl⟩ := hr
    exact translates_of_all entities.m_objects hall m hm
  · congr 1
    rw [List.filter_eq_self]
    intro m hm
    exact translates_of_all entities.m_objects hall m hm

theorem dedup_invariant_witness :
    (∀ n ∈ sample_scene.m_objects, n.tri_object.isSome = true) ∧
    (add_objects sample_env Assembly.empty sample_scene RenderType.Default).objects.length =
      (sample_scene.m_objects.map (·.objectRef)).toFinset.card ∧
    (add_objects sample_env Assembly.empty sample_scene
      RenderType.Default).object_instances.length = sample_scene.m_objects.length :=
  have h : ∀ n ∈ sample_scene.m_objects, n.tri_object.isSome = true := by
    intro n hn
    simp only [sample_scene, List.mem_cons, List.mem_singleton, List.not_mem_nil,
      or_false] at hn
    rcases hn with rfl | rfl | rfl <;> rfl
  ⟨h, (dedup_invariant sample_env RenderType.Default sample_scene).2.2 h⟩

/-- C2 as stated fails: the only node of the scene has the renderer-aware
material 1, but its object does not convert to a triangle mesh, so the node is
not instanced: `create_material` is not called for the material and the
assembly holds no material for it (instead of exactly one call and one
material). The environment meets the assumed contracts. -/
theorem capable_material_not_created :
    fresh_names sample_env ∧ named_materials sample_env ∧
    failing_node.mtl = some 1 ∧
    (sample_env.mtl 1).appleseed_mtl.isSome = true ∧
    (add_objects_state sample_env Assembly.empty
      { m_objects := [failing_node], m_lights := [] } RenderType.Default).created = [] ∧
    (add_objects_state sample_env Assembly.empty
      { m_objects := [failing_node], m_lights := [] }
      RenderType.Default).assembly.materials = [] :=
  ⟨sample_env_fresh, sample_env_named, rfl, rfl, rfl, rfl⟩

/-- C2, amended. Material sharing: for a renderer-aware host material and the
nodes processed by `add_objects`, if at least one node with that material is
instanced (its geometric object translated), then `create_material` is called
exactly once for the material, under a name that exactly one material of the
assembly carries (the renderer's `make_unique_name` being assumed to return
an absent name and `create_material` to return a material of the requested
name), and the instance of every instanced node with that material is bound
to that name and is in the final assembly. If no node with that material is
instanced (its nodes are all skipped), the material is never created:
`create_material` is not called for it and the Material Registry has no entry
for it. -/
theorem shared_material_created_once (env : Env) (type : RenderType)
    (entities : MaxSceneEntities) (p : Nat) (m : IAppleseedMtl)
    (hf : fresh_names env) (hn : named_materials env)
    (hp : (env.mtl p).appleseed_mtl = some m) :
    ((∃ n ∈ entities.m_objects, n.mtl = some p ∧
        translates entities.m_objects n.objectRef = true) →
      ∃ name,
        (add_objects_state env Assembly.empty entities type).created.filter
          (fun e => decide (e.1 = p)) = [(p, name)] ∧
        ((add_objects_state env Assembly.empty entities type).assembly.materials.map
          (·.name)).count name = 1 ∧
        ∀ pre n post, entities.m_objects = pre ++ n :: post → n.mtl = some p →
          translates entities.m_objects n.objectRef = true →
          ∃ inst,
            (add_object env type
              (pre.foldl (add_object env type) (initial_state Assembly.empty))
              n).assembly.object_instances =
              (pre.foldl (add_object env type)
                (initial_state Assembly.empty)).assembly.object_instances ++ [inst] ∧
            inst.material = some name ∧
            inst ∈ (add_objects_state env Assembly.empty entities
              type).assembly.object_instances) ∧
    ((∀ n ∈ entities.m_objects, n.mtl = some p →
        translates entities.m_objects n.objectRef = false) →
      (add_objects_state env Assembly.empty entities type).created.filter
        (fun e => decide (e.1 = p)) = [] ∧
      map_find (add_objects_state env Assembly.empty entities type).material_map p =
        none) := by
  rw [add_objects_state_eq]
  have h0u : unique_names (initial_state Assembly.empty).assembly := by
    simp [unique_names, initial_state, Assembly.empty]
  have h0c : registry_consistent (initial_state Assembly.empty) := by
    constructor
    · intro q name hq
      simp [initial_state, map_find] at hq
    · intro q
      simp [initial_state, map_find]
  have hu := foldl_add_object_unique env hf hn type entities.m_objects _ h0u
  have hc := foldl_add_object_consistent env hn type entities.m_objects _ h0c
  constructor
  · intro hex
    obtain ⟨n0, hn0, hm0, ht0⟩ := hex
    obtain ⟨pre0, post0, hsplit0⟩ := List.append_of_mem hn0
    have hreg0 := instance_bound_to_registered env type pre0 post0 n0 p m hm0 hp
      (by rw [← hsplit0]; exact ht0)
    obtain ⟨name, _, _, _, _, hfinal⟩ := hreg0
    rw [← hsplit0] at hfinal
    refine ⟨name, ?_, ?_, ?_⟩
    · have := hc.2 p
      rw [hfinal] at this
      exact this
    · exact List.count_eq_one_of_mem hu.2.2.1 (hc.1 p name hfinal)
    · intro pre n post hsplit hm ht
      obtain ⟨name', inst, h1, h2, h3, h4⟩ :=
        instance_bound_to_registered env type pre post n p m hm hp
          (by rw [← hsplit]; exact ht)
      rw [← hsplit] at h3 h4
      rw [hfinal] at h4
      have hname : name = name' := Option.some.inj h4
      subst hname
      exact ⟨inst, h1, h2, h3⟩
  · intro hall
    have hnone : map_find (entities.m_objects.foldl (add_object env type)
        (initial_state Assembly.empty)).material_map p = none := by
      cases hfind : map_find (entities.m_objects.foldl (add_object env type)
          (initial_state Assembly.empty)).material_map p with
      | none => rfl
      | some name =>
        obtain ⟨n, hmem, hm, ht⟩ :=
          registered_material_instanced env type entities.m_objects p name hfind
        rw [hall n hmem hm] at ht
        cases ht
    refine ⟨?_, hnone⟩
    have := hc.2 p
    rw [hnone] at this
    exact this

theorem shared_material_created_once_witness :
    fresh_names sample_env ∧ named_materials sample_env ∧
    (sample_env.mtl 1).appleseed_mtl = some sample_appleseed_mtl ∧
    (∃ name,
      (add_objects_state sample_env Assembly.empty sample_scene
        RenderType.Default).created.filter (fun e => decide (e.1 = 1)) = [(1, name)] ∧
      ((add_objects_state sample_env Assembly.empty sample_scene
        RenderType.Default).assembly.materials.map (·.name)).count name = 1) ∧
    (add_objects_state sample_env Assembly.empty
      { m_objects := [failing_node, box_node], m_lights := [] }
      RenderType.Default).created.filter (fun e => decide (e.1 = 1)) = [] :=
  ⟨sample_env_fresh, sample_env_named, rfl,
    ((shared_material_created_once sample_env RenderType.Default sample_scene 1
      sample_appleseed_mtl sample_env_fresh sample_env_named rfl).1
      ⟨sample_node "BoxA" 7 (some flat_mesh) (some 1), by simp [sample_scene], rfl,
        rfl⟩).elim
      (fun name h => ⟨name, h.1, h.2.1⟩),
    ((shared_material_created_once sample_env RenderType.Default
      { m_objects := [failing_node, box_node], m_lights := [] } 1
      sample_appleseed_mtl sample_env_fresh sample_env_named rfl).2
      (by decide)).1⟩

/-- C8. Unsupported geometry is a non-fatal, cached skip: when the object of a
node is not in the Object Registry and does not convert to a triangle mesh,
`add_object` leaves the assembly as it was (no object, no instance, no
material) and the Material Registry too, and records the object as invalid
after one call of the translation; for a later node that references the same
object, after any nodes in between, `add_object` changes nothing at all (no
entity, no further call of the translation); and `add_objects` builds the same
assembly as without the nodes whose object failed to translate. -/
theorem failed_translation_skipped (env : Env) (type : RenderType) (s : BuildState)
    (node later : INode) (between : List INode) (a : Assembly)
    (entities : MaxSceneEntities)
    (hm : map_find s.object_map node.objectRef = none) (ht : node.tri_object = none)
    (hl : later.objectRef = node.objectRef) :
    (add_object env type s node).assembly = s.assembly ∧
    (add_object env type s node).material_map = s.material_map ∧
    (add_object env type s node).translated = s.translated ++ [node.objectRef] ∧
    (∃ info, map_find (add_object env type s node).object_map node.objectRef = some info ∧
      info.m_valid = false) ∧
    add_object env type (between.foldl (add_object env type) (add_object env type s node))
        later =
      between.foldl (add_object env type) (add_object env type s node) ∧
    add_objects env a entities type =
      add_objects env a
        { entities with
          m_objects := entities.m_objects.filter
            (fun n => translates entities.m_objects n.objectRef) }
        type := by
  have hstep := add_object_failed env type s node hm ht
  have hentry : map_find (add_object env type s node).object_map node.objectRef =
      some { m_valid := false,
             m_name := make_unique_name env (s.assembly.objects.map (·.name)) node.name } := by
    rw [hstep]
    simp [map_find_cons]
  refine ⟨by rw [hstep], by rw [hstep], by rw [hstep], ⟨_, hentry, rfl⟩, ?_, ?_⟩
  · have hp := registry_persists_foldl env type between _ _ _ hentry
    rw [← hl] at hp
    rw [add_object_known env type _ later _ hp]
    simp
  · rw [add_objects_eq, add_objects_eq]
    have := add_objects_skip_failed env type entities.m_objects (initial_state a)
      (initial_state a) rfl rfl (by intro r; simp [initial_state, map_find])
    rw [this]
    have hw : ∀ r, will_translate (initial_state a).object_map entities.m_objects r =
        translates entities.m_objects r := by
      intro r
      simp [will_translate, initial_state, map_find]
    simp only [hw]

theorem failed_translation_skipped_witness :
    map_find (initial_state Assembly.empty).object_map failing_node.objectRef = none ∧
    failing_node.tri_object = none ∧
    failing_node_again.objectRef = failing_node.objectRef ∧
    (add_object sample_env RenderType.Default (initial_state Assembly.empty)
      failing_node).assembly = (initial_state Assembly.empty).assembly ∧
    add_object sample_env RenderType.Default
        ([box_node].foldl (add_object sample_env RenderType.Default)
          (add_object sample_env RenderType.Default (initial_state Assembly.empty)
            failing_node))
        failing_node_again =
      [box_node].foldl (add_object sample_env RenderType.Default)
        (add_object sample_env RenderType.Default (initial_state Assembly.empty)
          failing_node) :=
  have h := failed_translation_skipped sample_env RenderType.Default
    (initial_state Assembly.empty) failing_node failing_node_again [box_node]
    Assembly.empty sample_scene rfl rfl rfl
  ⟨rfl, rfl, rfl, h.1, h.2.2.2.2.1⟩

/-- C9. Node with no material: `create_object_instance` inserts exactly one new
material, named by the instance name followed by `_mat` and made unique, a name
that no material of the assembly had (the renderer's `make_unique_name` being
assumed to return an absent name); its single Disney layer has `base_color`
equal to the formatted linear-to-sRGB conversion of the node's wire colour,
`specular` 1.0 and `roughness` 0.625; the new instance is bound to it; and a
second node without material, instanced after any further nodes, gets a
material of another name, so that two such nodes never share a material. -/
theorem default_material_per_node (env : Env) (type : RenderType) (s : BuildState)
    (node node2 : INode) (object_name object_name2 : String) (between : List INode)
    (hf : fresh_names env) (h : node.mtl = none) (h2 : node2.mtl = none) :
    ∃ material layer inst,
      (create_object_instance env s node object_name type).assembly.materials =
        s.assembly.materials ++ [material] ∧
      material.name =
        make_unique_name env (s.assembly.materials.map (·.name))
          (instance_name_of env s.assembly object_name ++ "_mat") ∧
      material.name ∉ s.assembly.materials.map (·.name) ∧
      material.model = "disney_material" ∧
      material.layers = [layer] ∧
      dict_get layer "base_color" =
        some (.str (env.fmt_expr (env.linear_rgb_to_srgb node.wire_color))) ∧
      dict_get layer "specular" = some (.num 1.0) ∧
      dict_get layer "roughness" = some (.num 0.625) ∧
      (create_object_instance env s node object_name type).assembly.object_instances =
        s.assembly.object_instances ++ [inst] ∧
      inst.name = instance_name_of env s.assembly object_name ∧
      inst.material = some material.name ∧
      ∃ material2 inst2,
        (create_object_instance env
          (between.foldl (add_object env type)
            (create_object_instance env s node object_name type))
          node2 object_name2 type).assembly.materials =
          (between.foldl (add_object env type)
            (create_object_instance env s node object_name type)).assembly.materials ++
            [material2] ∧
        (create_object_instance env
          (between.foldl (add_object env type)
            (create_object_instance env s node object_name type))
          node2 object_name2 type).assembly.object_instances =
          (between.foldl (add_object env type)
            (create_object_instance env s node object_name type)).assembly.object_instances ++
            [inst2] ∧
        inst2.material = some material2.name ∧
        material2.name ≠ material.name := by
  have hne := later_fallback_name_ne env type hf
    (create_object_instance env s node object_name type)
    { name := fallback_material_name env s.assembly object_name,
      model := "disney_material", params := [],
      layers :=
        [dict_insert
          (dict_insert
            (dict_insert env.layer_default_values "base_color"
              (.str (env.fmt_expr (env.linear_rgb_to_srgb node.wire_color))))
            "specular" (.num 1.0))
          "roughness" (.num 0.625)] }
    between object_name2
    (by rw [create_object_instance_no_mtl env s node object_name type h]; simp)
  rw [create_object_instance_no_mtl env _ node2 object_name2 type h2]
  rw [create_object_instance_no_mtl env s node object_name type h] at hne ⊢
  refine ⟨_, _, _, rfl, rfl, fallback_material_name_fresh env hf s.assembly object_name,
    rfl, rfl, ?_, ?_, ?_, rfl, rfl, instance_of_material _ _ _ _ _ _,
    _, _, rfl, rfl, instance_of_material _ _ _ _ _ _, hne⟩
  · rw [dict_get_insert_other _ _ _ _ (by decide),
      dict_get_insert_other _ _ _ _ (by decide), dict_get_insert_same]
  · rw [dict_get_insert_other _ _ _ _ (by decide), dict_get_insert_same]
  · rw [dict_get_insert_same]

theorem default_material_per_node_witness :
    fresh_names sample_env ∧ box_node.mtl = none ∧ failing_node_again.mtl = none ∧
    ∃ material,
      (create_object_instance sample_env (initial_state Assembly.empty) box_node "Box"
        RenderType.Default).assembly.materials =
        (initial_state Assembly.empty).assembly.materials ++ [material] ∧
      material.name ∉ (initial_state Assembly.empty).assembly.materials.map (·.name) ∧
      material.model = "disney_material" :=
  ⟨sample_env_fresh, rfl, rfl,
    (default_material_per_node sample_env RenderType.Default (initial_state Assembly.empty)
      box_node failing_node_again "Box" "Curve" [] sample_env_fresh rfl rfl).elim
      (fun material hm => hm.elim (fun _ hl => hl.elim (fun _ h =>
        ⟨material, h.1, h.2.2.1, h.2.2.2.1⟩)))⟩

/-- C10. Non-capable material fallback: for a node whose material lacks the
renderer interface, `create_object_instance` inserts one new parameterless
placeholder material, named by the instance name followed by `_mat` and made
unique, binds the new instance to it and leaves the Material Registry
unchanged; a second node with the same host material, instanced after any
further nodes, gets a placeholder of another name (the renderer's
`make_unique_name` being assumed to return an absent name). -/
theorem placeholder_material_per_node (env : Env) (type : RenderType) (s : BuildState)
    (node node2 : INode) (object_name object_name2 : String) (between : List INode)
    (p : Nat) (hf : fresh_names env) (h : node.mtl = some p) (h2 : node2.mtl = some p)
    (hp : (env.mtl p).appleseed_mtl = none) :
    ∃ material inst,
      (create_object_instance env s node object_name type).assembly.materials =
        s.assembly.materials ++ [material] ∧
      material.name =
        make_unique_name env (s.assembly.materials.map (·.name))
          (instance_name_of env s.assembly object_name ++ "_mat") ∧
      material.name ∉ s.assembly.materials.map (·.name) ∧
      material.model = "generic_material" ∧
      material.params = [] ∧
      material.layers = [] ∧
      (create_object_instance env s node object_name type).material_map = s.material_map ∧
      (create_object_instance env s node object_name type).created = s.created ∧
      (create_object_instance env s node object_name type).assembly.object_instances =
        s.assembly.object_instances ++ [inst] ∧
      inst.name = instance_name_of env s.assembly object_name ∧
      inst.material = some material.name ∧
      ∃ material2 inst2,
        (create_object_instance env
          (between.foldl (add_object env type)
            (create_object_instance env s node object_name type))
          node2 object_name2 type).assembly.materials =
          (between.foldl (add_object env type)
            (create_object_instance env s node object_name type)).assembly.materials ++
            [material2] ∧
        (create_object_instance env
          (between.foldl (add_object env type)
            (create_object_instance env s node object_name type))
          node2 object_name2 type).assembly.object_instances =
          (between.foldl (add_object env type)
            (create_object_instance env s node object_name type)).assembly.object_instances ++
            [inst2] ∧
        inst2.material = some material2.name ∧
        material2.name ≠ material.name := by
  have hne := later_fallback_name_ne env type hf
    (create_object_instance env s node object_name type)
    { name := fallback_material_name env s.assembly object_name,
      model := "generic_material", params := [], layers := [] }
    between object_name2
    (by rw [create_object_instance_other_mtl env s node object_name type p h hp]; simp)
  rw [create_object_instance_other_mtl env _ node2 object_name2 type p h2 hp]
  rw [create_object_instance_other_mtl env s node object_name type p h hp] at hne ⊢
  exact ⟨_, _, rfl, rfl, fallback_material_name_fresh env hf s.assembly object_name,
    rfl, rfl, rfl, rfl, rfl, rfl, rfl, instance_of_material _ _ _ _ _ _,
    _, _, rfl, rfl, instance_of_material _ _ _ _ _ _, hne⟩

theorem placeholder_material_per_node_witness :
    fresh_names sample_env ∧
    (sample_node "Teapot" 3 (some flat_mesh) (some 2)).mtl = some 2 ∧
    (sample_node "Lid" 4 (some flat_mesh) (some 2)).mtl = some 2 ∧
    (sample_env.mtl 2).appleseed_mtl = none ∧
    ∃ material,
      (create_object_instance sample_env (initial_state Assembly.empty)
        (sample_node "Teapot" 3 (some flat_mesh) (some 2)) "Teapot"
        RenderType.Default).assembly.materials =
        (initial_state Assembly.empty).assembly.materials ++ [material] ∧
      material.model = "generic_material" ∧ material.params = [] :=
  ⟨sample_env_fresh, rfl, rfl, rfl,
    (placeholder_material_per_node sample_env RenderType.Default
      (initial_state Assembly.empty)
      (sample_node "Teapot" 3 (some flat_mesh) (some 2))
      (sample_node "Lid" 4 (some flat_mesh) (some 2)) "Teapot" "Lid" [] 2
      sample_env_fresh rfl rfl rfl).elim
      (fun material hm => hm.elim (fun _ h => ⟨material, h.1, h.2.2.2.1, h.2.2.2.2.1⟩))⟩

/-- C3. Name uniqueness: after `populate_assembly` on an empty assembly, no
two objects, no two object instances, no two materials, no two lights and no
two colours of the assembly share a name, assuming that the renderer's
`asr::make_unique_name` returns a name absent from the container and that the
material returned by a renderer-aware material's `create_material` carries the
requested name (a `create_material` inserts no material: it can only insert
textures and texture instances). -/
theorem populate_assembly_unique_names (env : Env) (entities : MaxSceneEntities)
    (default_lights : List DefaultLight) (type : RenderType)
    (hf : fresh_names env) (hn : named_materials env) :
    unique_names (populate_assembly env Assembly.empty entities default_lights type) := by
  have h0 : unique_names (initial_state Assembly.empty).assembly := by
    simp [unique_names, initial_state, Assembly.empty]
  have hobj : unique_names (add_objects env Assembly.empty entities type) := by
    rw [add_objects_eq]
    exact foldl_add_object_unique env hf hn type entities.m_objects _ h0
  unfold populate_assembly
  by_cases hl : entities.m_lights.isEmpty = true
  · simp only [hl, if_true]
    exact foldl_add_default_light_unique env hf default_lights _ hobj
  · simp only [hl, if_false]
    exact foldl_add_light_unique env hf entities.m_lights _ hobj

theorem populate_assembly_unique_names_witness :
    fresh_names sample_env ∧ named_materials sample_env ∧
    unique_names (populate_assembly sample_env Assembly.empty sample_scene
      [{ ls := { type := LightType.OMNI_LGT, color := ⟨1, 1, 1⟩, intens := 1,
                 hotsize := 0, fallsize := 0 },
         tm := fun _ _ => 0 }]
      RenderType.Default) :=
  ⟨sample_env_fresh, sample_env_named,
    populate_assembly_unique_names sample_env sample_scene _ RenderType.Default
      sample_env_fresh sample_env_named⟩

/-! ## Material binding of an instance -/

/-- Every triangle of a translated mesh refers to the material slot 0, which
is the single slot of the mesh object, named `material`. -/
theorem fill_mesh_object_slot (name : String) (mesh : Mesh) (i : Nat) (t : Triangle)
    (h : (fill_mesh_object name mesh).triangles[i]? = some t) :
    (fill_mesh_object name mesh).material_slots = ["material"] ∧
    (fill_mesh_object name mesh).material_slots[t.m_pa]? = some "material" := by
  obtain ⟨_, _, _, hs, hl⟩ := fill_mesh_object_frame name mesh
  have hi : i < mesh.faces.length := by
    rw [← hl]
    rcases Nat.lt_or_ge i (fill_mesh_object name mesh).triangles.length with h1 | h1
    · exact h1
    · rw [List.getElem?_eq_none h1] at h; cases h
  have hf : mesh.faces[i]? = some (mesh.faces[i]) := List.getElem?_eq_getElem hi
  have ht := (triangle_of_face name mesh i _ hf).1
  rw [ht] at h
  have hpa : t.m_pa = 0 := by
    rw [← Option.some.inj h]
  rw [hs, hpa]
  exact ⟨rfl, rfl⟩

/-- C11. Single-entry material binding: the object instance created by
`create_object_instance` has a front and a back material mapping that are
equal, with exactly one entry, of key `material` and of value the resolved
material name: the name of the material inserted for the node when the node
has no material or a material without the renderer interface, the name
registered for the material when it is renderer-aware. The key is the name of
the single material slot of a translated mesh object, to which the
material-slot index of every triangle refers. -/
theorem single_material_binding (env : Env) (s : BuildState) (node : INode)
    (object_name : String) (type : RenderType) :
    (∃ inst material_name,
      (create_object_instance env s node object_name type).assembly.object_instances =
        s.assembly.object_instances ++ [inst] ∧
      inst.front_material_mappings = [("material", material_name)] ∧
      inst.back_material_mappings = inst.front_material_mappings ∧
      (node.mtl = none →
        ∃ material,
          (create_object_instance env s node object_name type).assembly.materials =
            s.assembly.materials ++ [material] ∧
          material.name = material_name) ∧
      (∀ p, node.mtl = some p → (env.mtl p).appleseed_mtl = none →
        ∃ material,
          (create_object_instance env s node object_name type).assembly.materials =
            s.assembly.materials ++ [material] ∧
          material.name = material_name) ∧
      (∀ p m, node.mtl = some p → (env.mtl p).appleseed_mtl = some m →
        map_find (create_object_instance env s node object_name type).material_map p =
          some material_name)) ∧
    (∀ (name : String) (mesh : Mesh) (i : Nat) (t : Triangle),
      (fill_mesh_object name mesh).triangles[i]? = some t →
        (fill_mesh_object name mesh).material_slots = ["material"] ∧
        (fill_mesh_object name mesh).material_slots[t.m_pa]? = some "material") := by
  refine ⟨?_, fun name mesh i t h => fill_mesh_object_slot name mesh i t h⟩
  cases hm : node.mtl with
  | none =>
    rw [create_object_instance_no_mtl env s node object_name type hm]
    refine ⟨_, fallback_material_name env s.assembly object_name, rfl, rfl, rfl,
      ?_, ?_, ?_⟩
    · intro _
      exact ⟨_, rfl, rfl⟩
    · intro p h
      cases h
    · intro p m h
      cases h
  | some p =>
    cases hp : (env.mtl p).appleseed_mtl with
    | none =>
      rw [create_object_instance_other_mtl env s node object_name type p hm hp]
      refine ⟨_, fallback_material_name env s.assembly object_name, rfl, rfl, rfl,
        ?_, ?_, ?_⟩
      · intro h
        cases h
      · intro q _ _
        exact ⟨_, rfl, rfl⟩
      · intro q m hq hqm
        cases hq
        rw [hp] at hqm
        cases hqm
    | some m =>
      cases hfind : map_find s.material_map p with
      | none =>
        rw [create_object_instance_new_mtl env s node object_name type p m hm hp hfind]
        refine ⟨_, _, rfl, rfl, rfl, ?_, ?_, ?_⟩
        · intro h
          cases h
        · intro q hq hqm
          cases hq
          rw [hp] at hqm
          cases hqm
        · intro q m' hq _
          cases hq
          simp [map_find_cons]
      | some name =>
        rw [create_object_instance_known_mtl env s node object_name type p m name hm hp
          hfind]
        refine ⟨_, name, rfl, rfl, rfl, ?_, ?_, ?_⟩
        · intro h
          cases h
        · intro q hq hqm
          cases hq
          rw [hp] at hqm
          cases hqm
        · intro q m' hq _
          cases hq
          exact hfind

/-! ## Lights -/

/-- C12. Light kind dispatch: for a light node of class omni, spot, free spot,
directional or targeted directional, `add_light` inserts exactly one colour
entity, holding the light's colour, and exactly one light entity, whose colour
parameter names that colour entity. Omni class: an omni light with
`intensity_multiplier` the host intensity times pi, `decay_start` the decay
radius and `decay_exponent` the decay type. Spot and free spot: a spot light
with the same parameters and `inner_angle` the hotspot, `outer_angle` the fall
size. Directional and targeted directional: a directional light with
`irradiance_multiplier` the host intensity times pi and neither `decay_start`
nor `decay_exponent`. -/
theorem light_kind_dispatch (env : Env) (a : Assembly) (node : LightNode)
    (h : node.classID ≠ LightClass.other) :
    ∃ color light,
      (add_light env a node).colors = a.colors ++ [color] ∧
      (add_light env a node).lights = a.lights ++ [light] ∧
      dict_get color.params "color" = some (.color node.color) ∧
      light.name = make_unique_name env (a.lights.map (·.name)) node.name ∧
      (node.classID = LightClass.OMNI_LIGHT_CLASS_ID →
        light.model = "max_omni_light" ∧
        dict_get light.params "intensity" = some (.str color.name) ∧
        dict_get light.params "intensity_multiplier" = some (.timesPi node.intensity) ∧
        dict_get light.params "decay_start" = some (.num node.decay_radius) ∧
        dict_get light.params "decay_exponent" = some (.int node.decay_type)) ∧
      (node.classID = LightClass.SPOT_LIGHT_CLASS_ID ∨
          node.classID = LightClass.FSPOT_LIGHT_CLASS_ID →
        light.model = "max_spot_light" ∧
        dict_get light.params "intensity" = some (.str color.name) ∧
        dict_get light.params "intensity_multiplier" = some (.timesPi node.intensity) ∧
        dict_get light.params "decay_start" = some (.num node.decay_radius) ∧
        dict_get light.params "decay_exponent" = some (.int node.decay_type) ∧
        dict_get light.params "inner_angle" = some (.num node.hotspot) ∧
        dict_get light.params "outer_angle" = some (.num node.fallsize)) ∧
      (node.classID = LightClass.DIR_LIGHT_CLASS_ID ∨
          node.classID = LightClass.TDIR_LIGHT_CLASS_ID →
        light.model = "directional_light" ∧
        dict_get light.params "irradiance" = some (.str color.name) ∧
        dict_get light.params "irradiance_multiplier" = some (.timesPi node.intensity) ∧
        dict_get light.params "decay_start" = none ∧
        dict_get light.params "decay_exponent" = none) := by
  unfold add_light
  cases hc : node.classID with
  | OMNI_LIGHT_CLASS_ID =>
    refine ⟨_, _, rfl, rfl, ?_, rfl, ?_, ?_, ?_⟩
    · simp [dict_insert, dict_get]
    · intro _
      simp [dict_insert, dict_get, insert_color]
    · intro h'
      rcases h' with h' | h' <;> cases h'
    · intro h'
      rcases h' with h' | h' <;> cases h'
  | SPOT_LIGHT_CLASS_ID =>
    refine ⟨_, _, rfl, rfl, ?_, rfl, ?_, ?_, ?_⟩
    · simp [dict_insert, dict_get]
    · intro h'
      cases h'
    · intro _
      simp [dict_insert, dict_get, insert_color]
    · intro h'
      rcases h' with h' | h' <;> cases h'
  | FSPOT_LIGHT_CLASS_ID =>
    refine ⟨_, _, rfl, rfl, ?_, rfl, ?_, ?_, ?_⟩
    · simp [dict_insert, dict_get]
    · intro h'
      cases h'
    · intro _
      simp [dict_insert, dict_get, insert_color]
    · intro h'
      rcases h' with h' | h' <;> cases h'
  | DIR_LIGHT_CLASS_ID =>
    refine ⟨_, _, rfl, rfl, ?_, rfl, ?_, ?_, ?_⟩
    · simp [dict_insert, dict_get]
    · intro h'
      cases h'
    · intro h'
      rcases h' with h' | h' <;> cases h'
    · intro _
      simp [dict_insert, dict_get, insert_color]
  | TDIR_LIGHT_CLASS_ID =>
    refine ⟨_, _, rfl, rfl, ?_, rfl, ?_, ?_, ?_⟩
    · simp [dict_insert, dict_get]
    · intro h'
      cases h'
    · intro h'
      rcases h' with h' | h' <;> cases h'
    · intro _
      simp [dict_insert, dict_get, insert_color]
  | other => exact absurd hc h

theorem light_kind_dispatch_witness :
    (sample_light "Omni001" LightClass.OMNI_LIGHT_CLASS_ID).classID ≠ LightClass.other ∧
    ∃ color light,
      (add_light sample_env Assembly.empty
        (sample_light "Omni001" LightClass.OMNI_LIGHT_CLASS_ID)).colors =
        Assembly.empty.colors ++ [color] ∧
      (add_light sample_env Assembly.empty
        (sample_light "Omni001" LightClass.OMNI_LIGHT_CLASS_ID)).lights =
        Assembly.empty.lights ++ [light] :=
  ⟨by decide,
    (light_kind_dispatch sample_env Assembly.empty
      (sample_light "Omni001" LightClass.OMNI_LIGHT_CLASS_ID) (by decide)).elim
      (fun color hc => hc.elim (fun light h => ⟨color, light, h.1, h.2.1⟩))⟩

/-- C13 (the code departs from the claim). The claim: for a light node of an
unsupported class `add_light` creates no entity, lights and colours of the
assembly are unchanged, and the translation of the other lights is unaffected.
The code inserts the colour entity of the light before it tests the class: for
every node of an unsupported class the lights are unchanged but one colour
entity is appended. The orphan colour takes the name `Omni001_color`, so a
supported light named `Omni001` translated afterwards refers to a colour of
another name than it does without the unsupported light. -/
theorem unsupported_light_adds_color :
    (∀ (env : Env) (a : Assembly) (node : LightNode),
      (add_light env a { node with classID := LightClass.other }).lights = a.lights ∧
      (add_light env a { node with classID := LightClass.other }).colors =
        a.colors ++
          [{ name := make_unique_name env (a.colors.map (·.name))
               (make_unique_name env (a.lights.map (·.name)) node.name ++ "_color"),
             params := [("color_space", .str "linear_rgb"), ("color", .color node.color)] }]) ∧
    (add_light sample_env Assembly.empty
      (sample_light "Omni001" LightClass.other)).colors.map (·.name) = ["Omni001_color"] ∧
    (add_lights sample_env Assembly.empty
      { m_objects := [],
        m_lights := [sample_light "Omni001" LightClass.OMNI_LIGHT_CLASS_ID] }).lights.map
        (fun l => dict_get l.params "intensity") = [some (.str "Omni001_color")] ∧
    (add_lights sample_env Assembly.empty
      { m_objects := [],
        m_lights := [sample_light "Omni001" LightClass.other,
                     sample_light "Omni001" LightClass.OMNI_LIGHT_CLASS_ID] }).lights.map
        (fun l => dict_get l.params "intensity") ≠ [some (.str "Omni001_color")] := by
  refine ⟨?_, by decide, by decide, by decide⟩
  intro env a node
  exact ⟨rfl, rfl⟩

/-- `add_default_light` appends one colour entity whatever the kind of the
default light, and one light entity unless the kind is ambient. -/
theorem add_default_light_counts (env : Env) (a : Assembly) (d : DefaultLight) :
    (add_default_light env a d).colors.length = a.colors.length + 1 ∧
    (add_default_light env a d).lights.length =
      a.lights.length + (if d.ls.type = LightType.AMBIENT_LGT then 0 else 1) := by
  unfold add_default_light
  cases d.ls.type <;>
    simp [insert_color, add_omni_light, add_spot_light, add_directional_light]

theorem add_default_lights_counts (env : Env) (dl : List DefaultLight) :
    ∀ a : Assembly,
      (add_default_lights env a dl).colors.length = a.colors.length + dl.length ∧
      (add_default_lights env a dl).lights.length =
        a.lights.length +
          (dl.filter (fun d => decide (d.ls.type ≠ LightType.AMBIENT_LGT))).length := by
  induction dl with
  | nil => intro a; simp [add_default_lights]
  | cons d rest ih =>
    intro a
    obtain ⟨h1, h2⟩ := add_default_light_counts env a d
    obtain ⟨i1, i2⟩ := ih (add_default_light env a d)
    unfold add_default_lights at i1 i2 ⊢
    simp only [List.foldl]
    rw [i1, i2, h1, h2]
    constructor
    · simp only [List.length_cons]
      omega
    · by_cases hd : d.ls.type = LightType.AMBIENT_LGT
      · simp [hd, List.filter]
      · simp [hd, List.filter]
        omega

/-- C15 (the code departs from the claim). The claim: `add_default_lights` on
an empty assembly gives as many light entities and as many colour entities as
there are non-ambient default lights, an ambient light contributing no entity.
The code inserts the colour entity of a default light before the switch on
its kind: the number of lights is the number of non-ambient default lights, as
claimed, but the number of colours is the number of all default lights; a
single ambient default light leaves no light and one colour entity. -/
theorem ambient_default_light_adds_color :
    (∀ (env : Env) (dl : List DefaultLight),
      (add_default_lights env Assembly.empty dl).lights.length =
        (dl.filter (fun d => decide (d.ls.type ≠ LightType.AMBIENT_LGT))).length ∧
      (add_default_lights env Assembly.empty dl).colors.length = dl.length) ∧
    (add_default_lights sample_env Assembly.empty
      [sample_default_light LightType.AMBIENT_LGT]).lights.length = 0 ∧
    (add_default_lights sample_env Assembly.empty
      [sample_default_light LightType.AMBIENT_LGT]).colors.map (·.name) =
      ["DefaultLight_color"] := by
  refine ⟨?_, by decide, by decide⟩
  intro env dl
  obtain ⟨h1, h2⟩ := add_default_lights_counts env dl Assembly.empty
  rw [h1, h2]
  simp [Assembly.empty]

theorem add_object_lights (env : Env) (type : RenderType) (s : BuildState) (n : INode) :
    (add_object env type s n).assembly.lights = s.assembly.lights ∧
    (add_object env type s n).assembly.colors = s.assembly.colors := by
  cases hfind : map_find s.object_map n.objectRef with
  | some info =>
    rw [add_object_known env type s n info hfind]
    by_cases hv : info.m_valid = true
    · rw [if_pos hv]
      have h := create_object_instance_frame env s n info.m_name type
      exact ⟨h.2.1, h.2.2.1⟩
    · rw [if_neg hv]
      exact ⟨rfl, rfl⟩
  | none =>
    cases htri : n.tri_object with
    | some mesh =>
      rw [add_object_new_mesh env type s n mesh hfind htri]
      have h := create_object_instance_frame env
        { s with
          assembly :=
            { s.assembly with
              objects := s.assembly.objects ++
                [fill_mesh_object
                  (make_unique_name env (s.assembly.objects.map (·.name)) n.name) mesh] },
          object_map :=
            (n.objectRef,
              { m_valid := true,
                m_name := make_unique_name env (s.assembly.objects.map (·.name))
                  n.name }) :: s.object_map,
          translated := s.translated ++ [n.objectRef] }
        n (make_unique_name env (s.assembly.objects.map (·.name)) n.name) type
      exact ⟨h.2.1, h.2.2.1⟩
    | none =>
      rw [add_object_failed env type s n hfind htri]
      exact ⟨rfl, rfl⟩

theorem foldl_add_object_lights (env : Env) (type : RenderType) (nodes : List INode) :
    ∀ s : BuildState,
      (nodes.foldl (add_object env type) s).assembly.lights = s.assembly.lights ∧
      (nodes.foldl (add_object env type) s).assembly.colors = s.assembly.colors := by
  induction nodes with
  | nil => intro s; exact ⟨rfl, rfl⟩
  | cons n rest ih =>
    intro s
    obtain ⟨h1, h2⟩ := ih (add_object env type s n)
    obtain ⟨g1, g2⟩ := add_object_lights env type s n
    simp only [List.foldl]
    exact ⟨h1.trans g1, h2.trans g2⟩

theorem add_default_light_lights (env : Env) (a : Assembly) (d : DefaultLight) :
    (add_default_light env a d).lights = a.lights ∨
    ∃ l, (add_default_light env a d).lights = a.lights ++ [l] := by
  unfold add_default_light
  cases d.ls.type with
  | OMNI_LGT => exact Or.inr ⟨_, rfl⟩
  | SPOT_LGT => exact Or.inr ⟨_, rfl⟩
  | DIRECT_LGT => exact Or.inr ⟨_, rfl⟩
  | AMBIENT_LGT => exact Or.inl rfl

theorem add_default_lights_origin (env : Env) (dl : List DefaultLight) :
    ∀ (a : Assembly) (l : Light), l ∈ (add_default_lights env a dl).lights →
      l ∈ a.lights ∨
      ∃ d ∈ dl, ∃ a', (add_default_light env a' d).lights = a'.lights ++ [l] := by
  induction dl with
  | nil => intro a l h; exact Or.inl h
  | cons d rest ih =>
    intro a l h
    have h' : l ∈ (add_default_lights env (add_default_light env a d) rest).lights := h
    rcases ih (add_default_light env a d) l h' with h1 | ⟨d', hd', a', ha'⟩
    · rcases add_default_light_lights env a d with h2 | ⟨l', h2⟩
      · rw [h2] at h1
        exact Or.inl h1
      · rw [h2] at h1
        rcases List.mem_append.mp h1 with h3 | h3
        · exact Or.inl h3
        · rw [List.mem_singleton] at h3
          subst h3
          exact Or.inr ⟨d, List.mem_cons_self d rest, a, h2⟩
    · exact Or.inr ⟨d', List.mem_cons_of_mem d hd', a', ha'⟩

/-- C14. Default-lights fallback: when the scene has no explicit light,
`populate_assembly` is the translation of the default lights after that of
the objects, and every light of the resulting assembly is the light appended
by the translation of one of the default lights; when the scene has at least
one explicit light, it is the translation of the explicit lights after that
of the objects, so the assembly is the same for any two default-light lists,
whatever the classes of the explicit lights. -/
theorem default_lights_fallback (env : Env) (entities : MaxSceneEntities)
    (default_lights other_default_lights : List DefaultLight) (type : RenderType) :
    (entities.m_lights = [] →
      populate_assembly env Assembly.empty entities default_lights type =
        add_default_lights env (add_objects env Assembly.empty entities type)
          default_lights ∧
      ∀ l ∈ (populate_assembly env Assembly.empty entities default_lights type).lights,
        ∃ d ∈ default_lights, ∃ a,
          (add_default_light env a d).lights = a.lights ++ [l]) ∧
    (entities.m_lights ≠ [] →
      populate_assembly env Assembly.empty entities default_lights type =
        add_lights env (add_objects env Assembly.empty entities type) entities ∧
      populate_assembly env Assembly.empty entities default_lights type =
        populate_assembly env Assembly.empty entities other_default_lights type) := by
  constructor
  · intro h
    have hp : populate_assembly env Assembly.empty entities default_lights type =
        add_default_lights env (add_objects env Assembly.empty entities type)
          default_lights := by
      simp [populate_assembly, h]
    refine ⟨hp, ?_⟩
    intro l hl
    rw [hp] at hl
    rcases add_default_lights_origin env default_lights _ l hl with h1 | h1
    · rw [add_objects_eq,
        (foldl_add_object_lights env type entities.m_objects _).1] at h1
      simp [initial_state, Assembly.empty] at h1
    · exact h1
  · intro h
    have he : entities.m_lights.isEmpty = false := by
      cases hl : entities.m_lights with
      | nil => exact absurd hl h
      | cons x xs => rfl
    constructor
    · simp [populate_assembly, he]
    · simp [populate_assembly, he]

theorem default_lights_fallback_witness :
    sample_scene.m_lights = [] ∧
    populate_assembly sample_env Assembly.empty sample_scene
        [sample_default_light LightType.OMNI_LGT] RenderType.Default =
      add_default_lights sample_env
        (add_objects sample_env Assembly.empty sample_scene RenderType.Default)
        [sample_default_light LightType.OMNI_LGT] :=
  ⟨rfl,
    ((default_lights_fallback sample_env sample_scene
      [sample_default_light LightType.OMNI_LGT] [] RenderType.Default).1 rfl).1⟩

/-! ## Environment, frame and camera -/

theorem clamp_low_zero (c : Color3f) :
    clamp_low c 0 = { r := max c.r 0, g := max c.g 0, b := max c.b 0 } := by
  have hmax : ∀ x : Scalar, (if x < 0 then 0 else x) = max x 0 := by
    intro x
    by_cases hx : x < 0
    · rw [if_pos hx, max_eq_right (le_of_lt hx)]
    · rw [if_neg hx, max_eq_left (not_lt.mp hx)]
  simp only [clamp_low, hmax]

theorem color_is_zero_clamp_of_nonpos (c : Color3f)
    (h : c.r ≤ 0 ∧ c.g ≤ 0 ∧ c.b ≤ 0) : color_is_zero (clamp_low c 0) = true := by
  rw [clamp_low_zero]
  simp [color_is_zero, max_eq_right h.1, max_eq_right h.2.1, max_eq_right h.2.2]

theorem color_is_zero_clamp_of_pos (c : Color3f)
    (h : 0 < c.r ∨ 0 < c.g ∨ 0 < c.b) : color_is_zero (clamp_low c 0) = false := by
  rw [clamp_low_zero]
  simp only [color_is_zero, decide_eq_false_iff_not]
  rintro ⟨h1, h2, h3⟩
  rcases h with h | h | h
  · rw [max_eq_left (le_of_lt h)] at h1
    exact absurd h1 (ne_of_gt h)
  · rw [max_eq_left (le_of_lt h)] at h2
    exact absurd h2 (ne_of_gt h)
  · rw [max_eq_left (le_of_lt h)] at h3
    exact absurd h3 (ne_of_gt h)

/-- C16. Environment for a zero background: when the three components of the
background colour are at most 0, `setup_environment` binds an environment
without parameters to the scene and inserts no colour, no environment EDF and
no environment shader, whatever the renderer settings. -/
theorem zero_background_environment (env : Env) (scene : Scene)
    (frame_rend_params : FrameRendParams) (settings : RendererSettings)
    (h : frame_rend_params.background.r ≤ 0 ∧ frame_rend_params.background.g ≤ 0 ∧
      frame_rend_params.background.b ≤ 0) :
    (setup_environment env scene frame_rend_params settings).environment =
      some { name := "environment", model := "environment", params := [] } ∧
    (setup_environment env scene frame_rend_params settings).colors = scene.colors ∧
    (setup_environment env scene frame_rend_params settings).environment_edfs =
      scene.environment_edfs ∧
    (setup_environment env scene frame_rend_params settings).environment_shaders =
      scene.environment_shaders := by
  unfold setup_environment
  simp [color_is_zero_clamp_of_nonpos _ h]

theorem zero_background_environment_witness :
    ((⟨0, -1, 0⟩ : Color3f).r ≤ 0 ∧ (⟨0, -1, 0⟩ : Color3f).g ≤ 0 ∧
      (⟨0, -1, 0⟩ : Color3f).b ≤ 0) ∧
    (setup_environment sample_env Scene.create { background := ⟨0, -1, 0⟩ }
      (sample_settings true)).environment =
      some { name := "environment", model := "environment", params := [] } ∧
    (setup_environment sample_env Scene.create { background := ⟨0, -1, 0⟩ }
      (sample_settings true)).colors = Scene.create.colors :=
  have h : (⟨0, -1, 0⟩ : Color3f).r ≤ 0 ∧ (⟨0, -1, 0⟩ : Color3f).g ≤ 0 ∧
      (⟨0, -1, 0⟩ : Color3f).b ≤ 0 := by decide
  ⟨h,
    (zero_background_environment sample_env Scene.create { background := ⟨0, -1, 0⟩ }
      (sample_settings true) h).1,
    (zero_background_environment sample_env Scene.create { background := ⟨0, -1, 0⟩ }
      (sample_settings true) h).2.1⟩

/-- C17. Environment for a non-zero background: when a component of the
background colour is strictly positive, `setup_environment` inserts exactly
one colour entity, holding the background with each component raised to at
least 0, one constant environment EDF whose radiance names that colour, and
one environment shader that refers to that EDF; the environment bound to the
scene names the shader, and names the EDF if and only if the settings' flag
`m_background_emits_light` is set. -/
theorem nonzero_background_environment (env : Env) (scene : Scene)
    (frame_rend_params : FrameRendParams) (settings : RendererSettings)
    (h : 0 < frame_rend_params.background.r ∨ 0 < frame_rend_params.background.g ∨
      0 < frame_rend_params.background.b) :
    ∃ color environment,
      (setup_environment env scene frame_rend_params settings).colors =
        scene.colors ++ [color] ∧
      dict_get color.params "color" =
        some (.color
          { r := max frame_rend_params.background.r 0,
            g := max frame_rend_params.background.g 0,
            b := max frame_rend_params.background.b 0 }) ∧
      (setup_environment env scene frame_rend_params settings).environment_edfs =
        scene.environment_edfs ++
          [{ name := "environment_edf", model := "constant_environment_edf",
             params := [("radiance", .str color.name)] }] ∧
      (setup_environment env scene frame_rend_params settings).environment_shaders =
        scene.environment_shaders ++
          [{ name := "environment_shader", model := "edf_environment_shader",
             params := [("environment_edf", .str "environment_edf")] }] ∧
      (setup_environment env scene frame_rend_params settings).environment =
        some environment ∧
      dict_get environment.params "environment_shader" =
        some (.str "environment_shader") ∧
      (dict_get environment.params "environment_edf" = some (.str "environment_edf") ↔
        settings.m_background_emits_light = true) ∧
      (settings.m_background_emits_light = false →
        dict_get environment.params "environment_edf" = none) := by
  unfold setup_environment
  simp only [color_is_zero_clamp_of_pos _ h, Bool.false_eq_true, if_false]
  rw [clamp_low_zero]
  cases hs : settings.m_background_emits_light with
  | true =>
    simp only [if_true]
    refine ⟨_, _, rfl, ?_, rfl, rfl, rfl, ?_, ?_, ?_⟩
    · simp [dict_insert, dict_get]
    · simp [dict_insert, dict_get]
    · simp [dict_insert, dict_get]
    · intro h'
      cases h'
  | false =>
    simp only [Bool.false_eq_true, if_false]
    refine ⟨_, _, rfl, ?_, rfl, rfl, rfl, ?_, ?_, ?_⟩
    · simp [dict_insert, dict_get]
    · simp [dict_insert, dict_get]
    · simp [dict_insert, dict_get]
    · intro _
      simp [dict_insert, dict_get]

theorem nonzero_background_environment_witness :
    (0 < (⟨1/2, -1, 0⟩ : Color3f).r ∨ 0 < (⟨1/2, -1, 0⟩ : Color3f).g ∨
      0 < (⟨1/2, -1, 0⟩ : Color3f).b) ∧
    ∃ color,
      (setup_environment sample_env Scene.create { background := ⟨1/2, -1, 0⟩ }
        (sample_settings false)).colors = Scene.create.colors ++ [color] ∧
      dict_get color.params "color" =
        some (.color
          { r := max (⟨1/2, -1, 0⟩ : Color3f).r 0,
            g := max (⟨1/2, -1, 0⟩ : Color3f).g 0,
            b := max (⟨1/2, -1, 0⟩ : Color3f).b 0 }) :=
  have h : 0 < (⟨1/2, -1, 0⟩ : Color3f).r ∨ 0 < (⟨1/2, -1, 0⟩ : Color3f).g ∨
      0 < (⟨1/2, -1, 0⟩ : Color3f).b := Or.inl (by norm_num)
  ⟨h,
    (nonzero_background_environment sample_env Scene.create
      { background := ⟨1/2, -1, 0⟩ } (sample_settings false) h).elim
      (fun color hc => hc.elim (fun _ h' => ⟨color, h'.1, h'.2.1⟩))⟩

/-- C18. Frame parameters by render mode: the frame built by `build_frame` has
the bitmap's width and height as resolution and the name of the given camera
as camera; with `inMtlEdit` set its tile size is 8 x 8 and its filter `box` of
size 0.5, otherwise its tile size is 64 x 64 and its filter `blackman-harris`
of size 1.5. -/
theorem frame_parameters (camera : Camera) (bitmap : Bitmap) (rend_params : RendParams) :
    dict_get (build_frame camera bitmap rend_params).params "resolution" =
      some (.vec2i bitmap.Width bitmap.Height) ∧
    dict_get (build_frame camera bitmap rend_params).params "camera" =
      some (.str camera.name) ∧
    (rend_params.inMtlEdit = true →
      dict_get (build_frame camera bitmap rend_params).params "tile_size" =
        some (.vec2i 8 8) ∧
      dict_get (build_frame camera bitmap rend_params).params "filter" =
        some (.str "box") ∧
      dict_get (build_frame camera bitmap rend_params).params "filter_size" =
        some (.num 0.5)) ∧
    (rend_params.inMtlEdit = false →
      dict_get (build_frame camera bitmap rend_params).params "tile_size" =
        some (.vec2i 64 64) ∧
      dict_get (build_frame camera bitmap rend_params).params "filter" =
        some (.str "blackman-harris") ∧
      dict_get (build_frame camera bitmap rend_params).params "filter_size" =
        some (.num 1.5)) := by
  unfold build_frame
  cases h : rend_params.inMtlEdit with
  | true => simp [dict_insert, dict_get]
  | false => simp [dict_insert, dict_get]

/-- C19. Camera parameters: `build_camera` sets `near_z` to the negated hither
value; for a perspective view it creates a pinhole camera whose film
dimensions are the bitmap's width and height and whose horizontal field of
view is the view's `fov` converted from radians to degrees; for a parallel
view (and a bitmap of non-zero width) it creates an orthographic camera whose
film width is 400 times the zoom and whose film height is the film width
times the quotient of the bitmap's height by its width, the products and the
quotient being those of `float`. -/
theorem camera_parameters (machine : Machine) (view_params : ViewParams)
    (bitmap : Bitmap) :
    dict_get (build_camera machine view_params bitmap).params "near_z" =
      some (.num (-view_params.hither)) ∧
    (view_params.projType = PROJ_PERSPECTIVE →
      (build_camera machine view_params bitmap).model = "pinhole_camera" ∧
      dict_get (build_camera machine view_params bitmap).params "film_dimensions" =
        some (.vec2i bitmap.Width bitmap.Height) ∧
      dict_get (build_camera machine view_params bitmap).params "horizontal_fov" =
        some (.radToDeg view_params.fov)) ∧
    (view_params.projType = PROJ_PARALLEL → bitmap.Width ≠ 0 →
      (build_camera machine view_params bitmap).model = "orthographic_camera" ∧
      dict_get (build_camera machine view_params bitmap).params "film_dimensions" =
        some (.vec2f (machine.fmul 400 view_params.zoom)
          (machine.fmul (machine.fmul 400 view_params.zoom)
            (machine.fdiv (machine.int_to_float bitmap.Height)
              (machine.int_to_float bitmap.Width))))) := by
  unfold build_camera
  refine ⟨?_, ?_, ?_⟩
  · by_cases h : view_params.projType = PROJ_PERSPECTIVE
    · simp [h, dict_insert, dict_get]
    · simp [h, dict_insert, dict_get]
  · intro h
    simp [h, dict_insert, dict_get]
  · intro h _
    have hne : view_params.projType ≠ PROJ_PERSPECTIVE := by
      rw [h]; decide
    simp [hne, dict_insert, dict_get]

theorem camera_parameters_witness :
    (⟨PROJ_PARALLEL, 0, 2, 1, fun _ _ => 0⟩ : ViewParams).projType = PROJ_PARALLEL ∧
    (⟨640, 480⟩ : Bitmap).Width ≠ 0 ∧
    (build_camera sample_machine ⟨PROJ_PARALLEL, 0, 2, 1, fun _ _ => 0⟩
      ⟨640, 480⟩).model = "orthographic_camera" ∧
    dict_get (build_camera sample_machine ⟨PROJ_PARALLEL, 0, 2, 1, fun _ _ => 0⟩
      ⟨640, 480⟩).params "film_dimensions" =
      some (.vec2f (sample_machine.fmul 400 2)
        (sample_machine.fmul (sample_machine.fmul 400 2)
          (sample_machine.fdiv (sample_machine.int_to_float 480)
            (sample_machine.int_to_float 640)))) :=
  ⟨rfl, by decide,
    (camera_parameters sample_machine ⟨PROJ_PARALLEL, 0, 2, 1, fun _ _ => 0⟩
      ⟨640, 480⟩).2.2 rfl (by decide)⟩

/-! ## Project -/

theorem add_object_instance_params (env : Env) (type : RenderType) (s : BuildState)
    (n : INode) (params : ParamArray)
    (hp : params =
      if type = RenderType.MaterialPreview then
        dict_insert [] "visibility.shadow" (.bool false)
      else [])
    (h : ∀ inst ∈ s.assembly.object_instances, inst.params = params) :
    ∀ inst ∈ (add_object env type s n).assembly.object_instances,
      inst.params = params := by
  have hstep : ∀ (s' : BuildState) (object_name : String),
      s'.assembly.object_instances = s.assembly.object_instances →
      ∀ inst ∈ (create_object_instance env s' n object_name type).assembly.object_instances,
        inst.params = params := by
    intro s' object_name hs' inst hinst
    obtain ⟨_, _, _, _, _, mname, f6⟩ :=
      create_object_instance_frame env s' n object_name type
    rw [f6, hs'] at hinst
    rcases List.mem_append.mp hinst with h1 | h1
    · exact h inst h1
    · rw [List.mem_singleton] at h1
      rw [h1, hp]
      rfl
  cases hfind : map_find s.object_map n.objectRef with
  | some info =>
    rw [add_object_known env type s n info hfind]
    by_cases hv : info.m_valid = true
    · rw [if_pos hv]
      exact hstep s info.m_name rfl
    · rw [if_neg hv]
      exact h
  | none =>
    cases htri : n.tri_object with
    | some mesh =>
      rw [add_object_new_mesh env type s n mesh hfind htri]
      exact hstep _ _ rfl
    | none =>
      rw [add_object_failed env type s n hfind htri]
      exact h

theorem foldl_add_object_instance_params (env : Env) (type : RenderType)
    (params : ParamArray)
    (hp : params =
      if type = RenderType.MaterialPreview then
        dict_insert [] "visibility.shadow" (.bool false)
      else [])
    (nodes : List INode) :
    ∀ s : BuildState, (∀ inst ∈ s.assembly.object_instances, inst.params = params) →
      ∀ inst ∈ (nodes.foldl (add_object env type) s).assembly.object_instances,
        inst.params = params := by
  induction nodes with
  | nil => intro s h; exact h
  | cons n rest ih =>
    intro s h
    exact ih _ (add_object_instance_params env type s n params hp h)

theorem add_light_instances (env : Env) (a : Assembly) (node : LightNode) :
    (add_light env a node).object_instances = a.object_instances := by
  unfold add_light
  cases node.classID <;> rfl

theorem add_default_light_instances (env : Env) (a : Assembly) (d : DefaultLight) :
    (add_default_light env a d).object_instances = a.object_instances := by
  unfold add_default_light
  cases d.ls.type <;> rfl

theorem add_lights_instances (env : Env) (lights : List LightNode) :
    ∀ a : Assembly,
      (lights.foldl (add_light env) a).object_instances = a.object_instances := by
  induction lights with
  | nil => intro a; rfl
  | cons l rest ih =>
    intro a
    simp only [List.foldl]
    rw [ih, add_light_instances]

theorem add_default_lights_instances (env : Env) (lights : List DefaultLight) :
    ∀ a : Assembly,
      (lights.foldl (add_default_light env) a).object_instances = a.object_instances := by
  induction lights with
  | nil => intro a; rfl
  | cons l rest ih =>
    intro a
    simp only [List.foldl]
    rw [ih, add_default_light_instances]

theorem populate_assembly_instances (env : Env) (entities : MaxSceneEntities)
    (default_lights : List DefaultLight) (type : RenderType) (a : Assembly) :
    (populate_assembly env a entities default_lights type).object_instances =
      (add_objects env a entities type).object_instances := by
  unfold populate_assembly
  by_cases h : entities.m_lights.isEmpty = true
  · simp only [h, if_true]
    exact add_default_lights_instances env default_lights _
  · simp only [h, if_false]
    exact add_lights_instances env entities.m_lights _

theorem setup_environment_assemblies (env : Env) (scene : Scene)
    (frame_rend_params : FrameRendParams) (settings : RendererSettings) :
    (setup_environment env scene frame_rend_params settings).assemblies =
      scene.assemblies ∧
    (setup_environment env scene frame_rend_params settings).assembly_instances =
      scene.assembly_instances ∧
    (setup_environment env scene frame_rend_params settings).camera = scene.camera := by
  unfold setup_environment
  by_cases h : color_is_zero (clamp_low frame_rend_params.background 0) = true
  · simp [h]
  · by_cases hs : settings.m_background_emits_light = true
    · simp [h, hs, scene_insert_color]
    · simp [h, hs, scene_insert_color]

/-- The scene and the frame of the project built by `build_project`. -/
theorem build_project_parts (env : Env) (machine : Machine) (entities : MaxSceneEntities)
    (default_lights : List DefaultLight) (view_params : ViewParams)
    (rend_params : RendParams) (frame_rend_params : FrameRendParams)
    (settings : RendererSettings) (bitmap : Bitmap) :
    ∃ scene,
      (build_project env machine entities default_lights view_params rend_params
        frame_rend_params settings bitmap).scene = some scene ∧
      scene.assemblies =
        [("assembly",
          populate_assembly env Assembly.empty entities default_lights
            (render_type rend_params))] ∧
      (build_project env machine entities default_lights view_params rend_params
        frame_rend_params settings bitmap).frame =
        some (build_frame (build_camera machine view_params bitmap) bitmap rend_params) := by
  unfold build_project RendererSettings.apply
  refine ⟨_, rfl, ?_, rfl⟩
  simp [(setup_environment_assemblies env _ frame_rend_params settings).1, Scene.create]

/-- Tile size and filter of the frame built by `build_frame`, by render mode. -/
theorem build_frame_mode (camera : Camera) (bitmap : Bitmap) (rend_params : RendParams) :
    (rend_params.inMtlEdit = true →
      dict_get (build_frame camera bitmap rend_params).params "tile_size" =
        some (.vec2i 8 8) ∧
      dict_get (build_frame camera bitmap rend_params).params "filter" =
        some (.str "box")) ∧
    (rend_params.inMtlEdit = false →
      dict_get (build_frame camera bitmap rend_params).params "tile_size" =
        some (.vec2i 64 64) ∧
      dict_get (build_frame camera bitmap rend_params).params "filter" =
        some (.str "blackman-harris")) := by
  unfold build_frame
  cases h : rend_params.inMtlEdit with
  | true => simp [dict_insert, dict_get]
  | false => simp [dict_insert, dict_get]

/-- C20. Preview flag threading: in the project built by `build_project`,
every object instance of the assembly carries the parameter
`visibility.shadow = false` if and only if `inMtlEdit` is set, and has no
parameter otherwise; the frame has the preview parameters (tile size 8 x 8,
filter `box`) if and only if `inMtlEdit` is set, and the final-render ones
(tile size 64 x 64, filter `blackman-harris`) otherwise; so an instance is a
preview instance exactly when the frame is a preview frame. -/
theorem preview_flag_threading (env : Env) (machine : Machine)
    (entities : MaxSceneEntities) (default_lights : List DefaultLight)
    (view_params : ViewParams) (rend_params : RendParams)
    (frame_rend_params : FrameRendParams) (settings : RendererSettings)
    (bitmap : Bitmap) :
    ∃ scene assembly frame,
      (build_project env machine entities default_lights view_params rend_params
        frame_rend_params settings bitmap).scene = some scene ∧
      scene.assemblies = [("assembly", assembly)] ∧
      (build_project env machine entities default_lights view_params rend_params
        frame_rend_params settings bitmap).frame = some frame ∧
      (dict_get frame.params "tile_size" = some (.vec2i 8 8) ↔
        rend_params.inMtlEdit = true) ∧
      (dict_get frame.params "filter" = some (.str "box") ↔
        rend_params.inMtlEdit = true) ∧
      (dict_get frame.params "tile_size" = some (.vec2i 64 64) ↔
        rend_params.inMtlEdit = false) ∧
      (dict_get frame.params "filter" = some (.str "blackman-harris") ↔
        rend_params.inMtlEdit = false) ∧
      ∀ inst ∈ assembly.object_instances,
        (dict_get inst.params "visibility.shadow" = some (.bool false) ↔
          rend_params.inMtlEdit = true) ∧
        (rend_params.inMtlEdit = false → inst.params = []) ∧
        (dict_get inst.params "visibility.shadow" = some (.bool false) ↔
          dict_get frame.params "tile_size" = some (.vec2i 8 8)) := by
  obtain ⟨scene, h1, h2, h3⟩ := build_project_parts env machine entities default_lights
    view_params rend_params frame_rend_params settings bitmap
  have hframe := build_frame_mode (build_camera machine view_params bitmap) bitmap
    rend_params
  have hinst : ∀ inst ∈ (populate_assembly env Assembly.empty entities default_lights
      (render_type rend_params)).object_instances,
      inst.params =
        if render_type rend_params = RenderType.MaterialPreview then
          dict_insert [] "visibility.shadow" (.bool false)
        else [] := by
    rw [populate_assembly_instances, add_objects_eq]
    apply foldl_add_object_instance_params env _ _ rfl
    intro inst hi
    simp [initial_state, Assembly.empty] at hi
  refine ⟨scene, _, _, h1, h2, h3, ?_⟩
  cases hm : rend_params.inMtlEdit with
  | true =>
    obtain ⟨t1, t2⟩ := hframe.1 hm
    refine ⟨by simp [t1], by simp [t2], by simp [t1], by simp [t2], ?_⟩
    intro inst hi
    have hpar := hinst inst hi
    simp only [render_type, hm, if_true] at hpar
    rw [hpar, t1]
    simp [dict_insert, dict_get]
  | false =>
    obtain ⟨t1, t2⟩ := hframe.2 hm
    refine ⟨by simp [t1], by simp [t2], by simp [t1], by simp [t2], ?_⟩
    intro inst hi
    have hpar := hinst inst hi
    simp only [render_type, hm, Bool.false_eq_true, if_false] at hpar
    have hne : RenderType.Default ≠ RenderType.MaterialPreview := by decide
    rw [if_neg hne] at hpar
    rw [hpar, t1]
    simp [dict_get]

/-! ## Project structure -/

theorem setup_environment_environment (env : Env) (scene : Scene)
    (frame_rend_params : FrameRendParams) (settings : RendererSettings) :
    ∃ environment,
      (setup_environment env scene frame_rend_params settings).environment =
        some environment := by
  unfold setup_environment
  by_cases h : color_is_zero (clamp_low frame_rend_params.background 0) = true
  · simp [h]
  · by_cases hs : settings.m_background_emits_light = true
    · simp [h, hs]
    · simp [h, hs]

theorem build_frame_camera (camera : Camera) (bitmap : Bitmap) (rend_params : RendParams) :
    dict_get (build_frame camera bitmap rend_params).params "camera" =
      some (.str camera.name) := by
  unfold build_frame
  cases h : rend_params.inMtlEdit with
  | true => simp [dict_insert, dict_get]
  | false => simp [dict_insert, dict_get]

/-- C21. Project structure: the scene of the project returned by
`build_project` holds exactly one assembly, named `assembly`, and exactly one
assembly instance, named `assembly_inst`, which references `assembly` and
whose transform sequence is the identity at time 0 and nothing else; the scene
has an environment and a camera; the frame of the project names that camera;
and the project is the result of applying the renderer settings to the
configuration `final` of the project with its scene and frame attached, which
leaves the default configurations with the one named `final` rewritten. -/
theorem project_structure (env : Env) (machine : Machine) (entities : MaxSceneEntities)
    (default_lights : List DefaultLight) (view_params : ViewParams)
    (rend_params : RendParams) (frame_rend_params : FrameRendParams)
    (settings : RendererSettings) (bitmap : Bitmap) :
    ∃ scene assembly inst environment camera frame,
      (build_project env machine entities default_lights view_params rend_params
        frame_rend_params settings bitmap).scene = some scene ∧
      scene.assemblies = [("assembly", assembly)] ∧
      scene.assembly_instances = [inst] ∧
      inst.name = "assembly_inst" ∧
      inst.assembly_name = "assembly" ∧
      inst.transform_sequence = [(0, Transformd.identity)] ∧
      scene.environment = some environment ∧
      scene.camera = some camera ∧
      (build_project env machine entities default_lights view_params rend_params
        frame_rend_params settings bitmap).frame = some frame ∧
      dict_get frame.params "camera" = some (.str camera.name) ∧
      build_project env machine entities default_lights view_params rend_params
          frame_rend_params settings bitmap =
        settings.apply
          { name := "project", configurations := machine.default_configurations,
            scene := some scene, frame := some frame } "final" ∧
      (build_project env machine entities default_lights view_params rend_params
        frame_rend_params settings bitmap).configurations =
        machine.default_configurations.map
          (fun c => if c.1 = "final" then (c.1, settings.m_params c.2) else c) := by
  have key : ∀ s0 : Scene,
      s0 = { Scene.create with
        assembly_instances := Scene.create.assembly_instances ++
          [{ name := "assembly_inst", params := [], assembly_name := "assembly",
             transform_sequence := [(0, Transformd.identity)] }],
        assemblies := Scene.create.assemblies ++
          [("assembly", populate_assembly env Assembly.empty entities default_lights
            (render_type rend_params))] } →
      ∃ environment,
        (setup_environment env s0 frame_rend_params settings).environment =
          some environment ∧
        (setup_environment env s0 frame_rend_params settings).assemblies =
          [("assembly", populate_assembly env Assembly.empty entities default_lights
            (render_type rend_params))] ∧
        (setup_environment env s0 frame_rend_params settings).assembly_instances =
          [{ name := "assembly_inst", params := [], assembly_name := "assembly",
             transform_sequence := [(0, Transformd.identity)] }] := by
    intro s0 hs0
    obtain ⟨environment, henv⟩ :=
      setup_environment_environment env s0 frame_rend_params settings
    obtain ⟨h1, h2, _⟩ := setup_environment_assemblies env s0 frame_rend_params settings
    refine ⟨environment, henv, ?_, ?_⟩
    · rw [h1, hs0]
      rfl
    · rw [h2, hs0]
      rfl
  obtain ⟨environment, henv, h1, h2⟩ := key _ rfl
  exact ⟨_, populate_assembly env Assembly.empty entities default_lights
      (render_type rend_params),
    { name := "assembly_inst", params := [], assembly_name := "assembly",
      transform_sequence := [(0, Transformd.identity)] },
    environment, build_camera machine view_params bitmap,
    build_frame (build_camera machine view_params bitmap) bitmap rend_params,
    rfl, h1, h2, rfl, rfl, rfl, henv, rfl, rfl,
    build_frame_camera _ bitmap rend_params, rfl, rfl⟩

/-! ## Name resolution -/

theorem sample_env_prefixed : prefixed_names sample_env :=
  fun _ _ => ⟨_, rfl⟩

/-- C22. Name resolution is idempotent: `make_unique_name` returns a name that
is absent from the collection unchanged; for a name that is present it returns
another name, which starts with the original name followed by `_` and is
absent from the collection; so applying it to its own result, against the same
collection, returns that result. The renderer's `asr::make_unique_name` is
taken to return an absent name that starts with the prefix it is given. -/
theorem make_unique_name_idempotent (env : Env) (hf : fresh_names env)
    (hp : prefixed_names env) (entities : List String) (name : String) :
    (name ∉ entities → make_unique_name env entities name = name) ∧
    (name ∈ entities →
      make_unique_name env entities name ≠ name ∧
      (∃ suffix, make_unique_name env entities name = name ++ "_" ++ suffix) ∧
      make_unique_name env entities name ∉ entities) ∧
    make_unique_name env entities (make_unique_name env entities name) =
      make_unique_name env entities name := by
  have habs : make_unique_name env entities name ∉ entities := by
    unfold make_unique_name
    by_cases h : name ∈ entities
    · rw [if_pos h]
      exact hf _ _
    · rw [if_neg h]
      exact h
  refine ⟨?_, ?_, ?_⟩
  · intro h
    unfold make_unique_name
    rw [if_neg h]
  · intro h
    refine ⟨?_, ?_, habs⟩
    · intro heq
      rw [heq] at habs
      exact habs h
    · unfold make_unique_name
      rw [if_pos h]
      exact hp _ _
  · generalize make_unique_name env entities name = result at habs
    unfold make_unique_name
    rw [if_neg habs]

theorem make_unique_name_idempotent_witness :
    fresh_names sample_env ∧ prefixed_names sample_env ∧
    "Box" ∈ ["Box", "Plane"] ∧
    make_unique_name sample_env ["Box", "Plane"] "Box" ≠ "Box" ∧
    (∃ suffix,
      make_unique_name sample_env ["Box", "Plane"] "Box" = "Box" ++ "_" ++ suffix) ∧
    make_unique_name sample_env ["Box", "Plane"] "Box" ∉ ["Box", "Plane"] ∧
    make_unique_name sample_env ["Box", "Plane"]
        (make_unique_name sample_env ["Box", "Plane"] "Box") =
      make_unique_name sample_env ["Box", "Plane"] "Box" :=
  have hmem : "Box" ∈ ["Box", "Plane"] := by decide
  have h := make_unique_name_idempotent sample_env sample_env_fresh sample_env_prefixed
    ["Box", "Plane"] "Box"
  ⟨sample_env_fresh, sample_env_prefixed, hmem, (h.2.1 hmem).1, (h.2.1 hmem).2.1,
    (h.2.1 hmem).2.2, h.2.2⟩

/-! ## Normals of smoothed corners -/

/-- A corner of a smoothed face for which the source resolves the host normal
`n` uses `n` through a freshly pushed copy. -/
theorem corner_fresh_copy (name : String) (mesh : Mesh) (i j : Nat) (f : Face)
    (h : mesh.faces[i]? = some f) (hs : f.smGroup ≠ 0) (hj : j < 3) (n : Point3)
    (hn : host_normal mesh f.smGroup f.matID (f.getVert j) = some (to_gvector3 n)) :
    uses_fresh_copy name mesh i j n := by
  obtain ⟨ht, ns, hfill⟩ := triangle_of_face name mesh i f h
  obtain ⟨g0, g1, g2, g3⟩ :=
    face_normals_smooth mesh (object_before_face name mesh i) i f hs
  have hafter : (object_after_face name mesh i).vertex_normals =
      (face_normals mesh (object_before_face name mesh i) i f).1.vertex_normals := by
    rw [object_after_face_eq name mesh i f h, translate_face_normals]
  unfold uses_fresh_copy
  rw [ht, hfill, hafter, g0]
  simp only [g1, g2, g3]
  generalize (object_before_face name mesh i).vertex_normals = L at *
  generalize hn0 : host_normal mesh f.smGroup f.matID (f.getVert 0) = a0 at *
  generalize hn1 : host_normal mesh f.smGroup f.matID (f.getVert 1) = a1 at *
  generalize hn2 : host_normal mesh f.smGroup f.matID (f.getVert 2) = a2 at *
  have hcases : j = 0 ∨ j = 1 ∨ j = 2 := by omega
  rcases hcases with rfl | rfl | rfl
  · rw [hn0] at hn
    subst hn
    refine ⟨_, L.length, rfl, by simp [Triangle.normal_index], Nat.le_refl _, by simp, ?_, ?_⟩
    · intro j2 hj2 hne
      have hc : j2 = 1 ∨ j2 = 2 := by omega
      rcases hc with rfl | rfl
      · cases a1 <;> simp [Triangle.normal_index]
      · cases a1 <;> cases a2 <;> simp [Triangle.normal_index]
    · have := getElem?_append_mid L [] (a1.toList ++ a2.toList ++ ns) (to_gvector3 n)
      simpa using this
  · rw [hn1] at hn
    subst hn
    refine ⟨_, L.length + a0.toList.length, rfl, by simp [Triangle.normal_index],
      Nat.le_add_right _ _, by simp, ?_, ?_⟩
    · intro j2 hj2 hne
      have hc : j2 = 0 ∨ j2 = 2 := by omega
      rcases hc with rfl | rfl
      · cases a0 <;> simp [Triangle.normal_index]
      · cases a0 <;> cases a2 <;> simp [Triangle.normal_index]
    · have := getElem?_append_mid L a0.toList (a2.toList ++ ns) (to_gvector3 n)
      simpa using this
  · rw [hn2] at hn
    subst hn
    refine ⟨_, L.length + (a0.toList.length + a1.toList.length), rfl,
      by simp [Triangle.normal_index], Nat.le_add_right _ _, by simp, ?_, ?_⟩
    · intro j2 hj2 hne
      have hc : j2 = 0 ∨ j2 = 1 := by omega
      rcases hc with rfl | rfl
      · cases a0 <;> cases a1 <;> simp [Triangle.normal_index]
      · cases a0 <;> cases a1 <;> simp [Triangle.normal_index]
    · have := getElem?_append_mid L (a0.toList ++ a1.toList) ns (to_gvector3 n)
      simpa [Nat.add_assoc] using this

/-- C23. Smoothed-corner normal resolution: for a face with a non-zero
smoothing-group mask and each of its three corners, when the corner vertex
has exactly one normal the corner uses that normal (`rn`); when it has more
than one and some listed normal (`ern[k]` with `k` below the count) has groups
that meet the face's mask and the face's material ID, the corner uses the
first such normal in list order; in both cases through a freshly pushed copy,
whose index is the corner's normal index. -/
theorem smoothed_corner_normal (name : String) (mesh : Mesh) (i j : Nat) (f : Face)
    (h : mesh.faces[i]? = some f) (hs : f.smGroup ≠ 0) (hj : j < 3) :
    ((mesh.getRVert (f.getVert j)).rFlags &&& NORCT_MASK = 1 →
      uses_fresh_copy name mesh i j (mesh.getRVert (f.getVert j)).rn.normal) ∧
    (1 < (mesh.getRVert (f.getVert j)).rFlags &&& NORCT_MASK →
      (∃ k, k < (mesh.getRVert (f.getVert j)).rFlags &&& NORCT_MASK ∧
        (f.smGroup &&& ((mesh.getRVert (f.getVert j)).ern k).smGroup) ≠ 0 ∧
        f.matID = ((mesh.getRVert (f.getVert j)).ern k).mtlIndex) →
      ∃ k0, k0 < (mesh.getRVert (f.getVert j)).rFlags &&& NORCT_MASK ∧
        ((f.smGroup &&& ((mesh.getRVert (f.getVert j)).ern k0).smGroup) ≠ 0 ∧
          f.matID = ((mesh.getRVert (f.getVert j)).ern k0).mtlIndex) ∧
        (∀ k, k < k0 →
          ¬ ((f.smGroup &&& ((mesh.getRVert (f.getVert j)).ern k).smGroup) ≠ 0 ∧
            f.matID = ((mesh.getRVert (f.getVert j)).ern k).mtlIndex)) ∧
        uses_fresh_copy name mesh i j ((mesh.getRVert (f.getVert j)).ern k0).normal) := by
  constructor
  · intro hc
    apply corner_fresh_copy name mesh i j f h hs hj
    unfold host_normal
    simp only [hc, if_true]
    rfl
  · intro hc hex
    obtain ⟨k, hk, hm⟩ := hex
    obtain ⟨k0, h1, h2, h3, h4⟩ :=
      find_normal_first (mesh.getRVert (f.getVert j)).ern f.smGroup f.matID
        ((mesh.getRVert (f.getVert j)).rFlags &&& NORCT_MASK) 0
        ⟨k, hk, by simpa using hm⟩
    simp only [Nat.zero_add] at h2 h3 h4
    refine ⟨k0, h1, h2, h3, ?_⟩
    apply corner_fresh_copy name mesh i j f h hs hj
    unfold host_normal
    have hne : ¬ ((mesh.getRVert (f.getVert j)).rFlags &&& NORCT_MASK = 1) := by omega
    simp only [hne, if_false, h4]
    rfl

theorem smoothed_corner_normal_witness :
    split_mesh.faces[1]? = some { v0 := 0, v1 := 2, v2 := 3, smGroup := 3, matID := 0 } ∧
    (3 : Nat) ≠ 0 ∧ 0 < 3 ∧
    1 < (split_mesh.getRVert 0).rFlags &&& NORCT_MASK ∧
    ∃ k0, k0 < (split_mesh.getRVert 0).rFlags &&& NORCT_MASK ∧
      ((3 &&& ((split_mesh.getRVert 0).ern k0).smGroup) ≠ 0 ∧
        0 = ((split_mesh.getRVert 0).ern k0).mtlIndex) ∧
      (∀ k, k < k0 →
        ¬ ((3 &&& ((split_mesh.getRVert 0).ern k).smGroup) ≠ 0 ∧
          0 = ((split_mesh.getRVert 0).ern k).mtlIndex)) ∧
      uses_fresh_copy "m" split_mesh 1 0 ((split_mesh.getRVert 0).ern k0).normal :=
  ⟨rfl, by decide, by decide, by decide,
    (smoothed_corner_normal "m" split_mesh 1 0
      { v0 := 0, v1 := 2, v2 := 3, smGroup := 3, matID := 0 } rfl (by decide)
      (by decide)).2 (by decide) ⟨0, by decide, by decide, by decide⟩⟩

/-! ## Transform of a default light -/

theorem is_zero_iff (m : Matrix3) :
    is_zero m = true ↔ ∀ (row : Fin 4) (col : Fin 3), m row col = 0 := by
  simp [is_zero, List.all_eq_true, List.mem_finRange]

theorem add_default_light_transform (env : Env) (a : Assembly) (d : DefaultLight) :
    (add_default_light env a d).lights.map (·.transform) =
      a.lights.map (·.transform) ++
        if d.ls.type = LightType.AMBIENT_LGT then []
        else [if is_zero d.tm then Transformd.identity
              else Transformd.from_local_to_parent d.tm] := by
  unfold add_default_light
  cases d.ls.type <;>
    simp [insert_color, add_omni_light, add_spot_light, add_directional_light]

/-- C24. Default-light transform sentinel: `is_zero` returns true exactly when
the 12 entries (4 rows of 3 columns) of the matrix are zero; and the lights
that `add_default_lights` appends are, in order, those of the non-ambient
default lights (an ambient one has no light), each with the identity
transform when its matrix is all-zero and with the local-to-parent transform
built from its matrix otherwise. -/
theorem default_light_transform :
    (∀ m : Matrix3, is_zero m = true ↔ ∀ (row : Fin 4) (col : Fin 3), m row col = 0) ∧
    (∀ (env : Env) (a : Assembly) (default_lights : List DefaultLight),
      (add_default_lights env a default_lights).lights.map (·.transform) =
        a.lights.map (·.transform) ++
          (default_lights.filter
            (fun d => decide (d.ls.type ≠ LightType.AMBIENT_LGT))).map
            (fun d => if is_zero d.tm then Transformd.identity
              else Transformd.from_local_to_parent d.tm)) ∧
    (∀ (env : Env) (a : Assembly) (d : DefaultLight),
      d.ls.type ≠ LightType.AMBIENT_LGT →
      ∃ light, (add_default_lights env a [d]).lights = a.lights ++ [light] ∧
        ((∀ (row : Fin 4) (col : Fin 3), d.tm row col = 0) →
          light.transform = Transformd.identity) ∧
        ((∃ (row : Fin 4) (col : Fin 3), d.tm row col ≠ 0) →
          light.transform = Transformd.from_local_to_parent d.tm)) := by
  refine ⟨is_zero_iff, ?_, ?_⟩
  · intro env a default_lights
    induction default_lights generalizing a with
    | nil => simp [add_default_lights]
    | cons d rest ih =>
      have hstep : add_default_lights env a (d :: rest) =
          add_default_lights env (add_default_light env a d) rest := rfl
      rw [hstep, ih, add_default_light_transform]
      by_cases hd : d.ls.type = LightType.AMBIENT_LGT
      · simp [hd, List.filter]
      · simp [hd, List.filter]
  · intro env a d hd
    have hz := is_zero_iff d.tm
    have hone : add_default_lights env a [d] = add_default_light env a d := rfl
    rw [hone]
    unfold add_default_light
    cases ht : d.ls.type with
    | AMBIENT_LGT => exact absurd ht hd
    | OMNI_LGT =>
      refine ⟨_, rfl, ?_, ?_⟩
      · intro h0
        simp [hz.mpr h0]
      · intro h1
        have hne : ¬ (is_zero d.tm = true) := by
          intro hc
          obtain ⟨row, col, hrc⟩ := h1
          exact hrc (hz.mp hc row col)
        simp [hne]
    | SPOT_LGT =>
      refine ⟨_, rfl, ?_, ?_⟩
      · intro h0
        simp [hz.mpr h0]
      · intro h1
        have hne : ¬ (is_zero d.tm = true) := by
          intro hc
          obtain ⟨row, col, hrc⟩ := h1
          exact hrc (hz.mp hc row col)
        simp [hne]
    | DIRECT_LGT =>
      refine ⟨_, rfl, ?_, ?_⟩
      · intro h0
        simp [hz.mpr h0]
      · intro h1
        have hne : ¬ (is_zero d.tm = true) := by
          intro hc
          obtain ⟨row, col, hrc⟩ := h1
          exact hrc (hz.mp hc row col)
        simp [hne]

/-! ## Referential integrity -/

theorem instances_resolved_grow (a b : Assembly) (os : List MeshObject)
    (ms : List Material) (ho : b.objects = a.objects ++ os)
    (hm : b.materials = a.materials ++ ms)
    (hi : b.object_instances = a.object_instances) (h : instances_resolved a) :
    instances_resolved b := by
  intro inst hinst
  rw [hi] at hinst
  obtain ⟨h1, m, h2, h3, h4⟩ := h inst hinst
  refine ⟨?_, m, h2, h3, ?_⟩
  · rw [ho, List.map_append, List.mem_append]
    exact Or.inl h1
  · rw [hm, List.map_append, List.mem_append]
    exact Or.inl h4

theorem instances_resolved_add (a b : Assembly) (ms : List Material)
    (inst : ObjectInstance) (ho : b.objects = a.objects)
    (hm : b.materials = a.materials ++ ms)
    (hi : b.object_instances = a.object_instances ++ [inst])
    (h : instances_resolved a)
    (hobj : inst.object_name ∈ a.objects.map (·.name))
    (hmat : ∃ material_name,
      dict_get inst.front_material_mappings "material" = some material_name ∧
      dict_get inst.back_material_mappings "material" = some material_name ∧
      material_name ∈ b.materials.map (·.name)) :
    instances_resolved b := by
  intro i2 hmem
  rw [hi, List.mem_append, List.mem_singleton] at hmem
  rcases hmem with hold | hnew
  · obtain ⟨h1, m, h2, h3, h4⟩ := h i2 hold
    refine ⟨?_, m, h2, h3, ?_⟩
    · rw [ho]
      exact h1
    · rw [hm, List.map_append, List.mem_append]
      exact Or.inl h4
  · subst hnew
    refine ⟨?_, hmat⟩
    rw [ho]
    exact hobj

theorem instance_of_resolved (env : Env) (a : Assembly) (node : INode)
    (object_name : String) (type : RenderType) (material_name : String) :
    (instance_of env a node object_name type material_name).object_name = object_name ∧
    dict_get (instance_of env a node object_name type material_name).front_material_mappings
      "material" = some material_name ∧
    dict_get (instance_of env a node object_name type material_name).back_material_mappings
      "material" = some material_name := by
  simp [instance_of, dict_insert, dict_get]

theorem create_object_instance_resolved (env : Env) (hn : named_materials env)
    (s : BuildState) (node : INode) (object_name : String) (type : RenderType)
    (hobj : object_name ∈ s.assembly.objects.map (·.name))
    (hi : instances_resolved s.assembly) (hr : registries_resolved s) :
    instances_resolved (create_object_instance env s node object_name type).assembly ∧
    registries_resolved (create_object_instance env s node object_name type) := by
  obtain ⟨hr1, hr2⟩ := hr
  have hinst := fun m => instance_of_resolved env s.assembly node object_name type m
  cases hm : node.mtl with
  | none =>
    rw [create_object_instance_no_mtl env s node object_name type hm]
    refine ⟨?_, hr1, ?_⟩
    · refine instances_resolved_add s.assembly _ _ _ rfl rfl rfl hi ?_ ?_
      · rw [(hinst _).1]
        exact hobj
      · exact ⟨_, (hinst _).2.1, (hinst _).2.2, by simp⟩
    · intro p name hp
      simp only [List.map_append, List.mem_append]
      exact Or.inl (hr2 p name hp)
  | some p =>
    cases hp : (env.mtl p).appleseed_mtl with
    | none =>
      rw [create_object_instance_other_mtl env s node object_name type p hm hp]
      refine ⟨?_, hr1, ?_⟩
      · refine instances_resolved_add s.assembly _ _ _ rfl rfl rfl hi ?_ ?_
        · rw [(hinst _).1]
          exact hobj
        · exact ⟨_, (hinst _).2.1, (hinst _).2.2, by simp⟩
      · intro q name hq
        simp only [List.map_append, List.mem_append]
        exact Or.inl (hr2 q name hq)
    | some m =>
      cases hfind : map_find s.material_map p with
      | none =>
        rw [create_object_instance_new_mtl env s node object_name type p m hm hp hfind]
        refine ⟨?_, hr1, ?_⟩
        · refine instances_resolved_add s.assembly _ _ _ rfl rfl rfl hi ?_ ?_
          · rw [(hinst _).1]
            exact hobj
          · refine ⟨_, (hinst _).2.1, (hinst _).2.2, ?_⟩
            simp only [List.map_append, List.mem_append, List.map_cons, List.map_nil,
              List.mem_singleton]
            right
            rw [hn p m hp]
        · intro q name hq
          simp only [map_find_cons] at hq
          simp only [List.map_append, List.mem_append, List.map_cons, List.map_nil,
            List.mem_singleton]
          by_cases hpq : p = q
          · subst hpq
            simp only [if_true, Option.some.injEq] at hq
            right
            rw [hn p m hp]
            exact hq.symm
          · simp only [hpq, if_false] at hq
            exact Or.inl (hr2 q name hq)
      | some name =>
        rw [create_object_instance_known_mtl env s node object_name type p m name hm hp hfind]
        refine ⟨?_, hr1, hr2⟩
        refine instances_resolved_add s.assembly _ [] _ rfl (by simp) rfl hi ?_ ?_
        · rw [(hinst _).1]
          exact hobj
        · exact ⟨_, (hinst _).2.1, (hinst _).2.2, hr2 p name hfind⟩

theorem add_object_resolved (env : Env) (hn : named_materials env) (type : RenderType)
    (s : BuildState) (n : INode)
    (h : instances_resolved s.assembly ∧ registries_resolved s) :
    instances_resolved (add_object env type s n).assembly ∧
    registries_resolved (add_object env type s n) := by
  obtain ⟨hi, hr⟩ := h
  cases hfind : map_find s.object_map n.objectRef with
  | some info =>
    rw [add_object_known env type s n info hfind]
    by_cases hv : info.m_valid = true
    · rw [if_pos hv]
      exact create_object_instance_resolved env hn s n info.m_name type
        (hr.1 _ info hfind hv) hi hr
    · rw [if_neg hv]
      exact ⟨hi, hr⟩
  | none =>
    cases htri : n.tri_object with
    | some mesh =>
      rw [add_object_new_mesh env type s n mesh hfind htri]
      have hname : (fill_mesh_object
          (make_unique_name env (s.assembly.objects.map (·.name)) n.name) mesh).name =
          make_unique_name env (s.assembly.objects.map (·.name)) n.name :=
        (fill_mesh_object_frame _ mesh).2.2.1
      apply create_object_instance_resolved env hn
      · simp only [List.map_append, List.mem_append, List.map_cons, List.map_nil,
          List.mem_singleton]
        right
        exact hname.symm
      · exact instances_resolved_grow s.assembly _ _ [] rfl (by simp) rfl hi
      · constructor
        · intro ref info hq hvalid
          simp only [map_find_cons] at hq
          simp only [List.map_append, List.mem_append, List.map_cons, List.map_nil,
            List.mem_singleton]
          by_cases hpq : n.objectRef = ref
          · simp only [hpq, if_true, Option.some.injEq] at hq
            right
            rw [← hq, hname]
          · simp only [hpq, if_false] at hq
            exact Or.inl (hr.1 ref info hq hvalid)
        · exact hr.2
    | none =>
      rw [add_object_failed env type s n hfind htri]
      refine ⟨hi, ?_, hr.2⟩
      intro ref info hq hvalid
      simp only [map_find_cons] at hq
      by_cases hpq : n.objectRef = ref
      · simp only [hpq, if_true, Option.some.injEq] at hq
        rw [← hq] at hvalid
        cases hvalid
      · simp only [hpq, if_false] at hq
        exact hr.1 ref info hq hvalid

theorem foldl_add_object_resolved (env : Env) (hn : named_materials env)
    (type : RenderType) (nodes : List INode) :
    ∀ s : BuildState, instances_resolved s.assembly ∧ registries_resolved s →
      instances_resolved (nodes.foldl (add_object env type) s).assembly ∧
      registries_resolved (nodes.foldl (add_object env type) s) := by
  induction nodes with
  | nil => intro s h; exact h
  | cons n rest ih =>
    intro s h
    exact ih _ (add_object_resolved env hn type s n h)

theorem add_light_objects (env : Env) (a : Assembly) (node : LightNode) :
    (add_light env a node).objects = a.objects ∧
    (add_light env a node).materials = a.materials := by
  unfold add_light
  cases node.classID <;> exact ⟨rfl, rfl⟩

theorem add_default_light_objects (env : Env) (a : Assembly) (d : DefaultLight) :
    (add_default_light env a d).objects = a.objects ∧
    (add_default_light env a d).materials = a.materials := by
  unfold add_default_light
  cases d.ls.type <;> exact ⟨rfl, rfl⟩

theorem add_lights_objects (env : Env) (lights : List LightNode) :
    ∀ a : Assembly,
      (lights.foldl (add_light env) a).objects = a.objects ∧
      (lights.foldl (add_light env) a).materials = a.materials := by
  induction lights with
  | nil => intro a; exact ⟨rfl, rfl⟩
  | cons l rest ih =>
    intro a
    simp only [List.foldl]
    rw [(ih _).1, (ih _).2]
    exact add_light_objects env a l

theorem add_default_lights_objects (env : Env) (lights : List DefaultLight) :
    ∀ a : Assembly,
      (lights.foldl (add_default_light env) a).objects = a.objects ∧
      (lights.foldl (add_default_light env) a).materials = a.materials := by
  induction lights with
  | nil => intro a; exact ⟨rfl, rfl⟩
  | cons l rest ih =>
    intro a
    simp only [List.foldl]
    rw [(ih _).1, (ih _).2]
    exact add_default_light_objects env a l

theorem populate_assembly_objects (env : Env) (entities : MaxSceneEntities)
    (default_lights : List DefaultLight) (type : RenderType) (a : Assembly) :
    (populate_assembly env a entities default_lights type).objects =
      (add_objects env a entities type).objects ∧
    (populate_assembly env a entities default_lights type).materials =
      (add_objects env a entities type).materials := by
  unfold populate_assembly
  by_cases h : entities.m_lights.isEmpty = true
  · simp only [h, if_true]
    exact add_default_lights_objects env default_lights _
  · simp only [h, if_false]
    exact add_lights_objects env entities.m_lights _

/-- C26. Referential integrity of instances: after `populate_assembly` on an
empty assembly, every object instance names an object of the assembly and
the value of its `material` binding names a material of the assembly; and at
every step of `add_objects` (after any number of nodes) the same holds of
the instances created so far, every valid entry of the Object Registry names
an object of the assembly and every value of the Material Registry names a
material of the assembly. A renderer-aware material is taken to return a
material of the requested name. -/
theorem referential_integrity (env : Env) (hn : named_materials env)
    (entities : MaxSceneEntities) (default_lights : List DefaultLight)
    (type : RenderType) :
    instances_resolved
      (populate_assembly env Assembly.empty entities default_lights type) ∧
    ∀ k : Nat,
      instances_resolved
        ((entities.m_objects.take k).foldl (add_object env type)
          (initial_state Assembly.empty)).assembly ∧
      registries_resolved
        ((entities.m_objects.take k).foldl (add_object env type)
          (initial_state Assembly.empty)) := by
  have h0 : instances_resolved (initial_state Assembly.empty).assembly ∧
      registries_resolved (initial_state Assembly.empty) := by
    refine ⟨?_, ?_, ?_⟩
    · intro inst hinst
      simp [initial_state, Assembly.empty] at hinst
    · intro ref info hq
      simp [initial_state, map_find] at hq
    · intro p name hq
      simp [initial_state, map_find] at hq
  refine ⟨?_, fun k => foldl_add_object_resolved env hn type _ _ h0⟩
  have hall := (foldl_add_object_resolved env hn type entities.m_objects _ h0).1
  obtain ⟨ho, hm⟩ := populate_assembly_objects env entities default_lights type
    Assembly.empty
  have hi := populate_assembly_instances env entities default_lights type Assembly.empty
  rw [add_objects_eq] at ho hm hi
  exact instances_resolved_grow _ _ [] [] (by simp [ho]) (by simp [hm]) hi hall

theorem referential_integrity_witness :
    named_materials sample_env ∧
    instances_resolved
      (populate_assembly sample_env Assembly.empty sample_scene
        [sample_default_light LightType.OMNI_LGT] RenderType.Default) :=
  ⟨sample_env_named,
    (referential_integrity sample_env sample_env_named sample_scene
      [sample_default_light LightType.OMNI_LGT] RenderType.Default).1⟩

/-! ## Disney material -/

/-- The layer that `create_material` adds: its `base_color` and the scalar
expressions, and the name and model of the material. -/
theorem create_material_layer (env : Env) (machine : Machine) (util : Utilities)
    (mtl : AppleseedDisneyMtl) (assembly : Assembly) (name : String) :
    ∃ layer,
      (AppleseedDisneyMtl.create_material env machine util mtl assembly name).1.layers =
        [layer] ∧
      (AppleseedDisneyMtl.create_material env machine util mtl assembly name).1.name =
        name ∧
      dict_get layer "base_color" =
        some (.str
          (if util.is_bitmap_texture mtl.m_base_color_texmap then
            util.fmt_expr_bitmap mtl.m_base_color_texmap
          else env.fmt_expr (env.linear_rgb_to_srgb mtl.m_base_color))) ∧
      dict_get layer "metallic" =
        some (.str (util.fmt_expr_scalar (machine.fdiv mtl.m_metallic 100)
          mtl.m_metallic_texmap)) ∧
      dict_get layer "specular" =
        some (.str (util.fmt_expr_scalar (machine.fdiv mtl.m_specular 100)
          mtl.m_specular_texmap)) ∧
      dict_get layer "specular_tint" =
        some (.str (util.fmt_expr_scalar (machine.fdiv mtl.m_specular_tint 100)
          mtl.m_specular_tint_texmap)) ∧
      dict_get layer "anisotropic" =
        some (.str (util.fmt_expr_scalar mtl.m_anisotropy mtl.m_anisotropy_texmap)) ∧
      dict_get layer "roughness" =
        some (.str (util.fmt_expr_scalar (machine.fdiv mtl.m_roughness 100)
          mtl.m_roughness_texmap)) ∧
      dict_get layer "clearcoat" =
        some (.str (util.fmt_expr_scalar (machine.fdiv mtl.m_clearcoat 100)
          mtl.m_clearcoat_texmap)) ∧
      dict_get layer "clearcoat_gloss" =
        some (.str (util.fmt_expr_scalar (machine.fdiv mtl.m_clearcoat_gloss 100)
          mtl.m_clearcoat_gloss_texmap)) := by
  unfold AppleseedDisneyMtl.create_material
  refine ⟨_, rfl, rfl, ?_, ?_, ?_, ?_, ?_, ?_, ?_, ?_⟩
  · rw [dict_get_insert_other _ _ _ _ (by decide), dict_get_insert_other _ _ _ _ (by decide),
      dict_get_insert_other _ _ _ _ (by decide), dict_get_insert_other _ _ _ _ (by decide),
      dict_get_insert_other _ _ _ _ (by decide), dict_get_insert_other _ _ _ _ (by decide),
      dict_get_insert_other _ _ _ _ (by decide)]
    by_cases hb : util.is_bitmap_texture mtl.m_base_color_texmap = true
    · simp only [hb, if_true]
      exact dict_get_insert_same _ _ _
    · simp only [hb, if_false]
      exact dict_get_insert_same _ _ _
  · rw [dict_get_insert_other _ _ _ _ (by decide), dict_get_insert_other _ _ _ _ (by decide),
      dict_get_insert_other _ _ _ _ (by decide), dict_get_insert_other _ _ _ _ (by decide),
      dict_get_insert_other _ _ _ _ (by decide), dict_get_insert_other _ _ _ _ (by decide)]
    exact dict_get_insert_same _ _ _
  · rw [dict_get_insert_other _ _ _ _ (by decide), dict_get_insert_other _ _ _ _ (by decide),
      dict_get_insert_other _ _ _ _ (by decide), dict_get_insert_other _ _ _ _ (by decide),
      dict_get_insert_other _ _ _ _ (by decide)]
    exact dict_get_insert_same _ _ _
  · rw [dict_get_insert_other _ _ _ _ (by decide), dict_get_insert_other _ _ _ _ (by decide),
      dict_get_insert_other _ _ _ _ (by decide), dict_get_insert_other _ _ _ _ (by decide)]
    exact dict_get_insert_same _ _ _
  · rw [dict_get_insert_other _ _ _ _ (by decide), dict_get_insert_other _ _ _ _ (by decide),
      dict_get_insert_other _ _ _ _ (by decide)]
    exact dict_get_insert_same _ _ _
  · rw [dict_get_insert_other _ _ _ _ (by decide), dict_get_insert_other _ _ _ _ (by decide)]
    exact dict_get_insert_same _ _ _
  · rw [dict_get_insert_other _ _ _ _ (by decide)]
    exact dict_get_insert_same _ _ _
  · exact dict_get_insert_same _ _ _

/-- The parameters of the material that `create_material` returns, and what it
inserts into the assembly, by the kind of the alpha slot. -/
theorem create_material_alpha (env : Env) (machine : Machine) (util : Utilities)
    (mtl : AppleseedDisneyMtl) (assembly : Assembly) (name : String) :
    (util.is_bitmap_texture mtl.m_alpha_texmap = true →
      (AppleseedDisneyMtl.create_material env machine util mtl assembly name).1.params =
        [("alpha_map",
          .str (util.insert_texture_and_instance assembly mtl.m_alpha_texmap []
            [("alpha_mode", .str "detect")]).2.2)] ∧
      (AppleseedDisneyMtl.create_material env machine util mtl assembly name).2 =
        ((util.insert_texture_and_instance assembly mtl.m_alpha_texmap []
            [("alpha_mode", .str "detect")]).1,
         (util.insert_texture_and_instance assembly mtl.m_alpha_texmap []
            [("alpha_mode", .str "detect")]).2.1)) ∧
    (util.is_bitmap_texture mtl.m_alpha_texmap = false →
      (AppleseedDisneyMtl.create_material env machine util mtl assembly name).1.params =
        [("alpha_map", .num (machine.fdiv mtl.m_alpha 100))] ∧
      (AppleseedDisneyMtl.create_material env machine util mtl assembly name).2 =
        ([], [])) := by
  unfold AppleseedDisneyMtl.create_material
  constructor
  · intro h
    simp [h, dict_insert]
  · intro h
    simp [h, dict_insert]

/-- C25. Base-colour conversion and texture bypass in `create_material`: when
the base-colour slot holds a bitmap texture (`is_bitmap_texture`), the layer's
`base_color` is the expression of that texture, formed without
`linear_rgb_to_srgb`; otherwise, whether the slot is empty or holds another
texture, it is the formatted linear-to-sRGB conversion of the material's base
colour. The material's `alpha_map` is the name of the texture instance
returned by `insert_texture_and_instance`, a string, exactly when the alpha
slot holds a bitmap texture, and the number `m_alpha / 100` otherwise. For the
sample material, with a bitmap texture in the base-colour slot and another
texture in the alpha slot, this gives the texture expression and the number 1. -/
theorem base_color_texture_bypass :
    (∀ (env : Env) (machine : Machine) (util : Utilities) (mtl : AppleseedDisneyMtl)
        (assembly : Assembly) (name : String),
      ∃ layer,
        (AppleseedDisneyMtl.create_material env machine util mtl assembly name).1.layers =
          [layer] ∧
        (util.is_bitmap_texture mtl.m_base_color_texmap = true →
          dict_get layer "base_color" =
            some (.str (util.fmt_expr_bitmap mtl.m_base_color_texmap))) ∧
        (util.is_bitmap_texture mtl.m_base_color_texmap = false →
          dict_get layer "base_color" =
            some (.str (env.fmt_expr (env.linear_rgb_to_srgb mtl.m_base_color)))) ∧
        (util.is_bitmap_texture mtl.m_alpha_texmap = true →
          dict_get
            (AppleseedDisneyMtl.create_material env machine util mtl assembly name).1.params
            "alpha_map" =
            some (.str (util.insert_texture_and_instance assembly mtl.m_alpha_texmap []
              [("alpha_mode", .str "detect")]).2.2)) ∧
        (util.is_bitmap_texture mtl.m_alpha_texmap = false →
          dict_get
            (AppleseedDisneyMtl.create_material env machine util mtl assembly name).1.params
            "alpha_map" =
            some (.num (machine.fdiv mtl.m_alpha 100))) ∧
        ((∃ instance_name,
            dict_get
              (AppleseedDisneyMtl.create_material env machine util mtl assembly
                name).1.params "alpha_map" = some (.str instance_name)) ↔
          util.is_bitmap_texture mtl.m_alpha_texmap = true)) ∧
    (∃ layer,
      (AppleseedDisneyMtl.create_material sample_env sample_machine sample_utilities
        sample_disney_mtl Assembly.empty "M1").1.layers = [layer] ∧
      dict_get layer "base_color" = some (.str "texture(tex5)")) ∧
    dict_get
      (AppleseedDisneyMtl.create_material sample_env sample_machine sample_utilities
        sample_disney_mtl Assembly.empty "M1").1.params "alpha_map" = some (.num 1) := by
  refine ⟨?_, ?_, ?_⟩
  · intro env machine util mtl assembly name
    obtain ⟨layer, h1, _, h2, _⟩ :=
      create_material_layer env machine util mtl assembly name
    obtain ⟨a1, a2⟩ := create_material_alpha env machine util mtl assembly name
    refine ⟨layer, h1, ?_, ?_, ?_, ?_, ?_⟩
    · intro hb
      rw [h2, if_pos hb]
    · intro hb
      rw [h2, hb]
      rfl
    · intro ha
      rw [(a1 ha).1]
      simp [dict_get]
    · intro ha
      rw [(a2 ha).1]
      simp [dict_get]
    · constructor
      · rintro ⟨instance_name, hi⟩
        by_contra hn
        have hf : util.is_bitmap_texture mtl.m_alpha_texmap = false := by
          simpa using hn
        rw [(a2 hf).1] at hi
        simp [dict_get] at hi
      · intro ha
        refine ⟨(util.insert_texture_and_instance assembly mtl.m_alpha_texmap []
          [("alpha_mode", .str "detect")]).2.2, ?_⟩
        rw [(a1 ha).1]
        simp [dict_get]
  · obtain ⟨layer, h1, _, h2, _⟩ :=
      create_material_layer sample_env sample_machine sample_utilities sample_disney_mtl
        Assembly.empty "M1"
    refine ⟨layer, h1, ?_⟩
    rw [h2]
    rfl
  · have hf : sample_utilities.is_bitmap_texture sample_disney_mtl.m_alpha_texmap = false := by
      decide
    rw [((create_material_alpha sample_env sample_machine sample_utilities sample_disney_mtl
      Assembly.empty "M1").2 hf).1]
    simp [dict_get, sample_machine, sample_disney_mtl, AppleseedDisneyMtl.create]

theorem normalised_of_range (machine : Machine) (rnd : Scalar → Scalar)
    (hd : rounded_division machine rnd) (stored : Scalar) (h0 : 0 ≤ stored)
    (h1 : stored ≤ 100) : normalised machine rnd stored (machine.fdiv stored 100) := by
  obtain ⟨hmono, hr0, hr1, hdiv⟩ := hd
  have he : machine.fdiv stored 100 = rnd (stored / 100) := hdiv stored 100 (by norm_num)
  refine ⟨rfl, he, ?_, ?_⟩
  · rw [he, ← hr0]
    exact hmono (div_nonneg h0 (by norm_num))
  · rw [he, ← hr1]
    exact hmono ((div_le_one (by norm_num)).mpr h1)

theorem sample_machine_rounded : rounded_division sample_machine id :=
  ⟨monotone_id, rfl, rfl, fun _ _ _ => rfl⟩

theorem create_in_declared_range : in_declared_range AppleseedDisneyMtl.create := by
  intro d hd
  simp only [g_block_desc, List.mem_cons, List.mem_singleton, List.not_mem_nil,
    or_false] at hd
  rcases hd with rfl | rfl | rfl | rfl | rfl | rfl | rfl | rfl <;>
    norm_num [AppleseedDisneyMtl.create]

theorem create_has_declared_defaults : has_declared_defaults AppleseedDisneyMtl.create := by
  intro d hd
  simp only [g_block_desc, List.mem_cons, List.mem_singleton, List.not_mem_nil,
    or_false] at hd
  rcases hd with rfl | rfl | rfl | rfl | rfl | rfl | rfl | rfl <;> rfl

/-- C27. Scalar normalisation in `create_material`: for member values inside
the ranges declared in `g_block_desc`, the scalar passed to `fmt_expr` for
`metallic`, `specular`, `specular_tint`, `roughness`, `clearcoat` and
`clearcoat_gloss`, and the number stored as `alpha_map` when the alpha slot
holds no bitmap texture, is the `float` quotient of the member by 100 and lies
in [0, 1]; the one passed for `anisotropic` is the member itself and lies in
[-1, 1]. With the declared defaults the scalars of `specular`, `roughness` and
alpha are the `float` values of 0.9 and 0.4, and 1. The `float` division is
taken to round the exact quotient monotonically and to leave 0 and 1 as they
are. -/
theorem scalar_normalisation (env : Env) (machine : Machine) (util : Utilities)
    (rnd : Scalar → Scalar) (hd : rounded_division machine rnd)
    (mtl : AppleseedDisneyMtl) (hr : in_declared_range mtl) (assembly : Assembly)
    (name : String) :
    ∃ layer metallic specular specular_tint roughness clearcoat clearcoat_gloss alpha,
      (AppleseedDisneyMtl.create_material env machine util mtl assembly name).1.layers =
        [layer] ∧
      dict_get layer "metallic" =
        some (.str (util.fmt_expr_scalar metallic mtl.m_metallic_texmap)) ∧
      normalised machine rnd mtl.m_metallic metallic ∧
      dict_get layer "specular" =
        some (.str (util.fmt_expr_scalar specular mtl.m_specular_texmap)) ∧
      normalised machine rnd mtl.m_specular specular ∧
      dict_get layer "specular_tint" =
        some (.str (util.fmt_expr_scalar specular_tint mtl.m_specular_tint_texmap)) ∧
      normalised machine rnd mtl.m_specular_tint specular_tint ∧
      dict_get layer "roughness" =
        some (.str (util.fmt_expr_scalar roughness mtl.m_roughness_texmap)) ∧
      normalised machine rnd mtl.m_roughness roughness ∧
      dict_get layer "clearcoat" =
        some (.str (util.fmt_expr_scalar clearcoat mtl.m_clearcoat_texmap)) ∧
      normalised machine rnd mtl.m_clearcoat clearcoat ∧
      dict_get layer "clearcoat_gloss" =
        some (.str (util.fmt_expr_scalar clearcoat_gloss mtl.m_clearcoat_gloss_texmap)) ∧
      normalised machine rnd mtl.m_clearcoat_gloss clearcoat_gloss ∧
      (util.is_bitmap_texture mtl.m_alpha_texmap = false →
        dict_get
          (AppleseedDisneyMtl.create_material env machine util mtl assembly name).1.params
          "alpha_map" = some (.num alpha)) ∧
      normalised machine rnd mtl.m_alpha alpha ∧
      dict_get layer "anisotropic" =
        some (.str (util.fmt_expr_scalar mtl.m_anisotropy mtl.m_anisotropy_texmap)) ∧
      -1 ≤ mtl.m_anisotropy ∧ mtl.m_anisotropy ≤ 1 ∧
      (has_declared_defaults mtl →
        specular = rnd (9 / 10) ∧ roughness = rnd (4 / 10) ∧ alpha = 1) := by
  obtain ⟨layer, h1, _, _, l1, l2, l3, l4, l5, l6, l7⟩ :=
    create_material_layer env machine util mtl assembly name
  obtain ⟨_, a2⟩ := create_material_alpha env machine util mtl assembly name
  unfold in_declared_range at hr
  simp only [g_block_desc, List.forall_mem_cons] at hr
  obtain ⟨r1, r2, r3, r4, r5, r6, r7, r8, _⟩ := hr
  refine ⟨layer, _, _, _, _, _, _, _, h1,
    l1, normalised_of_range machine rnd hd _ r1.1 r1.2,
    l2, normalised_of_range machine rnd hd _ r2.1 r2.2,
    l3, normalised_of_range machine rnd hd _ r3.1 r3.2,
    l5, normalised_of_range machine rnd hd _ r4.1 r4.2,
    l6, normalised_of_range machine rnd hd _ r6.1 r6.2,
    l7, normalised_of_range machine rnd hd _ r7.1 r7.2,
    ?_, normalised_of_range machine rnd hd _ r8.1 r8.2,
    l4, r5.1, r5.2, ?_⟩
  · intro ha
    rw [(a2 ha).1]
    simp [dict_get]
  · intro hdef
    unfold has_declared_defaults at hdef
    simp only [g_block_desc, List.forall_mem_cons] at hdef
    obtain ⟨_, d2, _, d4, _, _, _, d8, _⟩ := hdef
    obtain ⟨_, hr0, hr1, hdiv⟩ := hd
    rw [d2, d4, d8, hdiv _ _ (by norm_num), hdiv _ _ (by norm_num),
      hdiv _ _ (by norm_num)]
    refine ⟨?_, ?_, ?_⟩
    · norm_num
    · norm_num
    · rw [div_self (by norm_num), hr1]

theorem scalar_normalisation_witness :
    rounded_division sample_machine id ∧
    in_declared_range AppleseedDisneyMtl.create ∧
    ∃ specular roughness alpha,
      normalised sample_machine id AppleseedDisneyMtl.create.m_specular specular ∧
      normalised sample_machine id AppleseedDisneyMtl.create.m_roughness roughness ∧
      normalised sample_machine id AppleseedDisneyMtl.create.m_alpha alpha ∧
      specular = 9 / 10 ∧ roughness = 4 / 10 ∧ alpha = 1 := by
  obtain ⟨_, _, specular, _, roughness, _, _, alpha, _, _, _, _, h2, _, _, _, h4, _, _, _, _,
      _, h8, _, _, _, hdef⟩ :=
    scalar_normalisation sample_env sample_machine sample_utilities id
      sample_machine_rounded AppleseedDisneyMtl.create create_in_declared_range
      Assembly.empty "M1"
  obtain ⟨e2, e4, e8⟩ := hdef create_has_declared_defaults
  exact ⟨sample_machine_rounded, create_in_declared_range, specular, roughness, alpha,
    h2, h4, h8, e2, e4, e8⟩

/-- The Disney material honours the contract taken of a renderer-aware
material: the material it returns carries the requested name. -/
theorem disney_material_named (env : Env) (machine : Machine) (util : Utilities)
    (mtl : AppleseedDisneyMtl) (assembly : Assembly) (name : String) :
    ((AppleseedDisneyMtl.appleseed_mtl env machine util mtl).create_material assembly
      name).1.name = name := rfl

end AppleseedMax
